import Mathlib

/-!
# Earthworm Quest: the GLU helper routines of `glu.go`

A shallow embedding of the pixel-format descriptor, the texture fit resolver,
the 2:1 box-filter kernels, the general box-filter kernel, the mipmap
pyramid builder and the quadric sphere, followed by the theorems that settle
the specification's claims about them.

Modelling conventions.

* Go's `int` is modelled by `Int`.  Every `int` computed by the modelled
  functions is bounded by a buffer length or by a texture dimension, so no
  operation wraps for images that fit in memory, with one exception: the
  products of `nearestPow2` depend on the requested dimension alone, and they
  wrap at 64 bits as Go's `int` does (`wrapInt`).
* Go's `byte` is modelled by a `Nat` below 256.  Byte arithmetic wraps, so every
  byte operation carries an explicit `% 256`.
* A Go slice expression `t[a:]` over a buffer is modelled by a cursor (an
  offset into the buffer); reslicing beyond the end, indexing beyond the end
  and a failed `assert` are the run-time panics `Err.sliceBounds`,
  `Err.indexOutOfRange` and `Err.assertFailed`.
* Go's `float64` is modelled by the rational numbers where the operations of
  the source are exact (see the section on the general box filter), and by
  the expression that computes the value where they are not (see the section
  on the quadric sphere).
* The OpenGL context (version string, maximum texture size, proxy-texture
  probe, pixel-store state, texture uploads) is an explicit record that is
  threaded through the functions that touch it.
-/

namespace Glu

/-! ## OpenGL enumerants

The numeric values are those of the OpenGL registry, as declared by the
`go-gl` binding the program imports. -/

namespace gl

def COLOR_INDEX : Int := 0x1900
def STENCIL_INDEX : Int := 0x1901
def DEPTH_COMPONENT : Int := 0x1902
def RED : Int := 0x1903
def GREEN : Int := 0x1904
def BLUE : Int := 0x1905
def ALPHA : Int := 0x1906
def RGB : Int := 0x1907
def RGBA : Int := 0x1908
def LUMINANCE : Int := 0x1909
def LUMINANCE_ALPHA : Int := 0x190A
def BGR : Int := 0x80E0
def BGRA : Int := 0x80E1
def BYTE : Int := 0x1400
def UNSIGNED_BYTE : Int := 0x1401
def SHORT : Int := 0x1402
def UNSIGNED_SHORT : Int := 0x1403
def INT : Int := 0x1404
def UNSIGNED_INT : Int := 0x1405
def FLOAT : Int := 0x1406
def BITMAP : Int := 0x1A00
def UNSIGNED_BYTE_3_3_2 : Int := 0x8032
def UNSIGNED_SHORT_4_4_4_4 : Int := 0x8033
def UNSIGNED_SHORT_5_5_5_1 : Int := 0x8034
def UNSIGNED_INT_8_8_8_8 : Int := 0x8035
def UNSIGNED_INT_10_10_10_2 : Int := 0x8036
def UNSIGNED_BYTE_2_3_3_REV : Int := 0x8362
def UNSIGNED_SHORT_5_6_5 : Int := 0x8363
def UNSIGNED_SHORT_5_6_5_REV : Int := 0x8364
def UNSIGNED_SHORT_4_4_4_4_REV : Int := 0x8365
def UNSIGNED_SHORT_1_5_5_5_REV : Int := 0x8366
def UNSIGNED_INT_8_8_8_8_REV : Int := 0x8367
def UNSIGNED_INT_2_10_10_10_REV : Int := 0x8368
def UNPACK_SWAP_BYTES : Int := 0x0CF0
def UNPACK_LSB_FIRST : Int := 0x0CF1
def UNPACK_ROW_LENGTH : Int := 0x0CF2
def UNPACK_SKIP_ROWS : Int := 0x0CF3
def UNPACK_SKIP_PIXELS : Int := 0x0CF4
def UNPACK_ALIGNMENT : Int := 0x0CF5
def PACK_SWAP_BYTES : Int := 0x0D00
def PACK_LSB_FIRST : Int := 0x0D01
def PACK_ROW_LENGTH : Int := 0x0D02
def PACK_SKIP_ROWS : Int := 0x0D03
def PACK_SKIP_PIXELS : Int := 0x0D04
def PACK_ALIGNMENT : Int := 0x0D05
def MAX_TEXTURE_SIZE : Int := 0x0D33
def TRIANGLE_FAN : Int := 0x0006
def QUAD_STRIP : Int := 0x0008
def TEXTURE_1D : Int := 0x0DE0
def TEXTURE_2D : Int := 0x0DE1
def PROXY_TEXTURE_1D : Int := 0x8063
def PROXY_TEXTURE_2D : Int := 0x8064
def TEXTURE_CUBE_MAP_POSITIVE_X_ARB : Int := 0x8515
def TEXTURE_CUBE_MAP_NEGATIVE_X_ARB : Int := 0x8516
def TEXTURE_CUBE_MAP_POSITIVE_Y_ARB : Int := 0x8517
def TEXTURE_CUBE_MAP_NEGATIVE_Y_ARB : Int := 0x8518
def TEXTURE_CUBE_MAP_POSITIVE_Z_ARB : Int := 0x8519
def TEXTURE_CUBE_MAP_NEGATIVE_Z_ARB : Int := 0x851A
def PROXY_TEXTURE_CUBE_MAP_ARB : Int := 0x851B

end gl

/-! ## Run-time failures -/

/-- The ways a modelled call can stop without returning. -/
inductive Err where
  /-- The program's `assert` helper was called with `false`. -/
  | assertFailed
  /-- An index expression `s[i]` with `i` outside `0 .. len(s)-1`. -/
  | indexOutOfRange
  /-- A slice expression `s[a:]` with `a` outside `0 .. len(s)`. -/
  | sliceBounds
  /-- The error value `invalid format` of `checkMipmapArgs`. -/
  | invalidFormat
  /-- The error value `invalid operation` of `checkMipmapArgs`. -/
  | invalidOperation
  /-- The panic `invalid width/height` of `gluBuild2DMipmaps`. -/
  | invalidSize
  /-- An integer division or remainder by zero. -/
  | divideByZero
  /-- The call `make([]byte, n)` with a negative `n`. -/
  | makeNegative
  /-- A conversion whose result Go leaves to the implementation. -/
  | unspecified
  /-- The iteration budget of a modelled unbounded loop was used up. -/
  | outOfFuel
  deriving DecidableEq

deriving instance DecidableEq for Except

/-- The program's `assert`. -/
def assert (x : Bool) : Except Err Unit :=
  if x then .ok () else .error .assertFailed

/-! ## Pixel format descriptor -/

def legalFormat (format : Int) : Bool :=
  format == gl.COLOR_INDEX || format == gl.STENCIL_INDEX || format == gl.DEPTH_COMPONENT ||
  format == gl.RED || format == gl.GREEN || format == gl.BLUE || format == gl.ALPHA ||
  format == gl.RGB || format == gl.RGBA || format == gl.LUMINANCE ||
  format == gl.LUMINANCE_ALPHA || format == gl.BGR || format == gl.BGRA

def legalType (typ : Int) : Bool :=
  typ == gl.BITMAP || typ == gl.BYTE || typ == gl.UNSIGNED_BYTE || typ == gl.SHORT ||
  typ == gl.UNSIGNED_SHORT || typ == gl.INT || typ == gl.UNSIGNED_INT || typ == gl.FLOAT ||
  typ == gl.UNSIGNED_BYTE_3_3_2 || typ == gl.UNSIGNED_BYTE_2_3_3_REV ||
  typ == gl.UNSIGNED_SHORT_5_6_5 || typ == gl.UNSIGNED_SHORT_5_6_5_REV ||
  typ == gl.UNSIGNED_SHORT_4_4_4_4 || typ == gl.UNSIGNED_SHORT_4_4_4_4_REV ||
  typ == gl.UNSIGNED_SHORT_5_5_5_1 || typ == gl.UNSIGNED_SHORT_1_5_5_5_REV ||
  typ == gl.UNSIGNED_INT_8_8_8_8 || typ == gl.UNSIGNED_INT_8_8_8_8_REV ||
  typ == gl.UNSIGNED_INT_10_10_10_2 || typ == gl.UNSIGNED_INT_2_10_10_10_REV

def isTypePackedPixel (typ : Int) : Bool :=
  if !legalType typ then false
  else if typ == gl.UNSIGNED_BYTE_3_3_2 || typ == gl.UNSIGNED_BYTE_2_3_3_REV ||
    typ == gl.UNSIGNED_SHORT_5_6_5 || typ == gl.UNSIGNED_SHORT_5_6_5_REV ||
    typ == gl.UNSIGNED_SHORT_4_4_4_4 || typ == gl.UNSIGNED_SHORT_4_4_4_4_REV ||
    typ == gl.UNSIGNED_SHORT_5_5_5_1 || typ == gl.UNSIGNED_SHORT_1_5_5_5_REV ||
    typ == gl.UNSIGNED_INT_8_8_8_8 || typ == gl.UNSIGNED_INT_8_8_8_8_REV ||
    typ == gl.UNSIGNED_INT_10_10_10_2 || typ == gl.UNSIGNED_INT_2_10_10_10_REV then true
  else false

/-- The source returns `true` at once when the type IS a packed pixel type; the
two compatibility switches below that guard are reached by unpacked types only. -/
def isLegalFormatForPackedPixelType (format typ : Int) : Bool :=
  if isTypePackedPixel typ then true
  else if (typ == gl.UNSIGNED_BYTE_3_3_2 || typ == gl.UNSIGNED_BYTE_2_3_3_REV ||
    typ == gl.UNSIGNED_SHORT_5_6_5 || typ == gl.UNSIGNED_SHORT_5_6_5_REV) &&
    format != gl.RGB then false
  else if (typ == gl.UNSIGNED_SHORT_4_4_4_4 || typ == gl.UNSIGNED_SHORT_4_4_4_4_REV ||
    typ == gl.UNSIGNED_SHORT_5_5_5_1 || typ == gl.UNSIGNED_SHORT_1_5_5_5_REV ||
    typ == gl.UNSIGNED_INT_8_8_8_8 || typ == gl.UNSIGNED_INT_8_8_8_8_REV ||
    typ == gl.UNSIGNED_INT_10_10_10_2 || typ == gl.UNSIGNED_INT_2_10_10_10_REV) &&
    (format != gl.RGBA && format != gl.BGRA) then false
  else true

/-- The returned `error` is the `Except` outcome: `.ok ()` stands for `nil`. -/
def checkMipmapArgs (internalFormat format typ : Int) : Except Err Unit :=
  if !legalFormat format || !legalType typ then .error .invalidFormat
  else if format == gl.STENCIL_INDEX then .error .invalidFormat
  else if !isLegalFormatForPackedPixelType format typ then .error .invalidOperation
  else .ok ()

/-- The `float64` value `1 / 8.0`, as a rational number in lowest terms. -/
def oneEighth : ℚ := Rat.mk' 1 8 (by norm_num) (Nat.coprime_one_left 8)

/-- The number of bytes per element.  The source returns a `float64`; the four
values it can return (1/8, 1, 2, 4) are exact binary fractions, so the model
returns them as rationals. -/
def bytesPerElement (typ : Int) : ℚ :=
  if typ = gl.BITMAP then oneEighth
  else if typ = gl.UNSIGNED_SHORT then 2
  else if typ = gl.SHORT then 2
  else if typ = gl.UNSIGNED_BYTE then 1
  else if typ = gl.BYTE then 1
  else if typ = gl.INT then 4
  else if typ = gl.UNSIGNED_INT then 4
  else if typ = gl.FLOAT then 4
  else if typ = gl.UNSIGNED_BYTE_3_3_2 ∨ typ = gl.UNSIGNED_BYTE_2_3_3_REV then 1
  else if typ = gl.UNSIGNED_SHORT_5_6_5 ∨ typ = gl.UNSIGNED_SHORT_5_6_5_REV ∨
    typ = gl.UNSIGNED_SHORT_4_4_4_4 ∨ typ = gl.UNSIGNED_SHORT_4_4_4_4_REV ∨
    typ = gl.UNSIGNED_SHORT_5_5_5_1 ∨ typ = gl.UNSIGNED_SHORT_1_5_5_5_REV then 2
  else if typ = gl.UNSIGNED_INT_8_8_8_8 ∨ typ = gl.UNSIGNED_INT_8_8_8_8_REV ∨
    typ = gl.UNSIGNED_INT_10_10_10_2 ∨ typ = gl.UNSIGNED_INT_2_10_10_10_REV then 4
  else 4

def elementsPerGroup (format typ : Int) : Int :=
  if typ = gl.UNSIGNED_BYTE_3_3_2 ∨ typ = gl.UNSIGNED_BYTE_2_3_3_REV ∨
    typ = gl.UNSIGNED_SHORT_5_6_5 ∨ typ = gl.UNSIGNED_SHORT_5_6_5_REV ∨
    typ = gl.UNSIGNED_SHORT_4_4_4_4 ∨ typ = gl.UNSIGNED_SHORT_4_4_4_4_REV ∨
    typ = gl.UNSIGNED_SHORT_5_5_5_1 ∨ typ = gl.UNSIGNED_SHORT_1_5_5_5_REV ∨
    typ = gl.UNSIGNED_INT_8_8_8_8 ∨ typ = gl.UNSIGNED_INT_8_8_8_8_REV ∨
    typ = gl.UNSIGNED_INT_10_10_10_2 ∨ typ = gl.UNSIGNED_INT_2_10_10_10_REV then 1
  else if format = gl.RGB ∨ format = gl.BGR then 3
  else if format = gl.LUMINANCE_ALPHA then 2
  else if format = gl.RGBA ∨ format = gl.BGRA then 4
  else 1

/-! ## The OpenGL context -/

/-- One call of `gl.TexImage1D` or `gl.TexImage2D`, with the unpack state that is
current when the call is made.  `height` is `none` for `gl.TexImage1D`;
`pixels` is `none` for a nil data pointer and otherwise the bytes from the
pointer to the end of its buffer. -/
structure TexImage where
  target : Int
  level : Int
  internalFormat : Int
  width : Int
  height : Option Int
  format : Int
  typ : Int
  pixels : Option (List Nat)
  unpackAlignment : Int
  unpackRowLength : Int
  unpackSkipRows : Int
  unpackSkipPixels : Int
  unpackSwapBytes : Int
  deriving DecidableEq

/-- The part of the OpenGL context the GLU routines read or change.
`version` is the `GL_VERSION` string as bytes; `proxyReply` is the
implementation's answer to a proxy-texture request, i.e. the level-1
`TEXTURE_WIDTH` of the proxy target after that request (0 when the request is
refused); `proxyWidth` is the answer to the most recent request; `calls` lists
every texture-image call made so far, oldest first. -/
structure GLState where
  version : List Nat
  maxTextureSize : Int
  proxyReply : TexImage → Int
  proxyWidth : Int
  unpackAlignment : Int
  unpackRowLength : Int
  unpackSkipRows : Int
  unpackSkipPixels : Int
  unpackLSBFirst : Int
  unpackSwapBytes : Int
  packAlignment : Int
  packRowLength : Int
  packSkipRows : Int
  packSkipPixels : Int
  packLSBFirst : Int
  packSwapBytes : Int
  calls : List TexImage

/-- A computation in the OpenGL context that may stop with a panic; the state
reached so far is kept when it does. -/
def GLM (α : Type) : Type := GLState → Except Err α × GLState

namespace GLM

def pure {α : Type} (a : α) : GLM α := fun s => (.ok a, s)

def bind {α β : Type} (m : GLM α) (f : α → GLM β) : GLM β := fun s =>
  match m s with
  | (.ok a, s1) => f a s1
  | (.error e, s1) => (.error e, s1)

instance : Monad GLM where
  pure := GLM.pure
  bind := GLM.bind

/-- Run a computation that does not touch the context. -/
def lift {α : Type} (x : Except Err α) : GLM α := fun s => (x, s)

def get : GLM GLState := fun s => (.ok s, s)

def modify (f : GLState → GLState) : GLM Unit := fun s => (.ok (), f s)

end GLM

/-- Go's `a >= b` on strings: bytewise lexicographic order. -/
def stringGE : List Nat → List Nat → Bool
  | _, [] => true
  | [], _ :: _ => false
  | a :: as, b :: bs => if a > b then true else if a < b then false else stringGE as bs

/-- The first token `strings.Split(str, " ")[0]`: the bytes before the first space. -/
def firstToken (str : List Nat) : List Nat := str.takeWhile (fun c => c != 32)

/-- The bytes of the string literal `"1.1"`. -/
def version11 : List Nat := [49, 46, 49]

/-- The record of a texture-image call made in the state `s`. -/
def texImageRecord (s : GLState) (target level internalFormat width : Int)
    (height : Option Int) (format typ : Int) (pixels : Option (List Nat)) : TexImage where
  target := target
  level := level
  internalFormat := internalFormat
  width := width
  height := height
  format := format
  typ := typ
  pixels := pixels
  unpackAlignment := s.unpackAlignment
  unpackRowLength := s.unpackRowLength
  unpackSkipRows := s.unpackSkipRows
  unpackSkipPixels := s.unpackSkipPixels
  unpackSwapBytes := s.unpackSwapBytes

/-- The proxy targets. -/
def isProxyTarget (target : Int) : Bool :=
  target == gl.PROXY_TEXTURE_1D || target == gl.PROXY_TEXTURE_2D ||
    target == gl.PROXY_TEXTURE_CUBE_MAP_ARB

/-- The state after the proxy request `req` was made and answered. -/
def afterProbe (s : GLState) (req : TexImage) : GLState :=
  { s with calls := s.calls ++ [req], proxyWidth := s.proxyReply req }

/-- The state after the texture-image call `c` on a target that is not a proxy. -/
def afterUpload (s : GLState) (c : TexImage) : GLState :=
  { s with calls := s.calls ++ [c] }

/-- A texture-image call: it is appended to the call log, and a call on a proxy
target also sets the proxy width to the implementation's reply. -/
def texImage (target level internalFormat width : Int) (height : Option Int)
    (format typ : Int) (pixels : Option (List Nat)) : GLM Unit :=
  GLM.modify fun s =>
    let c := texImageRecord s target level internalFormat width height format typ pixels
    if isProxyTarget target then afterProbe s c else afterUpload s c

/-- The call `gl.TexImage2D(target, level, internalFormat, width, height, 0, format, typ, pixels)`. -/
def TexImage2D (target level internalFormat width height format typ : Int)
    (pixels : Option (List Nat)) : GLM Unit :=
  texImage target level internalFormat width (some height) format typ pixels

/-- The call `gl.TexImage1D(target, level, internalFormat, width, 0, format, typ, pixels)`. -/
def TexImage1D (target level internalFormat width format typ : Int)
    (pixels : Option (List Nat)) : GLM Unit :=
  texImage target level internalFormat width none format typ pixels

/-- The call `gl.GetIntegerv(pname, &x)` for the parameters the program reads;
the value of `x` is returned (0 for any other parameter). -/
def GetIntegerv (pname : Int) : GLM Int := do
  let s ← GLM.get
  return (
    if pname = gl.MAX_TEXTURE_SIZE then s.maxTextureSize
    else if pname = gl.UNPACK_ALIGNMENT then s.unpackAlignment
    else if pname = gl.UNPACK_ROW_LENGTH then s.unpackRowLength
    else if pname = gl.UNPACK_SKIP_ROWS then s.unpackSkipRows
    else if pname = gl.UNPACK_SKIP_PIXELS then s.unpackSkipPixels
    else if pname = gl.UNPACK_LSB_FIRST then s.unpackLSBFirst
    else if pname = gl.UNPACK_SWAP_BYTES then s.unpackSwapBytes
    else if pname = gl.PACK_ALIGNMENT then s.packAlignment
    else if pname = gl.PACK_ROW_LENGTH then s.packRowLength
    else if pname = gl.PACK_SKIP_ROWS then s.packSkipRows
    else if pname = gl.PACK_SKIP_PIXELS then s.packSkipPixels
    else if pname = gl.PACK_LSB_FIRST then s.packLSBFirst
    else if pname = gl.PACK_SWAP_BYTES then s.packSwapBytes
    else 0)

/-- The call `gl.PixelStorei(pname, param)` for the unpack parameters the
program writes.  The program only writes 0 or a value it has read from the same
parameter, which OpenGL accepts, so the parameter takes the value. -/
def PixelStorei (pname param : Int) : GLM Unit :=
  GLM.modify fun s =>
    if pname = gl.UNPACK_ALIGNMENT then { s with unpackAlignment := param }
    else if pname = gl.UNPACK_ROW_LENGTH then { s with unpackRowLength := param }
    else if pname = gl.UNPACK_SKIP_ROWS then { s with unpackSkipRows := param }
    else if pname = gl.UNPACK_SKIP_PIXELS then { s with unpackSkipPixels := param }
    else if pname = gl.UNPACK_SWAP_BYTES then { s with unpackSwapBytes := param }
    else s

/-- The call `gl.GetTexLevelParameteriv(proxyTarget, 1, gl.TEXTURE_WIDTH, &width)`
after a proxy request; the value of `width` is returned. -/
def GetTexLevelParameteriv : GLM Int := do
  return (← GLM.get).proxyWidth

/-! ## Texture fit resolver -/

/-- Go's `int` has 64 bits on the platforms the program is built for, and its
arithmetic wraps: the `int` that a result with the exact value `x` becomes. -/
def wrapInt (x : Int) : Int :=
  (x + 9223372036854775808) % 18446744073709551616 - 9223372036854775808

/-- The loop of `nearestPow2`, with `fuel` bounding the number of iterations.  The
products `i * 4` and `i * 2` wrap as Go's `int` does. -/
def nearestPow2Loop : Nat → Int → Int → Except Err Int
  | 0, _, _ => .error .outOfFuel
  | fuel + 1, v, i =>
    if v = 1 then .ok i
    else if v = 3 then .ok (wrapInt (i * 4))
    else nearestPow2Loop fuel (v >>> (1 : Nat)) (wrapInt (i * 2))

/-- The loop halves a positive `v` on every iteration, so `v` iterations are
enough (see `nearestPow2_nearest`). -/
def nearestPow2 (v : Int) : Except Err Int :=
  if v ≤ 0 then .ok (-1)
  else nearestPow2Loop v.toNat v 1

/-- The results `(*newWidth, *newHeight)` are returned as a pair. -/
def closestFitNoProxyTexture (width height : Int) : GLM (Int × Int) := do
  let maxSize ← GetIntegerv gl.MAX_TEXTURE_SIZE
  let w ← GLM.lift (nearestPow2 width)
  let newWidth := if w > maxSize then maxSize else w
  let h ← GLM.lift (nearestPow2 height)
  let newHeight := if h > maxSize then maxSize else h
  return (newWidth, newHeight)

/-- The probing loop of `closestFit`, with `fuel` bounding the number of
iterations.  Inside the loop the source declares `var width int32` for the
queried proxy width; that declaration shadows the parameter `width`, so the
fallback call receives the proxy width (which is 0 there) as its first
argument. -/
def closestFitLoop (target height internalFormat format typ : Int) :
    Nat → Int → Int → GLM (Int × Int)
  | 0, _, _ => GLM.lift (.error .outOfFuel)
  | fuel + 1, widthPowerOf2, heightPowerOf2 => do
    GLM.lift (assert (widthPowerOf2 > 0))
    GLM.lift (assert (heightPowerOf2 > 0))
    let widthAtLevelOne := if widthPowerOf2 > 1 then widthPowerOf2 >>> (1 : Nat) else widthPowerOf2
    let heightAtLevelOne := if heightPowerOf2 > 1 then heightPowerOf2 >>> (1 : Nat) else heightPowerOf2
    if target = gl.TEXTURE_2D ∨ target = gl.PROXY_TEXTURE_2D then
      TexImage2D gl.PROXY_TEXTURE_2D 1 internalFormat widthAtLevelOne heightAtLevelOne
        format typ none
    else if target = gl.TEXTURE_CUBE_MAP_POSITIVE_X_ARB ∨
        target = gl.TEXTURE_CUBE_MAP_NEGATIVE_X_ARB ∨
        target = gl.TEXTURE_CUBE_MAP_POSITIVE_Y_ARB ∨
        target = gl.TEXTURE_CUBE_MAP_NEGATIVE_Y_ARB ∨
        target = gl.TEXTURE_CUBE_MAP_POSITIVE_Z_ARB ∨
        target = gl.TEXTURE_CUBE_MAP_NEGATIVE_Z_ARB then
      TexImage2D gl.PROXY_TEXTURE_CUBE_MAP_ARB 1 internalFormat widthAtLevelOne
        heightAtLevelOne format typ none
    else do
      GLM.lift (assert (target == gl.TEXTURE_1D || target == gl.PROXY_TEXTURE_1D))
      TexImage1D gl.PROXY_TEXTURE_1D 1 internalFormat widthAtLevelOne format typ none
    let width ← GetTexLevelParameteriv
    let proxyWidth := width
    if proxyWidth = 0 then
      if widthPowerOf2 = 1 ∧ heightPowerOf2 = 1 then
        closestFitNoProxyTexture width height
      else
        closestFitLoop target height internalFormat format typ fuel
          widthAtLevelOne heightAtLevelOne
    else
      return (widthPowerOf2, heightPowerOf2)

/-- The results `(*newWidth, *newHeight)` are returned as a pair.  Every
rejected candidate other than 1x1 is followed by a strictly smaller one, so the
sum of the two initial candidates bounds the number of iterations after the first
(see `closestFit_probe_bound`). -/
def closestFit (target width height internalFormat format typ : Int) : GLM (Int × Int) := do
  if stringGE (firstToken (← GLM.get).version) version11 then
    let widthPowerOf2 ← GLM.lift (nearestPow2 width)
    let heightPowerOf2 ← GLM.lift (nearestPow2 height)
    closestFitLoop target height internalFormat format typ
      ((widthPowerOf2 + heightPowerOf2).toNat + 1) widthPowerOf2 heightPowerOf2
  else
    closestFitNoProxyTexture width height

/-! ## Slices

A slice that was obtained from a buffer by expressions `t[a:]` is the suffix of
the buffer from some offset on; the model keeps the buffer and the offset. -/

/-- The slice expression `t[a:]`, for the slice `t` at offset `off` of a buffer
of length `len`: the offset of the result. -/
def reslice (len : Nat) (off a : Int) : Except Err Int :=
  if 0 ≤ a ∧ off + a ≤ len then .ok (off + a) else .error .sliceBounds

/-- The index expression `t[i]` read, for the slice `t` at offset `off` of `buf`. -/
def index (buf : List Nat) (off i : Int) : Except Err Nat :=
  if 0 ≤ i ∧ off + i < buf.length then .ok (buf.getD (off + i).toNat 0)
  else .error .indexOutOfRange

/-- The assignment `t[i] = v`, for the slice `t` at offset `off` of `buf`: the
buffer after the assignment. -/
def store (buf : List Nat) (off i : Int) (v : Nat) : Except Err (List Nat) :=
  if 0 ≤ i ∧ off + i < buf.length then .ok (buf.set (off + i).toNat v)
  else .error .indexOutOfRange

/-- The address `&t[i]`, for the slice `t` at offset `off` of a buffer of length
`len`: the position in the buffer. -/
def addrOf (len : Nat) (off i : Int) : Except Err Int :=
  if 0 ≤ i ∧ off + i < len then .ok (off + i) else .error .indexOutOfRange

/-- The call `make([]byte, n)`. -/
def make (n : Int) : Except Err (List Nat) :=
  if n < 0 then .error .makeNegative else .ok (List.replicate n.toNat 0)

/-- A loop `for i := 0; i < n; i++ { body }` whose body neither reads nor
writes `i`: the body is run `n` times. -/
def forN {σ : Type} : Nat → (σ → Except Err σ) → σ → Except Err σ
  | 0, _, st => .ok st
  | n + 1, body, st => body st >>= forN n body

/-! ## 2:1 box filter -/

/-- The variables of the halving kernels: the output buffer, the offset of the
write cursor (`s`, `dest`) in it and the offset of the read cursor (`t`, `src`)
in the input buffer. -/
structure Cursors where
  dataout : List Nat
  s : Int
  t : Int
  deriving DecidableEq

/-- The body of the loop over `kk` in the one-row branch of `halve1DimageUbyte`.
The sum is computed on the `byte` operands themselves, so it wraps at 256 before
the division. -/
def halve1DRowComponent (datain : List Nat) (elementSize groupSize : Int) (st : Cursors) :
    Except Err Cursors := do
  let a ← index datain st.t 0
  let b ← index datain st.t groupSize
  let out ← store st.dataout st.s 0 ((a + b) % 256 / 2)
  let t ← reslice datain.length st.t elementSize
  let s ← reslice out.length st.s 1
  pure { dataout := out, s := s, t := t }

/-- The body of the loop over `jj` in the one-row branch of `halve1DimageUbyte`. -/
def halve1DRowPixel (components : Int) (datain : List Nat) (elementSize groupSize : Int)
    (st : Cursors) : Except Err Cursors := do
  let st ← forN components.toNat (halve1DRowComponent datain elementSize groupSize) st
  let t ← reslice datain.length st.t groupSize
  pure { st with t := t }

/-- The body of the loop over `kk` in the one-column branch of `halve1DimageUbyte`.
The sum is computed on the `byte` operands themselves, so it wraps at 256 before
the division. -/
def halve1DColumnComponent (datain : List Nat) (elementSize ysize : Int) (st : Cursors) :
    Except Err Cursors := do
  let a ← index datain st.t 0
  let b ← index datain st.t ysize
  let out ← store st.dataout st.s 0 ((a + b) % 256 / 2)
  let t ← reslice datain.length st.t elementSize
  let s ← reslice out.length st.s 1
  pure { dataout := out, s := s, t := t }

/-- The body of the loop over `jj` in the one-column branch of `halve1DimageUbyte`. -/
def halve1DColumnPixel (components : Int) (datain : List Nat)
    (elementSize ysize padBytes : Int) (st : Cursors) : Except Err Cursors := do
  let st ← forN components.toNat (halve1DColumnComponent datain elementSize ysize) st
  let t ← reslice datain.length st.t padBytes
  let t ← reslice datain.length t ysize
  pure { st with t := t }

/-- The output buffer after the call is returned. -/
def halve1DimageUbyte (components width height : Int) (datain dataout : List Nat)
    (elementSize ysize groupSize : Int) : Except Err (List Nat) := do
  assert (width == 1 || height == 1)
  assert (width != height)
  let halfWidth := width.tdiv 2
  let halfHeight := height.tdiv 2
  let (st, halfHeight) ←
    if height = 1 then do
      assert (width != 1)
      let halfHeight := 1
      let st ← forN halfWidth.toNat
        (halve1DRowPixel components datain elementSize groupSize)
        { dataout := dataout, s := 0, t := 0 }
      let padBytes := ysize - width * groupSize
      let t ← reslice datain.length st.t padBytes
      pure ({ st with t := t }, halfHeight)
    else if width = 1 then do
      let padBytes := ysize - width * groupSize
      assert (height != 1)
      let st ← forN halfHeight.toNat
        (halve1DColumnPixel components datain elementSize ysize padBytes)
        { dataout := dataout, s := 0, t := 0 }
      pure (st, halfHeight)
    else
      pure (({ dataout := dataout, s := 0, t := 0 } : Cursors), halfHeight)
  let srcAddr ← addrOf datain.length st.t 0
  let endAddr ← addrOf datain.length 0 (ysize * height)
  assert (srcAddr == endAddr)
  let destAddr ← addrOf st.dataout.length st.s 0
  let outAddr ← addrOf st.dataout.length 0 (components * elementSize * halfWidth * halfHeight)
  assert (destAddr == outAddr)
  pure st.dataout

/-- The body of the loop over `k` in `halveImageUbyte`.  The four operands are
converted to `int` before they are added; `byte(x)` keeps `x % 256`. -/
def halveComponent (datain : List Nat) (elementSize ysize groupSize : Int) (st : Cursors) :
    Except Err Cursors := do
  let a ← index datain st.t 0
  let b ← index datain st.t groupSize
  let c ← index datain st.t ysize
  let d ← index datain st.t (ysize + groupSize)
  let out ← store st.dataout st.s 0
    ((((a : Int) + (b : Int) + (c : Int) + (d : Int) + 2).tdiv 4) % 256).toNat
  let s ← reslice out.length st.s 1
  let t ← reslice datain.length st.t elementSize
  pure { dataout := out, s := s, t := t }

/-- The body of the loop over `j` in `halveImageUbyte`. -/
def halvePixel (components : Int) (datain : List Nat) (elementSize ysize groupSize : Int)
    (st : Cursors) : Except Err Cursors := do
  let st ← forN components.toNat (halveComponent datain elementSize ysize groupSize) st
  let t ← reslice datain.length st.t groupSize
  pure { st with t := t }

/-- The body of the loop over `i` in `halveImageUbyte`. -/
def halveRow (components newwidth : Int) (datain : List Nat)
    (elementSize ysize groupSize padBytes : Int) (st : Cursors) : Except Err Cursors := do
  let st ← forN newwidth.toNat (halvePixel components datain elementSize ysize groupSize) st
  let t ← reslice datain.length st.t padBytes
  let t ← reslice datain.length t ysize
  pure { st with t := t }

/-- The output buffer after the call is returned. -/
def halveImageUbyte (components width height : Int) (datain dataout : List Nat)
    (elementSize ysize groupSize : Int) : Except Err (List Nat) :=
  if width = 1 ∨ height = 1 then do
    assert (!(width == 1 && height == 1))
    halve1DimageUbyte components width height datain dataout elementSize ysize groupSize
  else do
    let newwidth := width.tdiv 2
    let newheight := height.tdiv 2
    let padBytes := ysize - width * groupSize
    let st ← forN newheight.toNat
      (halveRow components newwidth datain elementSize ysize groupSize padBytes)
      { dataout := dataout, s := 0, t := 0 }
    pure st.dataout

/-! ## General box filter

`scaleInternalUbyte` computes in `float64`.  The model computes with rational
numbers, i.e. without rounding.  Every `float64` operation of the source is exact
when the two ratios `widthin / widthout` and `heightin / heightout` are integers,
and when `widthout` and `heightout` are powers of two up to `2 ^ 21` (every call
made by the pyramid builder); the last division `totals[k] / area` is then
rounded, but its integer part is that of the exact quotient. -/

/-- A loop `for i := lo; i < hi; i++ { body }` whose body does not write `i`: the
body is run for the `n` values of `i` from `lo` on. -/
def forIdx {σ : Type} : Nat → Int → (Int → σ → Except Err σ) → σ → Except Err σ
  | 0, _, _, st => .ok st
  | n + 1, i, body, st => body i st >>= forIdx n (i + 1) body

/-- The loop `for i := lo; i < hi; i++ { body }`. -/
def forRange {σ : Type} (lo hi : Int) (body : Int → σ → Except Err σ) (st : σ) :
    Except Err σ :=
  forIdx (hi - lo).toNat lo body st

/-- The array `totals` and the offset of a read cursor (`temp_index`) in `datain`. -/
structure Totals where
  totals : List ℚ
  cur : Int

/-- The statement `totals[k] += float64(t[0]) * w` for the cursor `t` at offset `off`. -/
def addTotal (datain : List Nat) (totals : List ℚ) (k off : Int) (w : ℚ) :
    Except Err (List ℚ) := do
  let v ← index datain off 0
  if 0 ≤ k ∧ k < totals.length then
    .ok (totals.set k.toNat (totals.getD k.toNat 0 + (v : ℚ) * w))
  else .error .indexOutOfRange

/-- The loop over `k` that adds `float64(temp_index[0]) * w` to `totals[k]` and moves
`temp_index` on by `elementSize`. -/
def accumulate (datain : List Nat) (components elementSize : Int) (w : ℚ) (a : Totals) :
    Except Err Totals :=
  forRange 0 components (fun k (a : Totals) => do
    let totals ← addTotal datain a.totals k a.cur w
    let cur ← reslice datain.length a.cur elementSize
    pure { totals := totals, cur := cur }) a

/-- The loop over `k` that adds `float64(temp_index[0]) * w` to `totals[k]` and leaves
`temp_index` where it is. -/
def accumulateFixed (datain : List Nat) (components : Int) (w : ℚ) (a : Totals) :
    Except Err Totals :=
  forRange 0 components (fun k (a : Totals) => do
    let totals ← addTotal datain a.totals k a.cur w
    pure { a with totals := totals }) a

/-- The array `totals`, a cursor `temp` and the cursor `temp_index`. -/
structure RowWalk where
  totals : List ℚ
  temp : Int
  tempIndex : Int

/-- The array `totals` and the cursors `left` and `right`. -/
structure ColumnWalk where
  totals : List ℚ
  left : Int
  right : Int

/-- The array `totals` and the cursor `temp0`. -/
structure BodyWalk where
  totals : List ℚ
  temp0 : Int

/-- The branch `highy_int > lowy_int && highx_int > lowx_int`: the array `totals`
after the pixels of the first row, of the last row and of the first and last column
of the box were added. -/
def scaleBoxBoth (components : Int) (datain : List Nat) (elementSize ysize groupSize : Int)
    (xindex lowy_int highy_int lowx_int highx_int : Int)
    (lowy_float highy_float lowx_float highx_float : ℚ) (totals : List ℚ) :
    Except Err (List ℚ) := do
  let y_percent := 1 - lowy_float
  let temp ← reslice datain.length 0 (xindex + lowy_int * ysize)
  let percent := y_percent * (1 - lowx_float)
  let a ← accumulate datain components elementSize percent { totals := totals, cur := temp }
  let left := temp
  -- the loop declares its own `temp_index`
  let w ← forRange (lowx_int + 1) highx_int (fun _ (w : RowWalk) => do
    let temp ← reslice datain.length w.temp groupSize
    let a ← accumulate datain components elementSize y_percent
      { totals := w.totals, cur := temp }
    pure { w with totals := a.totals, temp := temp })
    { totals := a.totals, temp := temp, tempIndex := a.cur }
  let temp ← reslice datain.length w.temp groupSize
  let right := temp
  let percent := y_percent * highx_float
  let a ← accumulate datain components elementSize percent { totals := w.totals, cur := temp }
  -- the pixels in the last row
  let y_percent := highy_float
  let percent := y_percent * (1 - lowx_float)
  let temp ← reslice datain.length 0 (xindex + highy_int * ysize)
  let a ← accumulate datain components elementSize percent { totals := a.totals, cur := temp }
  -- this loop goes on with the outer `temp_index`
  let w ← forRange (lowx_int + 1) highx_int (fun _ (w : RowWalk) => do
    let temp ← reslice datain.length w.temp groupSize
    let a ← accumulate datain components elementSize y_percent
      { totals := w.totals, cur := w.tempIndex }
    pure { totals := a.totals, temp := temp, tempIndex := a.cur })
    { totals := a.totals, temp := temp, tempIndex := a.cur }
  let _ ← reslice datain.length w.temp groupSize
  let percent := y_percent * highx_float
  let a ← accumulate datain components elementSize percent
    { totals := w.totals, cur := w.tempIndex }
  -- the pixels in the first and last column
  let c ← forRange (lowy_int + 1) highy_int (fun _ (c : ColumnWalk) => do
    let left ← reslice datain.length c.left ysize
    let right ← reslice datain.length c.right ysize
    forRange 0 components (fun k (c : ColumnWalk) => do
      let l ← index datain c.left 0
      let r ← index datain c.right 0
      let totals ←
        if 0 ≤ k ∧ k < c.totals.length then
          Except.ok (c.totals.set k.toNat
            (c.totals.getD k.toNat 0 + ((l : ℚ) * (1 - lowx_float) + (r : ℚ) * highx_float)))
        else .error .indexOutOfRange
      let left ← reslice datain.length c.left elementSize
      let right ← reslice datain.length c.right elementSize
      pure { totals := totals, left := left, right := right })
      { c with left := left, right := right })
    { totals := a.totals, left := left, right := right }
  pure c.totals

/-- The branch `highy_int > lowy_int` with `highx_int == lowx_int`.  The first loop
does not move `temp_index`, and the loop over the rows in between goes on with that
same `temp_index`. -/
def scaleBoxRows (components : Int) (datain : List Nat) (elementSize ysize : Int)
    (xindex lowy_int highy_int : Int)
    (lowy_float highy_float lowx_float highx_float : ℚ) (totals : List ℚ) :
    Except Err (List ℚ) := do
  let x_percent := highx_float - lowx_float
  let percent := (1 - lowy_float) * x_percent
  let temp ← reslice datain.length 0 (xindex + lowy_int * ysize)
  let a ← accumulateFixed datain components percent { totals := totals, cur := temp }
  let w ← forRange (lowy_int + 1) highy_int (fun _ (w : RowWalk) => do
    let temp ← reslice datain.length w.temp ysize
    let a ← accumulate datain components elementSize x_percent
      { totals := w.totals, cur := w.tempIndex }
    pure { totals := a.totals, temp := temp, tempIndex := a.cur })
    { totals := a.totals, temp := temp, tempIndex := a.cur }
  let percent := x_percent * highy_float
  let temp ← reslice datain.length w.temp ysize
  let a ← accumulate datain components elementSize percent { totals := w.totals, cur := temp }
  pure a.totals

/-- The branch `highx_int > lowx_int` with `highy_int == lowy_int`.  The pixels in
between are weighted with `percent`. -/
def scaleBoxColumns (components : Int) (datain : List Nat)
    (elementSize ysize groupSize : Int) (xindex lowy_int lowx_int highx_int : Int)
    (lowy_float highy_float lowx_float highx_float : ℚ) (totals : List ℚ) :
    Except Err (List ℚ) := do
  let y_percent := highy_float - lowy_float
  let percent := (1 - lowx_float) * y_percent
  let temp ← reslice datain.length 0 (xindex + lowy_int * ysize)
  let a ← accumulate datain components elementSize percent { totals := totals, cur := temp }
  let w ← forRange (lowx_int + 1) highx_int (fun _ (w : RowWalk) => do
    let temp ← reslice datain.length w.temp groupSize
    let a ← accumulate datain components elementSize percent
      { totals := w.totals, cur := temp }
    pure { totals := a.totals, temp := temp, tempIndex := a.cur })
    { totals := a.totals, temp := temp, tempIndex := a.cur }
  let temp ← reslice datain.length w.temp groupSize
  let percent := y_percent * highx_float
  let a ← accumulate datain components elementSize percent { totals := w.totals, cur := temp }
  pure a.totals

/-- The last branch: the box lies within one source pixel. -/
def scaleBoxSingle (components : Int) (datain : List Nat) (elementSize ysize : Int)
    (xindex lowy_int : Int) (lowy_float highy_float lowx_float highx_float : ℚ)
    (totals : List ℚ) : Except Err (List ℚ) := do
  let percent := (highy_float - lowy_float) * (highx_float - lowx_float)
  let temp ← reslice datain.length 0 (xindex + lowy_int * ysize)
  let a ← accumulate datain components elementSize percent { totals := totals, cur := temp }
  pure a.totals

/-- The pixels in the body of the box, each with weight 1.  The slice `temp0` stays
`nil` when the box has no row in between; the loop is then not entered. -/
def scaleBoxBody (components : Int) (datain : List Nat) (elementSize ysize groupSize : Int)
    (xindex lowy_int highy_int lowx_int highx_int : Int) (totals : List ℚ) :
    Except Err (List ℚ) := do
  let temp0 ←
    if lowy_int + 1 < highy_int then
      reslice datain.length 0 (xindex + groupSize + (lowy_int + 1) * ysize)
    else pure 0
  let b ← forRange (lowy_int + 1) highy_int (fun _ (b : BodyWalk) => do
    let w ← forRange (lowx_int + 1) highx_int (fun _ (w : RowWalk) => do
      let a ← accumulate datain components elementSize 1
        { totals := w.totals, cur := w.temp }
      let temp ← reslice datain.length w.temp groupSize
      pure { w with totals := a.totals, temp := temp })
      { totals := b.totals, temp := b.temp0, tempIndex := b.temp0 }
    let temp0 ← reslice datain.length b.temp0 ysize
    pure { totals := w.totals, temp0 := temp0 })
    { totals := totals, temp0 := temp0 }
  pure b.totals

/-- The conversion `byte(x)` of a `float64`: the integer part, of which a byte keeps
the low 8 bits (every quotient the kernel converts lies between 0 and 255). -/
def byteOfFloat (x : ℚ) : Nat := (x.floor % 256).toNat

/-- The variables of the loop over `j`. -/
structure ScaleX where
  dataout : List Nat
  lowx_int : Int
  lowx_float : ℚ
  highx_int : Int
  highx_float : ℚ

/-- The variables of the loop over `i`. -/
structure ScaleY where
  dataout : List Nat
  lowy_int : Int
  lowy_float : ℚ
  highy_int : Int
  highy_float : ℚ

/-- The body of the loop over `j` in `scaleInternalUbyte`, for the output row `i`. -/
def scalePixel (components widthout : Int) (datain : List Nat)
    (elementSize ysize groupSize : Int) (area convx_float : ℚ) (convx_int : Int)
    (i lowy_int highy_int : Int) (lowy_float highy_float : ℚ) (j : Int) (x : ScaleX) :
    Except Err ScaleX := do
  let totals : List ℚ := [0, 0, 0, 0]
  let xindex := x.lowx_int * groupSize
  let totals ←
    if highy_int > lowy_int ∧ x.highx_int > x.lowx_int then
      scaleBoxBoth components datain elementSize ysize groupSize xindex lowy_int highy_int
        x.lowx_int x.highx_int lowy_float highy_float x.lowx_float x.highx_float totals
    else if highy_int > lowy_int then
      scaleBoxRows components datain elementSize ysize xindex lowy_int highy_int
        lowy_float highy_float x.lowx_float x.highx_float totals
    else if x.highx_int > x.lowx_int then
      scaleBoxColumns components datain elementSize ysize groupSize xindex lowy_int
        x.lowx_int x.highx_int lowy_float highy_float x.lowx_float x.highx_float totals
    else
      scaleBoxSingle components datain elementSize ysize xindex lowy_int
        lowy_float highy_float x.lowx_float x.highx_float totals
  let totals ← scaleBoxBody components datain elementSize ysize groupSize xindex
    lowy_int highy_int x.lowx_int x.highx_int totals
  let outindex := (j + i * widthout) * components
  let dataout ← forRange 0 components (fun k (out : List Nat) => do
    if 0 ≤ k ∧ k < (totals.length : Int) then
      store out 0 (outindex + k) (byteOfFloat (totals.getD k.toNat 0 / area))
    else .error .indexOutOfRange) x.dataout
  let lowx_int := x.highx_int
  let lowx_float := x.highx_float
  let highx_int := x.highx_int + convx_int
  let highx_float := x.highx_float + convx_float
  if highx_float > 1 then
    pure { dataout := dataout, lowx_int := lowx_int, lowx_float := lowx_float,
           highx_int := highx_int + 1, highx_float := highx_float - 1 }
  else
    pure { dataout := dataout, lowx_int := lowx_int, lowx_float := lowx_float,
           highx_int := highx_int, highx_float := highx_float }

/-- The body of the loop over `i` in `scaleInternalUbyte`. -/
def scaleRow (components widthout heightin : Int) (datain : List Nat)
    (elementSize ysize groupSize : Int) (area convx_float convy_float : ℚ)
    (convx_int convy_int : Int) (i : Int) (y : ScaleY) : Except Err ScaleY := do
  -- Clamp here to be sure we don't read beyond input buffer.
  let highy_int := if y.highy_int ≥ heightin then heightin - 1 else y.highy_int
  let x ← forRange 0 widthout
    (scalePixel components widthout datain elementSize ysize groupSize area convx_float
      convx_int i y.lowy_int highy_int y.lowy_float y.highy_float)
    { dataout := y.dataout, lowx_int := 0, lowx_float := 0, highx_int := convx_int,
      highx_float := convx_float }
  let lowy_int := highy_int
  let lowy_float := y.highy_float
  let highy_int := highy_int + convy_int
  let highy_float := y.highy_float + convy_float
  if highy_float > 1 then
    pure { dataout := x.dataout, lowy_int := lowy_int, lowy_float := lowy_float,
           highy_int := highy_int + 1, highy_float := highy_float - 1 }
  else
    pure { dataout := x.dataout, lowy_int := lowy_int, lowy_float := lowy_float,
           highy_int := highy_int, highy_float := highy_float }

/-- The output buffer after the call is returned. -/
def scaleInternalUbyte (components widthin heightin : Int) (datain : List Nat)
    (widthout heightout : Int) (dataout : List Nat) (elementSize ysize groupSize : Int) :
    Except Err (List Nat) :=
  if widthin = widthout * 2 ∧ heightin = heightout * 2 then
    halveImageUbyte components widthin heightin datain dataout elementSize ysize groupSize
  else do
    let convy : ℚ := (heightin : ℚ) / (heightout : ℚ)
    let convx : ℚ := (widthin : ℚ) / (widthout : ℚ)
    let convy_int := convy.floor
    let convy_float := convy - (convy_int : ℚ)
    let convx_int := convx.floor
    let convx_float := convx - (convx_int : ℚ)
    let area := convx * convy
    let y ← forRange 0 heightout
      (scaleRow components widthout heightin datain elementSize ysize groupSize area
        convx_float convy_float convx_int convy_int)
      { dataout := dataout, lowy_int := 0, lowy_float := 0, highy_int := convy_int,
        highy_float := convy_float }
    pure y.dataout

/-! ## Mipmap pyramid builder -/

/-- The snapshot of the pixel-store state; every field starts at zero. -/
structure PixelStorageMode where
  PackAlignment : Int := 0
  PackRowLength : Int := 0
  PackSkipRows : Int := 0
  PackSkipPixels : Int := 0
  PackLSBFirst : Int := 0
  PackSwapBytes : Int := 0
  PackSkipImages : Int := 0
  PackImageHeight : Int := 0
  UnpackAlignment : Int := 0
  UnpackRowLength : Int := 0
  UnpackSkipRows : Int := 0
  UnpackSkipPixels : Int := 0
  UnpackLSBFirst : Int := 0
  UnpackSwapBytes : Int := 0
  UnpackSkipImages : Int := 0
  UnpackImageHeight : Int := 0
  deriving DecidableEq

/-- The snapshot `*psm` after the call is returned. -/
def retrieveStoreModes (psm : PixelStorageMode) : GLM PixelStorageMode := do
  let psm := { psm with UnpackAlignment := ← GetIntegerv gl.UNPACK_ALIGNMENT }
  let psm := { psm with UnpackRowLength := ← GetIntegerv gl.UNPACK_ROW_LENGTH }
  let psm := { psm with UnpackSkipRows := ← GetIntegerv gl.UNPACK_SKIP_ROWS }
  let psm := { psm with UnpackSkipPixels := ← GetIntegerv gl.UNPACK_SKIP_PIXELS }
  let psm := { psm with UnpackLSBFirst := ← GetIntegerv gl.UNPACK_LSB_FIRST }
  let psm := { psm with UnpackSwapBytes := ← GetIntegerv gl.UNPACK_SWAP_BYTES }
  let psm := { psm with PackAlignment := ← GetIntegerv gl.PACK_ALIGNMENT }
  let psm := { psm with PackRowLength := ← GetIntegerv gl.PACK_ROW_LENGTH }
  let psm := { psm with PackSkipRows := ← GetIntegerv gl.PACK_SKIP_ROWS }
  let psm := { psm with PackSkipPixels := ← GetIntegerv gl.PACK_SKIP_PIXELS }
  let psm := { psm with PackLSBFirst := ← GetIntegerv gl.PACK_LSB_FIRST }
  let psm := { psm with PackSwapBytes := ← GetIntegerv gl.PACK_SWAP_BYTES }
  return psm

/-- The integer part of the binary logarithm of `n`, by repeated halving. -/
def log2Floor : Nat → Nat → Nat
  | 0, _ => 0
  | fuel + 1, n => if n < 2 then 0 else log2Floor fuel (n / 2) + 1

/-- The conversion `int(math.Log2(float64(v)))`.  For a positive `v` it is the
integer part of the binary logarithm (`math.Log2` is exact on the powers of two,
the only values the fit resolver produces within the texture size limit; on
other values the rounding of `math.Log2` cannot reach the next integer below
`2^48`).  For `v <= 0` the logarithm is `-Inf` or `NaN` and Go leaves the
converted value to the implementation. -/
def intLog2 (v : Int) : Except Err Int :=
  if v ≤ 0 then .error .unspecified else .ok (log2Floor v.toNat v.toNat)

/-- The conversion `int(x * float64(n))` for a `float64` value `x` that is one of
1/8, 1, 2, 4: the product is exact and the conversion truncates toward zero. -/
def truncMul (x : ℚ) (n : Int) : Int := (x.num * n).tdiv x.den

/-- The conversion `int(x)`, truncating toward zero. -/
def truncInt (x : ℚ) : Int := x.num.tdiv x.den

/-- Go's remainder `a % b`: truncated, and a panic when `b` is zero. -/
def goMod (a b : Int) : Except Err Int :=
  if b = 0 then .error .divideByZero else .ok (a.tmod b)

def imageSize (width height format typ : Int) : Except Err Int := do
  assert (width > 0)
  assert (height > 0)
  let components := elementsPerGroup format typ
  let bytesPerRow :=
    if typ = gl.BITMAP then (width + 7).tdiv 8
    else truncMul (bytesPerElement typ) width
  return bytesPerRow * height * components

/-- The type of the general box-filter kernel `scaleInternalUbyte`, which works
in floating point: `components widthin heightin datain widthout heightout
dataout elementSize ysize groupSize`, returning the output buffer. -/
abbrev ScaleKernel : Type :=
  Int → Int → Int → List Nat → Int → Int → List Nat → Int → Int → Int → Except Err (List Nat)

/-- The pointer `unsafe.Pointer(&buf[0])` handed to OpenGL: the bytes of `buf`. -/
def pointerTo (buf : List Nat) : Except Err (Option (List Nat)) := do
  let _ ← addrOf buf.length 0 0
  return some buf

/-- The final five calls of `gl.PixelStorei`, which put the snapshot back. -/
def restoreStoreModes (psm : PixelStorageMode) : GLM Unit := do
  PixelStorei gl.UNPACK_ALIGNMENT psm.UnpackAlignment
  PixelStorei gl.UNPACK_SKIP_ROWS psm.UnpackSkipRows
  PixelStorei gl.UNPACK_SKIP_PIXELS psm.UnpackSkipPixels
  PixelStorei gl.UNPACK_ROW_LENGTH psm.UnpackRowLength
  PixelStorei gl.UNPACK_SWAP_BYTES psm.UnpackSwapBytes

/-- The variables the level loop of the pyramid builder updates. -/
structure LevelState where
  level : Int
  newwidth : Int
  newheight : Int
  rowsize : Int
  srcImage : List Nat
  dstImage : List Nat
  deriving DecidableEq

/-- The variables of the row-repacking loop: the padded image and the offsets of
`dstTrav` and `srcTrav`. -/
structure RepackState where
  newMipmapImage : List Nat
  dstTrav : Int
  srcTrav : Int
  deriving DecidableEq

/-- The statement `copy(dstTrav[:rowsize], srcTrav)`: the destination buffer after
the copy of `min(rowsize, len(srcTrav))` bytes. -/
def copyRow (dst : List Nat) (dstTrav rowsize : Int) (src : List Nat) (srcTrav : Int) :
    Except Err (List Nat) :=
  if 0 ≤ rowsize ∧ dstTrav + rowsize ≤ dst.length then
    let n := min rowsize.toNat (src.length - srcTrav.toNat)
    .ok (dst.take dstTrav.toNat ++ (src.drop srcTrav.toNat).take n ++
      dst.drop (dstTrav.toNat + n))
  else .error .sliceBounds

/-- One iteration of the level loop, without the increment of `level`. -/
def levelBody (target internalFormat format typ baseLevel maxLevel cmpts : Int)
    (elementSize : ℚ) (groupSize : Int) (psm : PixelStorageMode) (st : LevelState) :
    GLM LevelState := do
  let dstImage ←
    if typ = gl.UNSIGNED_BYTE then
      GLM.lift (halveImageUbyte cmpts st.newwidth st.newheight st.srcImage st.dstImage
        (truncInt elementSize) st.rowsize groupSize)
    else do
      GLM.lift (assert false)
      pure st.dstImage
  let srcImage := dstImage
  let dstImage := st.srcImage
  let (newwidth, rowsize) :=
    if st.newwidth > 1 then (st.newwidth.tdiv 2, st.rowsize.tdiv 2)
    else (st.newwidth, st.rowsize)
  let newheight := if st.newheight > 1 then st.newheight.tdiv 2 else st.newheight
  let rowPad ← GLM.lift (goMod rowsize psm.UnpackAlignment)
  if rowPad = 0 then
    if baseLevel ≤ st.level ∧ st.level ≤ maxLevel then
      let p ← GLM.lift (pointerTo srcImage)
      TexImage2D target st.level internalFormat newwidth newheight format typ p
  else
    let newRowLength := rowsize + psm.UnpackAlignment - rowPad
    let newMipmapImage ← GLM.lift (make (newRowLength * newheight))
    let rp ← GLM.lift (forN newheight.toNat (fun (rp : RepackState) => do
      let img ← copyRow rp.newMipmapImage rp.dstTrav rowsize srcImage rp.srcTrav
      let dstTrav ← reslice img.length rp.dstTrav newRowLength
      let srcTrav ← reslice srcImage.length rp.srcTrav rowsize
      pure { newMipmapImage := img, dstTrav := dstTrav, srcTrav := srcTrav })
      { newMipmapImage := newMipmapImage, dstTrav := 0, srcTrav := 0 })
    if baseLevel ≤ st.level ∧ st.level ≤ maxLevel then
      let p ← GLM.lift (pointerTo rp.newMipmapImage)
      TexImage2D target st.level internalFormat newwidth newheight format typ p
  return { level := st.level, newwidth := newwidth, newheight := newheight,
           rowsize := rowsize, srcImage := srcImage, dstImage := dstImage }

/-- The loop `for ; level <= levels; level++ { ... }`, run for `n` iterations. -/
def levelLoop (target internalFormat format typ baseLevel maxLevel cmpts : Int)
    (elementSize : ℚ) (groupSize : Int) (psm : PixelStorageMode) :
    Nat → LevelState → GLM LevelState
  | 0, st => pure st
  | n + 1, st => do
    let st ← levelBody target internalFormat format typ baseLevel maxLevel cmpts
      elementSize groupSize psm st
    levelLoop target internalFormat format typ baseLevel maxLevel cmpts elementSize
      groupSize psm n { st with level := st.level + 1 }

/-- The kernel `scaleInternalUbyte` is a parameter.  A `nil` slice is the empty
list.  The first part yields `none` where the source returns early (a single
level, already uploaded) and otherwise the variables with which the source
goes on to the upload of the first computed level and to the level loop. -/
def gluBuild2DMipmapLevelsCore (scaleInternalUbyte : ScaleKernel)
    (target internalFormat width height widthPowerOf2 heightPowerOf2 format typ
      userLevel baseLevel maxLevel : Int) (data : List Nat) : GLM Unit := do
  let err := checkMipmapArgs internalFormat format typ
  GLM.lift (assert (err == .ok ()))
  GLM.lift (assert (decide (width ≥ 1) && decide (height ≥ 1)))
  GLM.lift (assert (typ != gl.BITMAP))
  let newwidth := widthPowerOf2
  let newheight := heightPowerOf2
  let levels ← GLM.lift (intLog2 newwidth)
  let level ← GLM.lift (intLog2 newheight)
  let levels := if level > levels then level else levels
  let levels := levels + userLevel
  let psm ← retrieveStoreModes {}
  let cmpts := elementsPerGroup format typ
  let groupsPerLine := if psm.UnpackRowLength > 0 then psm.UnpackRowLength else width
  let elementSize := bytesPerElement typ
  let groupSize := truncMul elementSize cmpts
  let rowsize := groupsPerLine * groupSize
  let padding ← GLM.lift (goMod rowsize psm.UnpackAlignment)
  let rowsize := if padding ≠ 0 then rowsize + (psm.UnpackAlignment - padding) else rowsize
  let start ← GLM.lift (reslice data.length 0
    (psm.UnpackSkipRows * rowsize + psm.UnpackSkipPixels * groupSize))
  let usersImage := data.drop start.toNat
  PixelStorei gl.UNPACK_SKIP_ROWS 0
  PixelStorei gl.UNPACK_SKIP_PIXELS 0
  PixelStorei gl.UNPACK_ROW_LENGTH 0
  let level := userLevel
  let first : Option LevelState ←
    if width = newwidth ∧ height = newheight then do
      if baseLevel ≤ level ∧ level ≤ maxLevel then
        PixelStorei gl.UNPACK_ROW_LENGTH psm.UnpackRowLength
        let p ← GLM.lift (pointerTo usersImage)
        TexImage2D target level internalFormat width height format typ p
      PixelStorei gl.UNPACK_ROW_LENGTH 0
      if levels = 0 then do
        restoreStoreModes psm
        pure none
      else do
        let nextwidth := newwidth.tdiv 2
        let nextheight := newheight.tdiv 2
        let nextwidth := if nextwidth < 1 then 1 else nextwidth
        let nextheight := if nextheight < 1 then 1 else nextheight
        let memreq ← GLM.lift (imageSize nextwidth nextheight format typ)
        let dstImage ←
          if typ = gl.UNSIGNED_BYTE then GLM.lift (make memreq)
          else do
            GLM.lift (assert false)
            pure []
        let dstImage ←
          if typ = gl.UNSIGNED_BYTE then
            GLM.lift (halveImageUbyte cmpts width height usersImage dstImage
              (truncInt elementSize) rowsize groupSize)
          else do
            GLM.lift (assert false)
            pure dstImage
        let newwidth := width.tdiv 2
        let newheight := height.tdiv 2
        let newwidth := if newwidth < 1 then 1 else newwidth
        let newheight := if newheight < 1 then 1 else newheight
        let rowsize := newwidth * groupSize
        let memreq ← GLM.lift (imageSize newwidth newheight format typ)
        let srcImage := dstImage
        let dstImage ←
          if typ = gl.UNSIGNED_BYTE then GLM.lift (make memreq)
          else do
            GLM.lift (assert false)
            pure []
        let st : LevelState :=
          { level := userLevel + 1, newwidth := newwidth, newheight := newheight,
            rowsize := rowsize, srcImage := srcImage, dstImage := dstImage }
        pure (some st)
    else do
      let memreq ← GLM.lift (imageSize newwidth newheight format typ)
      let dstImage ←
        if typ = gl.UNSIGNED_BYTE then GLM.lift (make memreq)
        else do
          GLM.lift (assert false)
          pure []
      let dstImage ←
        if typ = gl.UNSIGNED_BYTE then
          GLM.lift (scaleInternalUbyte cmpts width height usersImage newwidth newheight
            dstImage (truncInt elementSize) rowsize groupSize)
        else do
          GLM.lift (assert false)
          pure dstImage
      let rowsize := newwidth * groupSize
      let srcImage := dstImage
      let dstImage : List Nat := []
      let dstImage ←
        if levels ≠ 0 then do
          let nextWidth := newwidth.tdiv 2
          let nextHeight := newheight.tdiv 2
          let nextWidth := if nextWidth < 1 then 1 else nextWidth
          let nextHeight := if nextHeight < 1 then 1 else nextHeight
          let memreq ← GLM.lift (imageSize nextWidth nextHeight format typ)
          if typ = gl.UNSIGNED_BYTE then GLM.lift (make memreq)
          else do
            GLM.lift (assert false)
            pure dstImage
        else pure dstImage
      let st : LevelState :=
        { level := userLevel, newwidth := newwidth, newheight := newheight,
          rowsize := rowsize, srcImage := srcImage, dstImage := dstImage }
      pure (some st)
  match first with
  | none => pure ()
  | some st => do
    PixelStorei gl.UNPACK_SWAP_BYTES 0
    if baseLevel ≤ st.level ∧ st.level ≤ maxLevel then
      let p ← GLM.lift (pointerTo st.srcImage)
      TexImage2D target st.level internalFormat st.newwidth st.newheight format typ p
    let st := { st with level := st.level + 1 }
    let _ ← levelLoop target internalFormat format typ baseLevel maxLevel cmpts elementSize
      groupSize psm (levels + 1 - st.level).toNat st
    restoreStoreModes psm

/-- The kernel `scaleInternalUbyte` is a parameter. -/
def gluBuild2DMipmaps (scaleInternalUbyte : ScaleKernel)
    (target internalFormat width height format typ : Int) (data : List Nat) : GLM Unit := do
  match checkMipmapArgs internalFormat format typ with
  | .error err => GLM.lift (.error err)
  | .ok () => pure ()
  if width < 1 ∨ height < 1 then
    GLM.lift (.error .invalidSize)
  let (widthPowerOf2, heightPowerOf2) ←
    closestFit target width height internalFormat format typ
  let levels ← GLM.lift (intLog2 widthPowerOf2)
  let level ← GLM.lift (intLog2 heightPowerOf2)
  let levels := if level > levels then level else levels
  gluBuild2DMipmapLevelsCore scaleInternalUbyte target internalFormat width height
    widthPowerOf2 heightPowerOf2 format typ 0 0 levels data

/-! ## Quadric sphere

`gluSphere` computes in `float64` and hands the results to OpenGL.  The model keeps
every `float64` value as the expression that computes it, so nothing is assumed about
rounding or about `math.Sin` and `math.Cos`; the radius is a rational number, which
covers every finite `float64`.  The calls of `gl.Begin`, `gl.End`, `gl.Vertex3d`,
`gl.Normal3d` and `gl.TexCoord2d` are collected in a list, oldest first.  The twelve
cache arrays are lists of length `CACHE_SIZE`, and every index expression is checked
against that length as Go checks it.  The parameter `stacks` is written `stacks'`. -/

def GLU_SMOOTH : Int := 100000
def GLU_FLAT : Int := 100001
def GLU_NONE : Int := 100002
def GLU_OUTSIDE : Int := 100020
def GLU_INSIDE : Int := 100021
def GLU_POINT : Int := 100010
def GLU_LINE : Int := 100011
def GLU_FILL : Int := 100012
def GLU_SILHOUETTE : Int := 100013

structure Quadric where
  Normals : Int
  TextureCoords : Bool
  Orientation : Int
  DrawStyle : Int
  deriving DecidableEq

/-- A `float64` value, as the expression that computes it. -/
inductive F64 where
  | lit (q : ℚ)
  | pi
  | ofInt (n : Int)
  | neg (x : F64)
  | sub (x y : F64)
  | mul (x y : F64)
  | div (x y : F64)
  | sin (x : F64)
  | cos (x : F64)
  deriving DecidableEq

/-- The immediate-mode calls that `gluSphere` makes. -/
inductive GLCmd where
  | Begin (mode : Int)
  | End
  | Vertex3d (x y z : F64)
  | Normal3d (x y z : F64)
  | TexCoord2d (s t : F64)
  deriving DecidableEq

def CACHE_SIZE : Int := 240

/-- The twelve cache arrays of `gluSphere`. -/
structure SphereCaches where
  sinCache1a : List F64
  cosCache1a : List F64
  sinCache2a : List F64
  cosCache2a : List F64
  sinCache3a : List F64
  cosCache3a : List F64
  sinCache1b : List F64
  cosCache1b : List F64
  sinCache2b : List F64
  cosCache2b : List F64
  sinCache3b : List F64
  cosCache3b : List F64
  deriving DecidableEq

/-- The variables that the drawing part of `gluSphere` writes, and the calls made
so far. -/
structure SphereDraw where
  sintemp3 : F64
  costemp3 : F64
  sintemp4 : F64
  costemp4 : F64
  cmds : List GLCmd
  deriving DecidableEq

/-- A zeroed array `[CACHE_SIZE]float64`. -/
def zeroCache : List F64 := List.replicate CACHE_SIZE.toNat (.lit 0)

/-- The index expression `a[i]` read. -/
def cacheGet (a : List F64) (i : Int) : Except Err F64 :=
  if 0 ≤ i ∧ i < a.length then .ok (a.getD i.toNat (.lit 0)) else .error .indexOutOfRange

/-- The assignment `a[i] = v`: the array after the assignment. -/
def cacheSet (a : List F64) (i : Int) (v : F64) : Except Err (List F64) :=
  if 0 ≤ i ∧ i < a.length then .ok (a.set i.toNat v) else .error .indexOutOfRange

/-- A loop `for i := hi; ...; i-- { body }` whose body does not write `i`: the body is
run for the `n` values of `i` from `hi` down. -/
def forDown {σ : Type} : Nat → Int → (Int → σ → Except Err σ) → σ → Except Err σ
  | 0, _, _, st => .ok st
  | n + 1, i, body, st => body i st >>= forDown n (i - 1) body

/-- The loop `for i := hi; i >= lo; i-- { body }`. -/
def forDownTo {σ : Type} (hi lo : Int) (body : Int → σ → Except Err σ) (st : σ) :
    Except Err σ :=
  forDown (hi - lo + 1).toNat hi body st

/-- The body of the first loop: the slice angles. -/
def cacheSlice (needCache2 : Bool) (slices i : Int) (t : SphereCaches) :
    Except Err SphereCaches := do
  let angle := F64.div (.mul (.mul (.lit 2) .pi) (.ofInt i)) (.ofInt slices)
  let t := { t with sinCache1a := ← cacheSet t.sinCache1a i (.sin angle) }
  let t := { t with cosCache1a := ← cacheSet t.cosCache1a i (.cos angle) }
  if needCache2 then
    let t := { t with sinCache2a := ← cacheSet t.sinCache2a i (← cacheGet t.sinCache1a i) }
    let t := { t with cosCache2a := ← cacheSet t.cosCache2a i (← cacheGet t.cosCache1a i) }
    pure t
  else pure t

/-- The body of the second loop: the stack angles. -/
def cacheStack (qobj : Quadric) (needCache2 : Bool) (radius : ℚ) (stacks' j : Int)
    (t : SphereCaches) : Except Err SphereCaches := do
  let angle := F64.div (.mul .pi (.ofInt j)) (.ofInt stacks')
  let t ←
    if needCache2 then
      if qobj.Orientation = GLU_OUTSIDE then do
        let t := { t with sinCache2b := ← cacheSet t.sinCache2b j (.sin angle) }
        let t := { t with cosCache2b := ← cacheSet t.cosCache2b j (.cos angle) }
        pure t
      else do
        let t := { t with sinCache2b := ← cacheSet t.sinCache2b j (.neg (.sin angle)) }
        let t := { t with cosCache2b := ← cacheSet t.cosCache2b j (.neg (.cos angle)) }
        pure t
    else pure t
  let t := { t with sinCache1b := ← cacheSet t.sinCache1b j (.mul (.lit radius) (.sin angle)) }
  let t := { t with cosCache1b := ← cacheSet t.cosCache1b j (.mul (.lit radius) (.cos angle)) }
  pure t

/-- The body of the loop over the slices for the face normals. -/
def cacheSlice3 (slices i : Int) (t : SphereCaches) : Except Err SphereCaches := do
  let angle :=
    F64.div (.mul (.mul (.lit 2) .pi) (.sub (.ofInt i) (.lit (1 / 2)))) (.ofInt slices)
  let t := { t with sinCache3a := ← cacheSet t.sinCache3a i (.sin angle) }
  let t := { t with cosCache3a := ← cacheSet t.cosCache3a i (.cos angle) }
  pure t

/-- The body of the loop over the stacks for the face normals. -/
def cacheStack3 (qobj : Quadric) (stacks' j : Int) (t : SphereCaches) :
    Except Err SphereCaches := do
  let angle := F64.div (.mul .pi (.sub (.ofInt j) (.lit (1 / 2)))) (.ofInt stacks')
  if qobj.Orientation = GLU_OUTSIDE then do
    let t := { t with sinCache3b := ← cacheSet t.sinCache3b j (.sin angle) }
    let t := { t with cosCache3b := ← cacheSet t.cosCache3b j (.cos angle) }
    pure t
  else do
    let t := { t with sinCache3b := ← cacheSet t.sinCache3b j (.neg (.sin angle)) }
    let t := { t with cosCache3b := ← cacheSet t.cosCache3b j (.neg (.cos angle)) }
    pure t

/-- The part of `gluSphere` that fills the caches, for the clamped `slices` and
`stacks`. -/
def sphereCaches (qobj : Quadric) (needCache2 needCache3 : Bool) (radius : ℚ)
    (slices stacks' : Int) : Except Err SphereCaches := do
  let t : SphereCaches :=
    { sinCache1a := zeroCache, cosCache1a := zeroCache, sinCache2a := zeroCache,
      cosCache2a := zeroCache, sinCache3a := zeroCache, cosCache3a := zeroCache,
      sinCache1b := zeroCache, cosCache1b := zeroCache, sinCache2b := zeroCache,
      cosCache2b := zeroCache, sinCache3b := zeroCache, cosCache3b := zeroCache }
  let t ← forRange 0 slices (cacheSlice needCache2 slices) t
  let t ← forRange 0 (stacks' + 1) (cacheStack qobj needCache2 radius stacks') t
  -- Make sure it comes to a point
  let t := { t with sinCache1b := ← cacheSet t.sinCache1b 0 (.lit 0) }
  let t := { t with sinCache1b := ← cacheSet t.sinCache1b stacks' (.lit 0) }
  let t ←
    if needCache3 then do
      let t ← forRange 0 slices (cacheSlice3 slices) t
      forRange 0 (stacks' + 1) (cacheStack3 qobj stacks') t
    else pure t
  let t := { t with sinCache1a := ← cacheSet t.sinCache1a slices (← cacheGet t.sinCache1a 0) }
  let t := { t with cosCache1a := ← cacheSet t.cosCache1a slices (← cacheGet t.cosCache1a 0) }
  let t ←
    if needCache2 then do
      let t := { t with sinCache2a := ← cacheSet t.sinCache2a slices (← cacheGet t.sinCache2a 0) }
      let t := { t with cosCache2a := ← cacheSet t.cosCache2a slices (← cacheGet t.cosCache2a 0) }
      pure t
    else pure t
  if needCache3 then do
    let t := { t with sinCache3a := ← cacheSet t.sinCache3a slices (← cacheGet t.sinCache3a 0) }
    let t := { t with cosCache3a := ← cacheSet t.cosCache3a slices (← cacheGet t.cosCache3a 0) }
    pure t
  else pure t

/-- One more call is made. -/
def emit (c : GLCmd) (st : SphereDraw) : SphereDraw := { st with cmds := st.cmds ++ [c] }

/-- The call `gl.Normal3d(sinCache[i]*s, cosCache[i]*s, c)`. -/
def emitNormal (sinCache cosCache : List F64) (i : Int) (s c : F64) (st : SphereDraw) :
    Except Err SphereDraw := do
  let x ← cacheGet sinCache i
  let y ← cacheGet cosCache i
  pure (emit (.Normal3d (.mul x s) (.mul y s) c) st)

/-- The call `gl.Vertex3d(s*sinCache1a[i], s*cosCache1a[i], z)`. -/
def emitVertex (t : SphereCaches) (i : Int) (s z : F64) (st : SphereDraw) :
    Except Err SphereDraw := do
  let x ← cacheGet t.sinCache1a i
  let y ← cacheGet t.cosCache1a i
  pure (emit (.Vertex3d (.mul s x) (.mul s y) z) st)

/-- The body of the fan loops that run from `slices` down to 0. -/
def fanVertexDown (qobj : Quadric) (t : SphereCaches) (slices : Int) (sintemp2 zHigh : F64)
    (i : Int) (st : SphereDraw) : Except Err SphereDraw := do
  let st ←
    if qobj.Normals = GLU_SMOOTH then
      emitNormal t.sinCache2a t.cosCache2a i st.sintemp3 st.costemp3 st
    else if qobj.Normals = GLU_FLAT then
      if i ≠ slices then
        emitNormal t.sinCache3a t.cosCache3a (i + 1) st.sintemp3 st.costemp3 st
      else pure st
    else if qobj.Normals = GLU_NONE then pure st
    else do
      assert false
      pure st
  emitVertex t i sintemp2 zHigh st

/-- The body of the fan loops that run from 0 up to `slices`. -/
def fanVertexUp (qobj : Quadric) (t : SphereCaches) (sintemp2 zHigh : F64)
    (i : Int) (st : SphereDraw) : Except Err SphereDraw := do
  let st ←
    if qobj.Normals = GLU_SMOOTH then
      emitNormal t.sinCache2a t.cosCache2a i st.sintemp3 st.costemp3 st
    else if qobj.Normals = GLU_FLAT then
      emitNormal t.sinCache3a t.cosCache3a i st.sintemp3 st.costemp3 st
    else if qobj.Normals = GLU_NONE then pure st
    else do
      assert false
      pure st
  emitVertex t i sintemp2 zHigh st

/-- The fan at the low end (the `j == 0` iteration). -/
def sphereLowFan (qobj : Quadric) (t : SphereCaches) (radius : ℚ) (slices : Int)
    (st : SphereDraw) : Except Err SphereDraw := do
  let sintemp2 ← cacheGet t.sinCache1b 1
  let zHigh ← cacheGet t.cosCache1b 1
  let st ←
    if qobj.Normals = GLU_FLAT then do
      let st := { st with sintemp3 := ← cacheGet t.sinCache3b 1 }
      let st := { st with costemp3 := ← cacheGet t.cosCache3b 1 }
      pure st
    else if qobj.Normals = GLU_SMOOTH then do
      let st := { st with sintemp3 := ← cacheGet t.sinCache2b 1 }
      let st := { st with costemp3 := ← cacheGet t.cosCache2b 1 }
      let a ← cacheGet t.sinCache2a 0
      let b ← cacheGet t.sinCache2b 0
      let c ← cacheGet t.cosCache2a 0
      let d ← cacheGet t.sinCache2b 0
      let e ← cacheGet t.cosCache2b 0
      pure (emit (.Normal3d (.mul a b) (.mul c d) e) st)
    else do
      assert false
      pure st
  let st := emit (.Begin gl.TRIANGLE_FAN) st
  let st := emit (.Vertex3d (.lit 0) (.lit 0) (.lit radius)) st
  let st ←
    if qobj.Orientation = GLU_OUTSIDE then
      forDownTo slices 0 (fanVertexDown qobj t slices sintemp2 zHigh) st
    else
      forRange 0 (slices + 1) (fanVertexUp qobj t sintemp2 zHigh) st
  pure (emit .End st)

/-- The fan at the high end (the `j == stacks-1` iteration). -/
def sphereHighFan (qobj : Quadric) (t : SphereCaches) (radius : ℚ) (slices stacks' : Int)
    (st : SphereDraw) : Except Err SphereDraw := do
  let sintemp2 ← cacheGet t.sinCache1b (stacks' - 1)
  let zHigh ← cacheGet t.cosCache1b (stacks' - 1)
  let st ←
    if qobj.Normals = GLU_FLAT then do
      let st := { st with sintemp3 := ← cacheGet t.sinCache3b stacks' }
      let st := { st with costemp3 := ← cacheGet t.cosCache3b stacks' }
      pure st
    else if qobj.Normals = GLU_SMOOTH then do
      let st := { st with sintemp3 := ← cacheGet t.sinCache2b (stacks' - 1) }
      let st := { st with costemp3 := ← cacheGet t.cosCache2b (stacks' - 1) }
      let a ← cacheGet t.sinCache2a stacks'
      let b ← cacheGet t.sinCache2b stacks'
      let c ← cacheGet t.cosCache2a stacks'
      let d ← cacheGet t.sinCache2b stacks'
      let e ← cacheGet t.cosCache2b stacks'
      pure (emit (.Normal3d (.mul a b) (.mul c d) e) st)
    else do
      assert false
      pure st
  let st := emit (.Begin gl.TRIANGLE_FAN) st
  let st := emit (.Vertex3d (.lit 0) (.lit 0) (.neg (.lit radius))) st
  let st ←
    if qobj.Orientation = GLU_OUTSIDE then
      forRange 0 (slices + 1) (fanVertexUp qobj t sintemp2 zHigh) st
    else
      forDownTo slices 0 (fanVertexDown qobj t slices sintemp2 zHigh) st
  pure (emit .End st)

/-- The call `gl.TexCoord2d(1-float64(i)/float64(slices), 1-float64(j)/float64(stacks))`,
made when texture coordinates are on. -/
def emitTexCoord (qobj : Quadric) (slices stacks' i j : Int) (st : SphereDraw) : SphereDraw :=
  if qobj.TextureCoords then
    emit (.TexCoord2d (.sub (.lit 1) (.div (.ofInt i) (.ofInt slices)))
      (.sub (.lit 1) (.div (.ofInt j) (.ofInt stacks')))) st
  else st

/-- The body of the loop over the slices of a quad strip: two vertices. -/
def stripVertexPair (qobj : Quadric) (t : SphereCaches) (slices stacks' j : Int)
    (zLow zHigh sintemp1 sintemp2 : F64) (i : Int) (st : SphereDraw) :
    Except Err SphereDraw := do
  let st ←
    if qobj.Normals = GLU_SMOOTH then
      emitNormal t.sinCache2a t.cosCache2a i st.sintemp3 st.costemp3 st
    else if qobj.Normals = GLU_FLAT ∨ qobj.Normals = GLU_NONE then pure st
    else do
      assert false
      pure st
  let st ←
    if qobj.Orientation = GLU_OUTSIDE then
      emitVertex t i sintemp2 zHigh (emitTexCoord qobj slices stacks' i (j + 1) st)
    else
      emitVertex t i sintemp1 zLow (emitTexCoord qobj slices stacks' i j st)
  let st ←
    if qobj.Normals = GLU_SMOOTH then
      emitNormal t.sinCache2a t.cosCache2a i st.sintemp4 st.costemp4 st
    else if qobj.Normals = GLU_FLAT then
      emitNormal t.sinCache3a t.cosCache3a i st.sintemp4 st.costemp4 st
    else if qobj.Normals = GLU_NONE then pure st
    else do
      assert false
      pure st
  if qobj.Orientation = GLU_OUTSIDE then
    emitVertex t i sintemp1 zLow (emitTexCoord qobj slices stacks' i j st)
  else
    emitVertex t i sintemp2 zHigh (emitTexCoord qobj slices stacks' i (j + 1) st)

/-- The body of the loop over the stacks: one quad strip. -/
def sphereStrip (qobj : Quadric) (t : SphereCaches) (slices stacks' j : Int)
    (st : SphereDraw) : Except Err SphereDraw := do
  let zLow ← cacheGet t.cosCache1b j
  let zHigh ← cacheGet t.cosCache1b (j + 1)
  let sintemp1 ← cacheGet t.sinCache1b j
  let sintemp2 ← cacheGet t.sinCache1b (j + 1)
  let st ←
    if qobj.Normals = GLU_FLAT then do
      let st := { st with sintemp4 := ← cacheGet t.sinCache3b (j + 1) }
      let st := { st with costemp4 := ← cacheGet t.cosCache3b (j + 1) }
      pure st
    else if qobj.Normals = GLU_SMOOTH then
      if qobj.Orientation = GLU_OUTSIDE then do
        let st := { st with sintemp3 := ← cacheGet t.sinCache2b (j + 1) }
        let st := { st with costemp3 := ← cacheGet t.cosCache2b (j + 1) }
        let st := { st with sintemp4 := ← cacheGet t.sinCache2b j }
        let st := { st with costemp4 := ← cacheGet t.cosCache2b j }
        pure st
      else do
        let st := { st with sintemp3 := ← cacheGet t.sinCache2b j }
        let st := { st with costemp3 := ← cacheGet t.cosCache2b j }
        let st := { st with sintemp4 := ← cacheGet t.sinCache2b (j + 1) }
        let st := { st with costemp4 := ← cacheGet t.cosCache2b (j + 1) }
        pure st
    else do
      assert false
      pure st
  let st := emit (.Begin gl.QUAD_STRIP) st
  let st ← forRange 0 (slices + 1)
    (stripVertexPair qobj t slices stacks' j zLow zHigh sintemp1 sintemp2) st
  pure (emit .End st)

/-- The case `GLU_FILL` of the switch on the draw style. -/
def sphereFill (qobj : Quadric) (t : SphereCaches) (radius : ℚ) (slices stacks' : Int)
    (st : SphereDraw) : Except Err SphereDraw := do
  if !qobj.TextureCoords then do
    let st ← sphereLowFan qobj t radius slices st
    let st ← sphereHighFan qobj t radius slices stacks' st
    forRange 1 (stacks' - 1) (sphereStrip qobj t slices stacks') st
  else
    forRange 0 stacks' (sphereStrip qobj t slices stacks') st

/-- The calls that `gluSphere(qobj, radius, slices, stacks)` makes are returned. -/
def gluSphere (qobj : Quadric) (radius : ℚ) (slices stacks' : Int) :
    Except Err (List GLCmd) := do
  let slices := if slices ≥ CACHE_SIZE then CACHE_SIZE - 1 else slices
  let stacks' := if stacks' ≥ CACHE_SIZE then CACHE_SIZE - 1 else stacks'
  if slices < 2 ∨ stacks' < 1 ∨ radius < 0 then
    assert false
  let needCache2 : Bool :=
    decide (qobj.Normals = GLU_SMOOTH) ||
      (decide (qobj.Normals = GLU_FLAT) && decide (qobj.DrawStyle = GLU_LINE))
  let needCache3 : Bool :=
    decide (qobj.Normals = GLU_FLAT) && decide (qobj.DrawStyle ≠ GLU_POINT)
  let t ← sphereCaches qobj needCache2 needCache3 radius slices stacks'
  let st : SphereDraw :=
    { sintemp3 := .lit 0, costemp3 := .lit 0, sintemp4 := .lit 0, costemp4 := .lit 0,
      cmds := [] }
  if qobj.DrawStyle = GLU_FILL then do
    let st ← sphereFill qobj t radius slices stacks' st
    pure st.cmds
  else do
    assert false
    pure st.cmds

/-- A context for examples: OpenGL 2.1, at most 1024 texels a side, a proxy that
accepts every request whose width is at most `limit`. -/
def exampleGL (limit : Int) : GLState where
  version := [50, 46, 49, 46, 48]
  maxTextureSize := 1024
  proxyReply := fun c => if c.width ≤ limit then c.width else 0
  proxyWidth := 0
  unpackAlignment := 4
  unpackRowLength := 0
  unpackSkipRows := 0
  unpackSkipPixels := 0
  unpackLSBFirst := 0
  unpackSwapBytes := 0
  packAlignment := 4
  packRowLength := 0
  packSkipRows := 0
  packSkipPixels := 0
  packLSBFirst := 0
  packSwapBytes := 0
  calls := []

/-- A context for examples with every unpack parameter set: alignment 1, rows of 5
pixels, 2 rows and 3 pixels skipped, bytes swapped. -/
def exampleUnpack : GLState :=
  { exampleGL 1024 with
    unpackAlignment := 1, unpackRowLength := 5, unpackSkipRows := 2, unpackSkipPixels := 3,
    unpackSwapBytes := 1 }

/-! ## Vocabulary of the specification

The notions in which the claims are stated; none of them is used by the
embedding above. -/

/-- The 13 recognized pixel formats. -/
def recognizedFormats : List Int :=
  [gl.COLOR_INDEX, gl.STENCIL_INDEX, gl.DEPTH_COMPONENT, gl.RED, gl.GREEN, gl.BLUE, gl.ALPHA,
   gl.RGB, gl.RGBA, gl.LUMINANCE, gl.LUMINANCE_ALPHA, gl.BGR, gl.BGRA]

/-- The 12 packed-pixel element types. -/
def packedPixelTypes : List Int :=
  [gl.UNSIGNED_BYTE_3_3_2, gl.UNSIGNED_BYTE_2_3_3_REV, gl.UNSIGNED_SHORT_5_6_5,
   gl.UNSIGNED_SHORT_5_6_5_REV, gl.UNSIGNED_SHORT_4_4_4_4, gl.UNSIGNED_SHORT_4_4_4_4_REV,
   gl.UNSIGNED_SHORT_5_5_5_1, gl.UNSIGNED_SHORT_1_5_5_5_REV, gl.UNSIGNED_INT_8_8_8_8,
   gl.UNSIGNED_INT_8_8_8_8_REV, gl.UNSIGNED_INT_10_10_10_2, gl.UNSIGNED_INT_2_10_10_10_REV]

/-- The 8 element types that are not packed. -/
def unpackedTypes : List Int :=
  [gl.BITMAP, gl.BYTE, gl.UNSIGNED_BYTE, gl.SHORT, gl.UNSIGNED_SHORT, gl.INT, gl.UNSIGNED_INT,
   gl.FLOAT]

/-- The 20 recognized element types. -/
def recognizedTypes : List Int :=
  [gl.BITMAP, gl.BYTE, gl.UNSIGNED_BYTE, gl.SHORT, gl.UNSIGNED_SHORT, gl.INT, gl.UNSIGNED_INT,
   gl.FLOAT, gl.UNSIGNED_BYTE_3_3_2, gl.UNSIGNED_BYTE_2_3_3_REV, gl.UNSIGNED_SHORT_5_6_5,
   gl.UNSIGNED_SHORT_5_6_5_REV, gl.UNSIGNED_SHORT_4_4_4_4, gl.UNSIGNED_SHORT_4_4_4_4_REV,
   gl.UNSIGNED_SHORT_5_5_5_1, gl.UNSIGNED_SHORT_1_5_5_5_REV, gl.UNSIGNED_INT_8_8_8_8,
   gl.UNSIGNED_INT_8_8_8_8_REV, gl.UNSIGNED_INT_10_10_10_2, gl.UNSIGNED_INT_2_10_10_10_REV]

/-- The power of two nearest to `v`, ties rounded up. -/
def IsNearestPow2 (p v : Int) : Prop :=
  (∃ n : Nat, p = 2 ^ n) ∧ 3 * p ≤ 4 * v ∧ 2 * v < 3 * p

/-- The next candidate size of the iterative probe: each side is halved, but not below 1. -/
def fitStep (c : Int × Int) : Int × Int :=
  (if c.1 > 1 then c.1 / 2 else 1, if c.2 > 1 then c.2 / 2 else 1)

/-- The candidate sizes of the iterative probe that starts from `(W0, H0)`. -/
def fitCandidate (W0 H0 : Int) (n : Nat) : Int × Int := fitStep^[n] (W0, H0)

/-- The targets `closestFit` provides a proxy for. -/
def validTarget (target : Int) : Prop :=
  target = gl.TEXTURE_2D ∨ target = gl.PROXY_TEXTURE_2D ∨
  target = gl.TEXTURE_CUBE_MAP_POSITIVE_X_ARB ∨ target = gl.TEXTURE_CUBE_MAP_NEGATIVE_X_ARB ∨
  target = gl.TEXTURE_CUBE_MAP_POSITIVE_Y_ARB ∨ target = gl.TEXTURE_CUBE_MAP_NEGATIVE_Y_ARB ∨
  target = gl.TEXTURE_CUBE_MAP_POSITIVE_Z_ARB ∨ target = gl.TEXTURE_CUBE_MAP_NEGATIVE_Z_ARB ∨
  target = gl.TEXTURE_1D ∨ target = gl.PROXY_TEXTURE_1D

instance (target : Int) : Decidable (validTarget target) := by
  unfold validTarget; infer_instance

/-- The proxy target `closestFit` uses for `target`. -/
def proxyTargetOf (target : Int) : Int :=
  if target = gl.TEXTURE_2D ∨ target = gl.PROXY_TEXTURE_2D then gl.PROXY_TEXTURE_2D
  else if target = gl.TEXTURE_CUBE_MAP_POSITIVE_X_ARB ∨
      target = gl.TEXTURE_CUBE_MAP_NEGATIVE_X_ARB ∨
      target = gl.TEXTURE_CUBE_MAP_POSITIVE_Y_ARB ∨
      target = gl.TEXTURE_CUBE_MAP_NEGATIVE_Y_ARB ∨
      target = gl.TEXTURE_CUBE_MAP_POSITIVE_Z_ARB ∨
      target = gl.TEXTURE_CUBE_MAP_NEGATIVE_Z_ARB then gl.PROXY_TEXTURE_CUBE_MAP_ARB
  else gl.PROXY_TEXTURE_1D

/-- The proxy request with which a candidate is probed: level 1 of the proxy target that
belongs to `target`, with the size `c` of the candidate at level 1 (the width alone for a
one-dimensional target). -/
def proxyRequest (s : GLState) (target internalFormat format typ : Int) (c : Int × Int) :
    TexImage :=
  texImageRecord s (proxyTargetOf target) 1 internalFormat c.1
    (if target = gl.TEXTURE_1D ∨ target = gl.PROXY_TEXTURE_1D then none else some c.2)
    format typ none

/-- The three ways `closestFit` picks a proxy target. -/
inductive TargetClass (target : Int) : Prop where
  | twoD (h : target = gl.TEXTURE_2D ∨ target = gl.PROXY_TEXTURE_2D)
  | cube (h2 : ¬ (target = gl.TEXTURE_2D ∨ target = gl.PROXY_TEXTURE_2D))
      (h : target = gl.TEXTURE_CUBE_MAP_POSITIVE_X_ARB ∨
        target = gl.TEXTURE_CUBE_MAP_NEGATIVE_X_ARB ∨
        target = gl.TEXTURE_CUBE_MAP_POSITIVE_Y_ARB ∨
        target = gl.TEXTURE_CUBE_MAP_NEGATIVE_Y_ARB ∨
        target = gl.TEXTURE_CUBE_MAP_POSITIVE_Z_ARB ∨
        target = gl.TEXTURE_CUBE_MAP_NEGATIVE_Z_ARB)
  | oneD (h2 : ¬ (target = gl.TEXTURE_2D ∨ target = gl.PROXY_TEXTURE_2D))
      (hc : ¬ (target = gl.TEXTURE_CUBE_MAP_POSITIVE_X_ARB ∨
        target = gl.TEXTURE_CUBE_MAP_NEGATIVE_X_ARB ∨
        target = gl.TEXTURE_CUBE_MAP_POSITIVE_Y_ARB ∨
        target = gl.TEXTURE_CUBE_MAP_NEGATIVE_Y_ARB ∨
        target = gl.TEXTURE_CUBE_MAP_POSITIVE_Z_ARB ∨
        target = gl.TEXTURE_CUBE_MAP_NEGATIVE_Z_ARB))
      (h : target = gl.TEXTURE_1D ∨ target = gl.PROXY_TEXTURE_1D)

/-- The implementation's reply to the probe of candidate `k` of the sequence from `(W, H)`. -/
def probeReply (s : GLState) (target internalFormat format typ W H : Int) (k : Nat) : Int :=
  s.proxyReply (proxyRequest s target internalFormat format typ (fitCandidate W H (k + 1)))

/-- The proxy requests for the candidates `0 .. m-1` of the sequence from `(W, H)`. -/
def probeRequests (s : GLState) (target internalFormat format typ W H : Int) (m : Nat) :
    List TexImage :=
  (List.range m).map fun j =>
    proxyRequest s target internalFormat format typ (fitCandidate W H (j + 1))

/-- The number of halvings that take both sides of `(W, H)` to 1. -/
def fitDepth (W H : Int) : Nat := max (Nat.log 2 W.toNat) (Nat.log 2 H.toNat)

/-- The source byte `s(r, c, k)`: component `k` of the pixel in row `r` and column `c`
of an image whose rows are `ysize` bytes apart and whose pixels are `groupSize` bytes
apart. -/
def srcByte (datain : List Nat) (ysize groupSize r c k : Nat) : Nat :=
  datain.getD (r * ysize + c * groupSize + k) 0

/-- The rounded mean of component `k` over the 2x2 block of source pixels that maps to
the output pixel in row `i` and column `j`. -/
def boxAverage (datain : List Nat) (ysize groupSize i j k : Nat) : Nat :=
  (srcByte datain ysize groupSize (2 * i) (2 * j) k +
    srcByte datain ysize groupSize (2 * i) (2 * j + 1) k +
    srcByte datain ysize groupSize (2 * i + 1) (2 * j) k +
    srcByte datain ysize groupSize (2 * i + 1) (2 * j + 1) k + 2) / 4

/-- The first `p` bytes of `out` hold the values `v i j k` of a tightly packed image
that is `nw` pixels wide with `c` components, and the other bytes are those of
`dataout`. -/
def Written (dataout out : List Nat) (v : Nat → Nat → Nat → Nat) (nw c p : Nat) : Prop :=
  out.length = dataout.length ∧
  (∀ i j k, j < nw → k < c → (i * nw + j) * c + k < p →
    out[(i * nw + j) * c + k]? = some (v i j k)) ∧
  (∀ n, p ≤ n → out[n]? = dataout[n]?)

/-- The conditions under which the 2-D halving kernel is used on a `w` x `h` image of
`c` byte components with rows `y` bytes apart. -/
structure HalveInput (c w h y : Nat) (datain dataout : List Nat) : Prop where
  hc : 1 ≤ c
  hw : 2 ≤ w
  hweven : w % 2 = 0
  hh : 2 ≤ h
  hheven : h % 2 = 0
  hy : w * c ≤ y
  hin : h * y ≤ datain.length
  hbytes : ∀ b ∈ datain, b < 256
  hout : w / 2 * (h / 2) * c ≤ dataout.length

/-- The calls the upload sink received: the texture-image calls on a target that
is not a proxy, oldest first. -/
def uploads (s : GLState) : List TexImage :=
  s.calls.filter fun c => !isProxyTarget c.target

/-- The ambient unpack state: alignment, row length, skip-rows, skip-pixels and
swap-bytes. -/
def unpackState (s : GLState) : Int × Int × Int × Int × Int :=
  (s.unpackAlignment, s.unpackRowLength, s.unpackSkipRows, s.unpackSkipPixels,
    s.unpackSwapBytes)

/-- Partial correctness of a computation in the OpenGL context: every run from a
state satisfying `P` that returns a value ends with a value and a state
satisfying `Q`. -/
def GLM.Triple {α : Type} (P : GLState → Prop) (m : GLM α) (Q : α → GLState → Prop) : Prop :=
  ∀ s, P s → ∀ a t, m s = (.ok a, t) → Q a t

/-- The snapshot `psm` holds the unpack state `u`. -/
def PixelStorageMode.Holds (psm : PixelStorageMode) (u : Int × Int × Int × Int × Int) : Prop :=
  (psm.UnpackAlignment, psm.UnpackRowLength, psm.UnpackSkipRows, psm.UnpackSkipPixels,
    psm.UnpackSwapBytes) = u

/-- The state `t` has the unpack state of `s`, and the upload sink has received
nothing between `s` and `t`. -/
def SameSink (s t : GLState) : Prop :=
  unpackState t = unpackState s ∧ uploads t = uploads s

/-- Every run of `m`, returning or not, leaves the unpack state and the upload
sink as they were. -/
def GLM.Keeps {α : Type} (m : GLM α) : Prop := ∀ s, SameSink s (m s).2

/-- Every run of `m`, returning or not, only appends to the log of texture-image
calls. -/
def GLM.Grows {α : Type} (m : GLM α) : Prop := ∀ s, ∃ l, (m s).2.calls = s.calls ++ l

/-- The snapshot that `retrieveStoreModes` takes in the state `s`. -/
def snapshot (s : GLState) : PixelStorageMode :=
  { UnpackAlignment := s.unpackAlignment, UnpackRowLength := s.unpackRowLength,
    UnpackSkipRows := s.unpackSkipRows, UnpackSkipPixels := s.unpackSkipPixels,
    UnpackLSBFirst := s.unpackLSBFirst, UnpackSwapBytes := s.unpackSwapBytes,
    PackAlignment := s.packAlignment, PackRowLength := s.packRowLength,
    PackSkipRows := s.packSkipRows, PackSkipPixels := s.packSkipPixels,
    PackLSBFirst := s.packLSBFirst, PackSwapBytes := s.packSwapBytes }

/-- The row stride of the source image in the words of the specification: the row
of `rowLength` groups (of `width` groups when `rowLength` is 0) rounded up to the next
multiple of the alignment `A`. -/
def sourceRowsize (rowLength width groupSize A : Nat) : Nat :=
  ((if rowLength > 0 then rowLength else width) * groupSize + A - 1) / A * A

/-- The offset of the logical source image in the caller's buffer. -/
def sourceOffset (skipRows skipPixels rowsize groupSize : Nat) : Nat :=
  skipRows * rowsize + skipPixels * groupSize

/-- The state after the pixel-store parameter `pname` was set to `param`. -/
def storei (pname param : Int) (s : GLState) : GLState := (PixelStorei pname param s).2

/-- The state after the texture-image call `c`. -/
def texUpload (s : GLState) (c : TexImage) : GLState :=
  if isProxyTarget c.target then afterProbe s c else afterUpload s c

/-! ### The shape of a sphere

The words of the specification about `gluSphere`: which primitives a filled sphere is
made of, and which vertex stands where. -/

/-- The call is a `gl.Normal3d`. -/
def GLCmd.isNormal : GLCmd → Bool
  | .Normal3d _ _ _ => true
  | _ => false

/-- The calls that say what is drawn: all of them except the normals. -/
def shape (cmds : List GLCmd) : List GLCmd := cmds.filter (fun c => !c.isNormal)

/-- The bound that `gluSphere` puts on `slices` and `stacks`. -/
def clampCache (n : Int) : Int := if n ≥ CACHE_SIZE then CACHE_SIZE - 1 else n

/-- The angle of slice `i`. -/
def sliceAngle (slices i : Int) : F64 :=
  .div (.mul (.mul (.lit 2) .pi) (.ofInt i)) (.ofInt slices)

/-- The angle of ring `j`. -/
def stackAngle (stacks' j : Int) : F64 := .div (.mul .pi (.ofInt j)) (.ofInt stacks')

/-- The distance of ring `j` from the axis: zero at the two poles. -/
def ringRadius (radius : ℚ) (stacks' j : Int) : F64 :=
  if j = 0 ∨ j = stacks' then .lit 0 else .mul (.lit radius) (.sin (stackAngle stacks' j))

/-- The vertex of ring `j` at slice `i`; slice `slices` is slice 0 again. -/
def ringVertex (radius : ℚ) (slices stacks' j i : Int) : GLCmd :=
  .Vertex3d
    (.mul (ringRadius radius stacks' j) (.sin (sliceAngle slices (if i = slices then 0 else i))))
    (.mul (ringRadius radius stacks' j) (.cos (sliceAngle slices (if i = slices then 0 else i))))
    (.mul (.lit radius) (.cos (stackAngle stacks' j)))

/-- The texture coordinate of ring `j` at slice `i`. -/
def texCoord (slices stacks' i j : Int) : GLCmd :=
  .TexCoord2d (.sub (.lit 1) (.div (.ofInt i) (.ofInt slices)))
    (.sub (.lit 1) (.div (.ofInt j) (.ofInt stacks')))

/-- One vertex of the sphere, after its texture coordinate when those are on. -/
def texVertex (qobj : Quadric) (radius : ℚ) (slices stacks' j i : Int) : List GLCmd :=
  (if qobj.TextureCoords then [texCoord slices stacks' i j] else []) ++
    [ringVertex radius slices stacks' j i]

/-- The slice indices `0, 1, .., slices`. -/
def slicesUp (slices : Int) : List Int :=
  (List.range (slices + 1).toNat).map (fun (m : Nat) => (m : Int))

/-- The slice indices `slices, .., 1, 0`. -/
def slicesDown (slices : Int) : List Int :=
  (List.range (slices + 1).toNat).map (fun (m : Nat) => slices - (m : Int))

/-- A triangle fan: the apex and then the vertices of ring `j` at the given slices. -/
def fanShape (radius : ℚ) (slices stacks' : Int) (apex : F64) (j : Int) (order : List Int) :
    List GLCmd :=
  [.Begin gl.TRIANGLE_FAN, .Vertex3d (.lit 0) (.lit 0) apex] ++
    order.map (ringVertex radius slices stacks' j) ++ [.End]

/-- The quad strip between ring `j` and ring `j + 1`: for every slice one vertex of
each ring, ring `j + 1` first when the orientation is outside and ring `j` first
otherwise. -/
def stripShape (qobj : Quadric) (radius : ℚ) (slices stacks' j : Int) : List GLCmd :=
  [.Begin gl.QUAD_STRIP] ++
    (slicesUp slices).flatMap (fun (i : Int) =>
      if qobj.Orientation = GLU_OUTSIDE then
        texVertex qobj radius slices stacks' (j + 1) i ++ texVertex qobj radius slices stacks' j i
      else
        texVertex qobj radius slices stacks' j i ++ texVertex qobj radius slices stacks' (j + 1) i)
    ++ [.End]

/-- What the specification says a filled sphere is made of.  Without texture
coordinates: a fan around `(0, 0, radius)` with the `slices + 1` vertices of ring 1, a
fan around `(0, 0, -radius)` with those of ring `stacks - 1`, and the strips between the
rings `1 .. stacks - 1`.  With texture coordinates: the `stacks` strips between the
rings `0 .. stacks`. -/
def sphereShape (qobj : Quadric) (radius : ℚ) (slices stacks' : Int) : List GLCmd :=
  if qobj.TextureCoords then
    (List.range stacks'.toNat).flatMap
      (fun (j : Nat) => stripShape qobj radius slices stacks' (j : Int))
  else
    fanShape radius slices stacks' (.lit radius) 1
        (if qobj.Orientation = GLU_OUTSIDE then slicesDown slices else slicesUp slices) ++
      fanShape radius slices stacks' (.neg (.lit radius)) (stacks' - 1)
        (if qobj.Orientation = GLU_OUTSIDE then slicesUp slices else slicesDown slices) ++
      (List.range (stacks' - 2).toNat).flatMap
        (fun (m : Nat) => stripShape qobj radius slices stacks' (1 + (m : Int)))

/-- Every cache array has its `CACHE_SIZE` entries. -/
structure SphereCaches.Sized (t : SphereCaches) : Prop where
  sin1a : t.sinCache1a.length = 240
  cos1a : t.cosCache1a.length = 240
  sin2a : t.sinCache2a.length = 240
  cos2a : t.cosCache2a.length = 240
  sin3a : t.sinCache3a.length = 240
  cos3a : t.cosCache3a.length = 240
  sin1b : t.sinCache1b.length = 240
  cos1b : t.cosCache1b.length = 240
  sin2b : t.sinCache2b.length = 240
  cos2b : t.cosCache2b.length = 240
  sin3b : t.sinCache3b.length = 240
  cos3b : t.cosCache3b.length = 240

/-- The drawing step `m` succeeds from every state, and the calls it adds have the
shape `l`. -/
def Draws (m : SphereDraw → Except Err SphereDraw) (l : List GLCmd) : Prop :=
  ∀ st, ∃ st1 k, m st = .ok st1 ∧ st1.cmds = st.cmds ++ k ∧ shape k = l

/-- The four arrays that the vertices are computed from are the same in both. -/
def SameRings (t t1 : SphereCaches) : Prop :=
  t1.sinCache1a = t.sinCache1a ∧ t1.cosCache1a = t.cosCache1a ∧
    t1.sinCache1b = t.sinCache1b ∧ t1.cosCache1b = t.cosCache1b

/-- The cache arrays are complete and the four that the vertices are computed from
hold the values of the specification. -/
structure SphereCaches.Filled (t : SphereCaches) (radius : ℚ) (slices stacks' : Int) :
    Prop where
  sized : t.Sized
  sliceSin : ∀ i : Int, 0 ≤ i → i ≤ slices → t.sinCache1a.getD i.toNat (.lit 0) =
    .sin (sliceAngle slices (if i = slices then 0 else i))
  sliceCos : ∀ i : Int, 0 ≤ i → i ≤ slices → t.cosCache1a.getD i.toNat (.lit 0) =
    .cos (sliceAngle slices (if i = slices then 0 else i))
  ringSin : ∀ j : Int, 0 ≤ j → j ≤ stacks' → t.sinCache1b.getD j.toNat (.lit 0) =
    ringRadius radius stacks' j
  ringCos : ∀ j : Int, 0 ≤ j → j ≤ stacks' → t.cosCache1b.getD j.toNat (.lit 0) =
    .mul (.lit radius) (.cos (stackAngle stacks' j))

/-- The quadric that `NewQuadric` returns. -/
def NewQuadric : Quadric :=
  { Normals := GLU_SMOOTH, TextureCoords := false, Orientation := GLU_OUTSIDE,
    DrawStyle := GLU_FILL }

/-! ## Helper lemmas -/

theorem legalFormat_iff (format : Int) : legalFormat format = true ↔ format ∈ recognizedFormats := by
  simp [legalFormat, recognizedFormats, or_assoc]

theorem legalType_iff (typ : Int) :
    legalType typ = true ↔ typ ∈ unpackedTypes ∨ typ ∈ packedPixelTypes := by
  simp [legalType, unpackedTypes, packedPixelTypes, or_assoc]

theorem isTypePackedPixel_iff (typ : Int) :
    isTypePackedPixel typ = true ↔ typ ∈ packedPixelTypes := by
  unfold isTypePackedPixel
  by_cases h : typ ∈ packedPixelTypes
  · have hl : legalType typ = true := (legalType_iff typ).2 (Or.inr h)
    simp only [hl, h, iff_true]
    simp [packedPixelTypes] at h
    simp [or_assoc, h]
  · simp only [h, iff_false]
    simp [packedPixelTypes] at h
    simp [h]

theorem isLegalFormatForPackedPixelType_true (format typ : Int) :
    isLegalFormatForPackedPixelType format typ = true := by
  unfold isLegalFormatForPackedPixelType
  by_cases h : typ ∈ packedPixelTypes
  · simp [(isTypePackedPixel_iff typ).2 h]
  · have h1 : isTypePackedPixel typ = false := by
      rw [← Bool.not_eq_true, isTypePackedPixel_iff]; exact h
    simp [packedPixelTypes] at h
    simp [h1, h]

theorem legalType_iff2 (typ : Int) : legalType typ = true ↔ typ ∈ recognizedTypes := by
  simp [legalType, recognizedTypes, or_assoc]

theorem mem_packedPixelTypes (typ : Int) :
    typ ∈ packedPixelTypes ↔
      (typ = gl.UNSIGNED_BYTE_3_3_2 ∨ typ = gl.UNSIGNED_BYTE_2_3_3_REV ∨
    typ = gl.UNSIGNED_SHORT_5_6_5 ∨ typ = gl.UNSIGNED_SHORT_5_6_5_REV ∨
    typ = gl.UNSIGNED_SHORT_4_4_4_4 ∨ typ = gl.UNSIGNED_SHORT_4_4_4_4_REV ∨
    typ = gl.UNSIGNED_SHORT_5_5_5_1 ∨ typ = gl.UNSIGNED_SHORT_1_5_5_5_REV ∨
    typ = gl.UNSIGNED_INT_8_8_8_8 ∨ typ = gl.UNSIGNED_INT_8_8_8_8_REV ∨
    typ = gl.UNSIGNED_INT_10_10_10_2 ∨ typ = gl.UNSIGNED_INT_2_10_10_10_REV) := by
  simp [packedPixelTypes]

theorem isLegalFormatForPackedPixelType_unpacked (format typ : Int)
    (hp : typ ∉ packedPixelTypes) : isLegalFormatForPackedPixelType format typ = true := by
  unfold isLegalFormatForPackedPixelType
  have h1 : isTypePackedPixel typ = false := by
    rw [← Bool.not_eq_true, isTypePackedPixel_iff]; exact hp
  simp [packedPixelTypes] at hp
  simp [h1, hp]

theorem checkMipmapArgs_of_legal_pair (internalFormat format typ : Int)
    (h : isLegalFormatForPackedPixelType format typ = true) :
    checkMipmapArgs internalFormat format typ = .ok () ↔
      (format ∈ recognizedFormats ∧ format ≠ gl.STENCIL_INDEX) ∧ typ ∈ recognizedTypes := by
  unfold checkMipmapArgs
  rw [h]
  by_cases hf : format ∈ recognizedFormats
  · by_cases ht : typ ∈ recognizedTypes
    · by_cases hs : format = gl.STENCIL_INDEX
      · simp [hf, ht, hs]
      · simp [hf, ht, hs, (legalFormat_iff format).2 hf, (legalType_iff2 typ).2 ht]
    · have : legalType typ = false := Bool.eq_false_iff.2 (mt (legalType_iff2 typ).1 ht)
      simp [ht, this]
  · have : legalFormat format = false := Bool.eq_false_iff.2 (mt (legalFormat_iff format).1 hf)
    simp [hf, this]

theorem shiftRight_one (v : Int) : v >>> (1 : Nat) = v / 2 := by
  rw [Int.shiftRight_eq_div_pow]; norm_num

theorem wrapInt_of_range (x : Int) (h0 : -9223372036854775808 ≤ x)
    (h1 : x < 9223372036854775808) : wrapInt x = x := by
  unfold wrapInt; omega

theorem wrapInt_range (x : Int) :
    -9223372036854775808 ≤ wrapInt x ∧ wrapInt x < 9223372036854775808 := by
  unfold wrapInt; omega

theorem wrapInt_idem (x : Int) : wrapInt (wrapInt x) = wrapInt x :=
  wrapInt_of_range _ (wrapInt_range x).1 (wrapInt_range x).2

theorem wrapInt_mul_left (a b : Int) : wrapInt (wrapInt a * b) = wrapInt (a * b) := by
  have e : wrapInt a = a - 18446744073709551616 * ((a + 9223372036854775808) /
      18446744073709551616) := by
    unfold wrapInt; omega
  have e2 : (a - 18446744073709551616 * ((a + 9223372036854775808) / 18446744073709551616)) * b
      + 9223372036854775808 = a * b + 9223372036854775808 +
        18446744073709551616 * (-(((a + 9223372036854775808) / 18446744073709551616) * b)) := by
    ring
  rw [e]
  unfold wrapInt
  rw [e2, Int.add_mul_emod_self_left]

theorem nearestPow2Loop_spec (fuel : Nat) :
    ∀ v i : Int, 1 ≤ v → v.toNat ≤ fuel → wrapInt i = i →
      ∃ q : Int, nearestPow2Loop fuel v i = .ok (wrapInt (i * q)) ∧ IsNearestPow2 q v := by
  induction fuel with
  | zero => intro v i hv hf _; omega
  | succ fuel ih =>
    intro v i hv hf hi
    unfold nearestPow2Loop
    by_cases h1 : v = 1
    · subst h1
      exact ⟨1, by simp [hi], ⟨0, by norm_num⟩, by norm_num, by norm_num⟩
    by_cases h3 : v = 3
    · subst h3
      exact ⟨4, by simp, ⟨2, by norm_num⟩, by norm_num, by norm_num⟩
    rw [if_neg h1, if_neg h3, shiftRight_one]
    obtain ⟨q, hq, ⟨n, hn⟩, hlo, hhi⟩ :=
      ih (v / 2) (wrapInt (i * 2)) (by omega) (by omega) (wrapInt_idem _)
    refine ⟨2 * q, ?_, ⟨n + 1, ?_⟩, by omega, ?_⟩
    · rw [hq, wrapInt_mul_left]; congr 2; ring
    · rw [hn]; ring
    · cases n with
      | zero =>
        simp at hn
        subst hn
        omega
      | succ m =>
        have h2 : q = 2 * 2 ^ m := by rw [hn]; ring
        generalize (2 : Int) ^ m = r at h2
        omega

theorem nearestPow2_wrap (v : Int) (hv : 1 ≤ v) :
    ∃ q : Int, nearestPow2 v = .ok (wrapInt q) ∧ IsNearestPow2 q v := by
  unfold nearestPow2
  rw [if_neg (by omega)]
  obtain ⟨q, hq, hn⟩ := nearestPow2Loop_spec v.toNat v 1 hv (le_refl _) (by decide)
  exact ⟨q, by simpa using hq, hn⟩

theorem nearestPow2_spec (v : Int) (hv : 1 ≤ v) (hb : v < 3 * 2 ^ 61) :
    ∃ p : Int, nearestPow2 v = .ok p ∧ IsNearestPow2 p v := by
  obtain ⟨q, hq, hn⟩ := nearestPow2_wrap v hv
  have hb2 : v < 6917529027641081856 := by norm_num at hb; exact hb
  obtain ⟨⟨n, hn1⟩, hlo, hhi⟩ := hn
  have hpos : (0 : Int) < 2 ^ n := by positivity
  refine ⟨q, ?_, ⟨⟨n, hn1⟩, hlo, hhi⟩⟩
  rw [hq, wrapInt_of_range q (by omega) (by omega)]

theorem nearestPow2_overflow (v : Int) (h0 : 3 * 2 ^ 61 ≤ v) (h1 : v < 2 ^ 63) :
    nearestPow2 v = .ok (-2 ^ 63) := by
  have h0b : 6917529027641081856 ≤ v := by norm_num at h0; exact h0
  have h1b : v < 9223372036854775808 := by norm_num at h1; exact h1
  obtain ⟨q, hq, ⟨n, hn⟩, hlo, hhi⟩ := nearestPow2_wrap v (by omega)
  have ha : (2 : Int) ^ 62 < 2 ^ n := by rw [← hn]; norm_num; omega
  have hc : (2 : Int) ^ n < 2 ^ 64 := by rw [← hn]; norm_num; omega
  have h3 : 62 < n := (pow_lt_pow_iff_right₀ (by norm_num : (1 : Int) < 2)).1 ha
  have h4 : n < 64 := (pow_lt_pow_iff_right₀ (by norm_num : (1 : Int) < 2)).1 hc
  have h5 : n = 63 := by omega
  rw [hq, hn, h5]
  decide

theorem IsNearestPow2.pos {p v : Int} (h : IsNearestPow2 p v) : 1 ≤ p := by
  obtain ⟨⟨n, hn⟩, -, -⟩ := h
  have : (0 : Int) < 2 ^ n := by positivity
  omega

@[simp] theorem GLM.run_pure {α : Type} (a : α) (s : GLState) :
    (Pure.pure a : GLM α) s = (.ok a, s) := rfl

@[simp] theorem GLM.run_bind {α β : Type} (m : GLM α) (f : α → GLM β) (s : GLState) :
    (m >>= f) s = match m s with
      | (.ok a, s1) => f a s1
      | (.error e, s1) => (.error e, s1) := rfl

@[simp] theorem GLM.run_lift {α : Type} (x : Except Err α) (s : GLState) :
    GLM.lift x s = (x, s) := rfl

@[simp] theorem GLM.run_get (s : GLState) : GLM.get s = (.ok s, s) := rfl

@[simp] theorem GLM.run_modify (f : GLState → GLState) (s : GLState) :
    GLM.modify f s = (.ok (), f s) := rfl

theorem validTarget.cases {target : Int} (ht : validTarget target) : TargetClass target := by
  unfold validTarget at ht
  rcases ht with h | h | h | h | h | h | h | h | h | h
  · exact .twoD (Or.inl h)
  · exact .twoD (Or.inr h)
  all_goals first
    | exact .cube (by subst h; decide) (by subst h; decide)
    | exact .oneD (by subst h; decide) (by subst h; decide) (by subst h; decide)

theorem closestFitLoop_step (target height internalFormat format typ : Int)
    (ht : validTarget target) (fuel : Nat) (W H : Int) (hW : 1 ≤ W) (hH : 1 ≤ H)
    (s : GLState) :
    closestFitLoop target height internalFormat format typ (fuel + 1) W H s =
      (let req := proxyRequest s target internalFormat format typ (fitStep (W, H))
       if s.proxyReply req = 0 then
         if W = 1 ∧ H = 1 then closestFitNoProxyTexture 0 height (afterProbe s req)
         else closestFitLoop target height internalFormat format typ fuel
           (fitStep (W, H)).1 (fitStep (W, H)).2 (afterProbe s req)
       else (.ok (W, H), afterProbe s req)) := by
  have hW0 : (decide (W > 0)) = true := by simp; omega
  have hH0 : (decide (H > 0)) = true := by simp; omega
  have hfW : (if W > 1 then W >>> (1 : Nat) else W) = (fitStep (W, H)).1 := by
    simp only [fitStep, shiftRight_one]; split_ifs <;> omega
  have hfH : (if H > 1 then H >>> (1 : Nat) else H) = (fitStep (W, H)).2 := by
    simp only [fitStep, shiftRight_one]; split_ifs <;> omega
  rw [closestFitLoop]
  simp only [hfW, hfH, assert, hW0, hH0]
  generalize fitStep (W, H) = c
  have key : ∀ r : TexImage,
      (if (afterProbe s r).proxyWidth = 0 then
          if W = 1 ∧ H = 1 then closestFitNoProxyTexture (afterProbe s r).proxyWidth height
          else closestFitLoop target height internalFormat format typ fuel c.1 c.2
        else Pure.pure (W, H)) (afterProbe s r) =
      if s.proxyReply r = 0 then
        if W = 1 ∧ H = 1 then closestFitNoProxyTexture 0 height (afterProbe s r)
        else closestFitLoop target height internalFormat format typ fuel c.1 c.2
          (afterProbe s r)
      else (Except.ok (W, H), afterProbe s r) := by
    intro r
    have hr : (afterProbe s r).proxyWidth = s.proxyReply r := rfl
    rw [hr]
    by_cases h0 : s.proxyReply r = 0
    · simp only [h0, if_true]; split_ifs <;> rfl
    · simp only [h0, if_false]; rfl
  rcases ht.cases with h | ⟨h2, h⟩ | ⟨h2, hc, h⟩
  · have h1 : ¬ (target = gl.TEXTURE_1D ∨ target = gl.PROXY_TEXTURE_1D) := by
      rcases h with h | h <;> subst h <;> decide
    have hp : isProxyTarget gl.PROXY_TEXTURE_2D = true := by decide
    simp only [if_pos h, proxyRequest, proxyTargetOf, if_neg h1, GLM.run_bind, GLM.run_lift,
      if_true, TexImage2D, texImage, hp, GLM.run_modify, GetTexLevelParameteriv, GLM.run_get,
      GLM.run_pure]
    exact key _
  · have h1 : ¬ (target = gl.TEXTURE_1D ∨ target = gl.PROXY_TEXTURE_1D) := by
      rcases h with h | h | h | h | h | h <;> subst h <;> decide
    have hp : isProxyTarget gl.PROXY_TEXTURE_CUBE_MAP_ARB = true := by decide
    simp only [if_neg h2, if_pos h, proxyRequest, proxyTargetOf, if_neg h1, GLM.run_bind,
      GLM.run_lift, if_true, TexImage2D, texImage, hp, GLM.run_modify, GetTexLevelParameteriv,
      GLM.run_get, GLM.run_pure]
    exact key _
  · have hp : isProxyTarget gl.PROXY_TEXTURE_1D = true := by decide
    have hb : (target == gl.TEXTURE_1D || target == gl.PROXY_TEXTURE_1D) = true := by
      rcases h with h | h <;> subst h <;> decide
    simp only [if_neg h2, if_neg hc, if_pos h, hb, proxyRequest, proxyTargetOf, GLM.run_bind,
      GLM.run_lift, if_true, TexImage1D, texImage, hp, GLM.run_modify, GetTexLevelParameteriv,
      GLM.run_get, GLM.run_pure]
    exact key _

theorem fitCandidate_succ (W H : Int) (n : Nat) :
    fitCandidate W H (n + 1) = fitCandidate (fitStep (W, H)).1 (fitStep (W, H)).2 n := by
  simp [fitCandidate, Function.iterate_succ_apply]

theorem log_half (W : Int) (hW : 1 ≤ W) :
    Nat.log 2 (if W > 1 then W / 2 else 1).toNat = Nat.log 2 W.toNat - 1 := by
  by_cases h : W > 1
  · rw [if_pos h]
    have : (W / 2).toNat = W.toNat / 2 := by omega
    rw [this, Nat.log_div_base]
  · have : W = 1 := by omega
    subst this
    simp

theorem log_pos_of_two_le (W : Int) (hW : 2 ≤ W) : 1 ≤ Nat.log 2 W.toNat :=
  Nat.log_pos (by norm_num) (by omega)

theorem fitDepth_step (W H : Int) (hW : 1 ≤ W) (hH : 1 ≤ H) (h : ¬ (W = 1 ∧ H = 1)) :
    fitDepth (fitStep (W, H)).1 (fitStep (W, H)).2 + 1 = fitDepth W H := by
  simp only [fitDepth, fitStep, log_half W hW, log_half H hH]
  have h1 : 2 ≤ W → 1 ≤ Nat.log 2 W.toNat := log_pos_of_two_le W
  have h2 : 2 ≤ H → 1 ≤ Nat.log 2 H.toNat := log_pos_of_two_le H
  omega

theorem fitStep_pos (W H : Int) :
    1 ≤ (fitStep (W, H)).1 ∧ 1 ≤ (fitStep (W, H)).2 := by
  simp only [fitStep]; constructor <;> split_ifs <;> omega

theorem probeReply_succ (s : GLState) (target internalFormat format typ W H : Int)
    (r : TexImage) (j : Nat) :
    probeReply (afterProbe s r) target internalFormat format typ
        (fitStep (W, H)).1 (fitStep (W, H)).2 j =
      probeReply s target internalFormat format typ W H (j + 1) := by
  simp only [probeReply, fitCandidate_succ W H (j + 1)]
  rfl

theorem probeRequests_succ (s : GLState) (target internalFormat format typ W H : Int)
    (m : Nat) :
    probeRequests s target internalFormat format typ W H (m + 1) =
      proxyRequest s target internalFormat format typ (fitStep (W, H)) ::
        probeRequests (afterProbe s
            (proxyRequest s target internalFormat format typ (fitStep (W, H))))
          target internalFormat format typ (fitStep (W, H)).1 (fitStep (W, H)).2 m := by
  simp only [probeRequests, List.range_succ_eq_map, List.map_cons, List.map_map]
  congr 1

/-- The run of the probing loop: it makes `m` probes, `1 ≤ m ≤ fitDepth W H + 1`, all
but the last rejected; it returns the last probed candidate when that one is accepted
and otherwise, with the candidate at 1x1, the result of the fallback call. -/
theorem closestFitLoop_run (target height internalFormat format typ : Int)
    (ht : validTarget target) :
    ∀ (fuel : Nat) (W H : Int) (s : GLState), 1 ≤ W → 1 ≤ H → fitDepth W H + 1 ≤ fuel →
      ∃ m : Nat, m ≤ fitDepth W H ∧
        (∀ j, j < m → probeReply s target internalFormat format typ W H j = 0) ∧
        (∀ j, j < m → fitCandidate W H j ≠ (1, 1)) ∧
        (probeReply s target internalFormat format typ W H m = 0 →
          fitCandidate W H m = (1, 1)) ∧
        closestFitLoop target height internalFormat format typ fuel W H s =
          (let sfin := (probeRequests s target internalFormat format typ W H (m + 1)).foldl
              afterProbe s
           if probeReply s target internalFormat format typ W H m = 0 then
             closestFitNoProxyTexture 0 height sfin
           else (.ok (fitCandidate W H m), sfin)) := by
  intro fuel
  induction fuel with
  | zero => intro W H s _ _ hf; omega
  | succ fuel ih =>
    intro W H s hW hH hf
    rw [closestFitLoop_step target height internalFormat format typ ht fuel W H hW hH s]
    by_cases h0 : s.proxyReply
        (proxyRequest s target internalFormat format typ (fitStep (W, H))) = 0
    · by_cases h11 : W = 1 ∧ H = 1
      · refine ⟨0, Nat.zero_le _, fun j hj => by omega, fun j hj => by omega, fun _ => ?_, ?_⟩
        · obtain ⟨rfl, rfl⟩ := h11; rfl
        · have hr : probeReply s target internalFormat format typ W H 0 = 0 := h0
          simp only [h0, if_true, h11, and_self, hr, probeRequests_succ]
          rfl
      · obtain ⟨hW1, hH1⟩ := fitStep_pos W H
        have hd := fitDepth_step W H hW hH h11
        obtain ⟨m, hm, hrej, hne, hone, hrun⟩ := ih (fitStep (W, H)).1 (fitStep (W, H)).2
          (afterProbe s (proxyRequest s target internalFormat format typ (fitStep (W, H))))
          hW1 hH1 (by omega)
        refine ⟨m + 1, by omega, ?_, ?_, ?_, ?_⟩
        · intro j hj
          cases j with
          | zero => exact h0
          | succ j =>
            rw [← probeReply_succ s target internalFormat format typ W H _ j]
            exact hrej j (by omega)
        · intro j hj
          cases j with
          | zero =>
            intro hc
            apply h11
            simp only [fitCandidate, Function.iterate_zero, id_eq, Prod.mk.injEq] at hc
            exact hc
          | succ j =>
            rw [fitCandidate_succ]
            exact hne j (by omega)
        · intro hz
          rw [fitCandidate_succ]
          apply hone
          rw [probeReply_succ]; exact hz
        · simp only [h0, if_true, if_neg h11, hrun, probeReply_succ,
            probeRequests_succ s target internalFormat format typ W H (m + 1),
            List.foldl_cons, ← fitCandidate_succ]
    · refine ⟨0, Nat.zero_le _, fun j hj => by omega, fun j hj => by omega,
        fun hz => absurd hz h0, ?_⟩
      have hr : probeReply s target internalFormat format typ W H 0 ≠ 0 := h0
      simp only [if_neg h0, if_neg hr, probeRequests_succ]
      rfl

theorem closestFitLoop_invalid (target height internalFormat format typ : Int)
    (ht : ¬ validTarget target) (fuel : Nat) (W H : Int) (hW : 1 ≤ W) (hH : 1 ≤ H)
    (s : GLState) :
    closestFitLoop target height internalFormat format typ (fuel + 1) W H s =
      (.error .assertFailed, s) := by
  have hW0 : (decide (W > 0)) = true := by simp; omega
  have hH0 : (decide (H > 0)) = true := by simp; omega
  simp only [validTarget, not_or] at ht
  obtain ⟨a1, a2, a3, a4, a5, a6, a7, a8, a9, a10⟩ := ht
  have hb : (target == gl.TEXTURE_1D || target == gl.PROXY_TEXTURE_1D) = false := by
    simp [a9, a10]
  rw [closestFitLoop]
  simp [assert, hW0, hH0, a1, a2, a3, a4, a5, a6, a7, a8, hb]

theorem closestFitLoop_nonpos (target height internalFormat format typ : Int) (fuel : Nat)
    (W H : Int) (h : W ≤ 0 ∨ H ≤ 0) (s : GLState) :
    closestFitLoop target height internalFormat format typ (fuel + 1) W H s =
      (.error .assertFailed, s) := by
  rw [closestFitLoop]
  by_cases hW : W ≤ 0
  · have hW0 : (decide (W > 0)) = false := by simp; omega
    simp [assert, hW0]
  · have hW0 : (decide (W > 0)) = true := by simp; omega
    have hH0 : (decide (H > 0)) = false := by
      rcases h with h | h
      · exact absurd h hW
      · simp; omega
    simp [assert, hW0, hH0]

theorem foldl_afterProbe_calls (reqs : List TexImage) :
    ∀ s : GLState, (reqs.foldl afterProbe s).calls = s.calls ++ reqs := by
  induction reqs with
  | nil => intro s; simp
  | cons r reqs ih => intro s; simp [List.foldl_cons, ih, afterProbe]

theorem GetIntegerv_maxTextureSize (s : GLState) :
    GetIntegerv gl.MAX_TEXTURE_SIZE s = (.ok s.maxTextureSize, s) := by
  simp [GetIntegerv]

theorem closestFitNoProxyTexture_run (width height pw ph : Int) (s : GLState)
    (hw : nearestPow2 width = .ok pw) (hh : nearestPow2 height = .ok ph) :
    closestFitNoProxyTexture width height s =
      (.ok (min pw s.maxTextureSize, min ph s.maxTextureSize), s) := by
  have e1 : (if pw > s.maxTextureSize then s.maxTextureSize else pw) =
      min pw s.maxTextureSize := by
    rw [min_def]; split_ifs <;> omega
  have e2 : (if ph > s.maxTextureSize then s.maxTextureSize else ph) =
      min ph s.maxTextureSize := by
    rw [min_def]; split_ifs <;> omega
  simp only [closestFitNoProxyTexture, GLM.run_bind, GetIntegerv_maxTextureSize, GLM.run_lift,
    hw, hh, GLM.run_pure, e1, e2]

theorem fitDepth_lt (W H : Int) (hW : 1 ≤ W) (hH : 1 ≤ H) :
    fitDepth W H + 1 ≤ (W + H).toNat := by
  have h1 : Nat.log 2 W.toNat < W.toNat := Nat.log_lt_self 2 (by omega)
  have h2 : Nat.log 2 H.toNat < H.toNat := Nat.log_lt_self 2 (by omega)
  simp only [fitDepth]
  omega

theorem closestFit_proxy (target width height internalFormat format typ W0 H0 : Int)
    (s : GLState) (hpol : stringGE (firstToken s.version) version11 = true)
    (hw : nearestPow2 width = .ok W0) (hh : nearestPow2 height = .ok H0) :
    closestFit target width height internalFormat format typ s =
      closestFitLoop target height internalFormat format typ ((W0 + H0).toNat + 1) W0 H0
        s := by
  simp only [closestFit, GLM.run_bind, GLM.run_get, hpol, if_true, GLM.run_lift, hw, hh]

theorem fitCandidate_pos (W H : Int) (hW : 1 ≤ W) (hH : 1 ≤ H) (n : Nat) :
    1 ≤ (fitCandidate W H n).1 ∧ 1 ≤ (fitCandidate W H n).2 := by
  induction n generalizing W H with
  | zero => exact ⟨hW, hH⟩
  | succ n ih =>
    rw [fitCandidate_succ]
    exact ih _ _ (fitStep_pos W H).1 (fitStep_pos W H).2

theorem fitCandidate_succ_eq (W H : Int) (n : Nat) :
    fitCandidate W H (n + 1) = fitStep (fitCandidate W H n) := by
  simp [fitCandidate, Function.iterate_succ_apply']

theorem fitCandidate_stable (W H : Int) (m : Nat) (h : fitCandidate W H m = (1, 1)) :
    ∀ n, m ≤ n → fitCandidate W H n = (1, 1) := by
  intro n hn
  induction n, hn using Nat.le_induction with
  | base => exact h
  | succ n _ ih => rw [fitCandidate_succ_eq, ih]; rfl

theorem fitStep_decreases (c : Int × Int) (h1 : 1 ≤ c.1) (h2 : 1 ≤ c.2) (hne : c ≠ (1, 1)) :
    (fitStep c).1 + (fitStep c).2 < c.1 + c.2 := by
  obtain ⟨a, b⟩ := c
  have : ¬ (a = 1 ∧ b = 1) := fun h => hne (by rw [h.1, h.2])
  simp only [fitStep] at *
  split_ifs <;> omega

theorem nearestPow2_zero : nearestPow2 0 = .ok (-1) := by decide

/-- The outcome of the probing loop does not depend on the fuel, once there is enough. -/
theorem closestFitLoop_fuel (target height internalFormat format typ : Int) :
    ∀ (fuel1 fuel2 : Nat) (W H : Int) (s : GLState), 1 ≤ W → 1 ≤ H →
      fitDepth W H + 1 ≤ fuel1 → fitDepth W H + 1 ≤ fuel2 →
      closestFitLoop target height internalFormat format typ fuel1 W H s =
        closestFitLoop target height internalFormat format typ fuel2 W H s := by
  intro fuel1
  induction fuel1 with
  | zero => intro fuel2 W H s _ _ h1 _; omega
  | succ fuel1 ih =>
    intro fuel2 W H s hW hH h1 h2
    obtain ⟨fuel2, rfl⟩ : ∃ n, fuel2 = n + 1 := ⟨fuel2 - 1, by omega⟩
    by_cases ht : validTarget target
    · rw [closestFitLoop_step target height internalFormat format typ ht fuel1 W H hW hH s,
        closestFitLoop_step target height internalFormat format typ ht fuel2 W H hW hH s]
      by_cases h11 : W = 1 ∧ H = 1
      · simp only [h11, and_self, if_true]
      · have hd := fitDepth_step W H hW hH h11
        obtain ⟨hW1, hH1⟩ := fitStep_pos W H
        simp only [if_neg h11]
        rw [ih fuel2 _ _ _ hW1 hH1 (by omega) (by omega)]
    · rw [closestFitLoop_invalid target height internalFormat format typ ht fuel1 W H hW hH s,
        closestFitLoop_invalid target height internalFormat format typ ht fuel2 W H hW hH s]

theorem forN_inv {σ : Type} (body : σ → Except Err σ) :
    ∀ (n : Nat) (P : Nat → σ → Prop) (st : σ), P 0 st →
      (∀ m st, m < n → P m st → ∃ st1, body st = .ok st1 ∧ P (m + 1) st1) →
      ∃ st1, forN n body st = .ok st1 ∧ P n st1 := by
  intro n
  induction n with
  | zero => intro P st h0 _; exact ⟨st, rfl, h0⟩
  | succ n ih =>
    intro P st h0 hstep
    obtain ⟨st1, hb, h1⟩ := hstep 0 st (Nat.succ_pos n) h0
    obtain ⟨st2, hf, h2⟩ := ih (fun m => P (m + 1)) st1 h1
      (fun m st hm hP => hstep (m + 1) st (by omega) hP)
    refine ⟨st2, ?_, h2⟩
    show (body st >>= forN n body) = .ok st2
    rw [hb]; exact hf

theorem index_ok (buf : List Nat) (off : Nat) (i : Int) (n : Nat) (hi : i = (n : Int))
    (h : off + n < buf.length) :
    index buf (off : Int) i = .ok (buf.getD (off + n) 0) := by
  subst hi
  have h1 : (0 : Int) ≤ (n : Int) ∧ (off : Int) + (n : Int) < (buf.length : Int) := by
    constructor <;> omega
  have h2 : ((off : Int) + (n : Int)).toNat = off + n := by omega
  simp only [index, if_pos h1, h2]

theorem store_ok (buf : List Nat) (off : Nat) (v : Nat) (h : off < buf.length) :
    store buf (off : Int) 0 v = .ok (buf.set off v) := by
  have h1 : (0 : Int) ≤ 0 ∧ (off : Int) + 0 < (buf.length : Int) := by
    constructor <;> omega
  have h2 : ((off : Int) + 0).toNat = off := by omega
  simp only [store, if_pos h1, h2]

theorem reslice_ok (len off : Nat) (a : Int) (b : Nat) (hab : a = (b : Int))
    (h : off + b ≤ len) :
    reslice len (off : Int) a = .ok (((off + b : Nat)) : Int) := by
  subst hab
  have h1 : (0 : Int) ≤ (b : Int) ∧ (off : Int) + (b : Int) ≤ (len : Int) := by
    constructor <;> omega
  simp only [reslice, if_pos h1]
  congr 1

theorem tdiv_two_cast (n : Nat) : (n : Int).tdiv 2 = ((n / 2 : Nat) : Int) := by
  rw [Int.tdiv_eq_ediv (by omega) (by omega)]
  omega

theorem getD_lt_256 (buf : List Nat) (hb : ∀ b ∈ buf, b < 256) (n : Nat) :
    buf.getD n 0 < 256 := by
  by_cases h : n < buf.length
  · rw [List.getD_eq_getElem _ _ h]
    exact hb _ (List.getElem_mem h)
  · rw [List.getD_eq_default _ _ (by omega)]
    omega

theorem byteAvg4 (a b c d : Nat) (ha : a < 256) (hb : b < 256) (hc : c < 256)
    (hd : d < 256) :
    ((((a : Int) + (b : Int) + (c : Int) + (d : Int) + 2).tdiv 4) % 256).toNat =
      (a + b + c + d + 2) / 4 := by
  rw [Int.tdiv_eq_ediv (by omega) (by omega)]
  omega

theorem radix_lt (a A b n : Nat) (ha : a < A) (hb : b < n) : a * n + b < A * n := by
  have h1 : (a + 1) * n ≤ A * n := Nat.mul_le_mul_right n ha
  have h2 : (a + 1) * n = a * n + n := Nat.succ_mul a n
  omega

theorem radix_inj (a a1 b b1 n : Nat) (hb : b < n) (hb1 : b1 < n)
    (h : a * n + b = a1 * n + b1) : a = a1 ∧ b = b1 := by
  rcases Nat.lt_trichotomy a a1 with hlt | heq | hgt
  · have := radix_lt a a1 b n hlt hb
    omega
  · subst heq
    exact ⟨rfl, by omega⟩
  · have := radix_lt a1 a b1 n hgt hb1
    omega

theorem Written.set {dataout out : List Nat} {v : Nat → Nat → Nat → Nat} {nw c p : Nat}
    (hW : Written dataout out v nw c p) (i j k : Nat) (hj : j < nw) (hk : k < c)
    (hp : p = (i * nw + j) * c + k) (hlen : p < out.length) :
    Written dataout (out.set p (v i j k)) v nw c (p + 1) := by
  obtain ⟨h1, h2, h3⟩ := hW
  refine ⟨by rw [List.length_set, h1], ?_, ?_⟩
  · intro i1 j1 k1 hj1 hk1 hlt
    by_cases he : (i1 * nw + j1) * c + k1 = p
    · rw [he, List.getElem?_set_self hlen]
      rw [hp] at he
      obtain ⟨e1, e2⟩ := radix_inj _ _ _ _ c hk1 hk he
      obtain ⟨e3, e4⟩ := radix_inj _ _ _ _ nw hj1 hj e1
      rw [e2, e3, e4]
    · rw [List.getElem?_set_ne (Ne.symm he)]
      exact h2 i1 j1 k1 hj1 hk1 (by omega)
  · intro n hn
    rw [List.getElem?_set_ne (by omega)]
    exact h3 n (by omega)

theorem halveComponent_ok (datain out : List Nat) (y g S T : Nat)
    (hb : ∀ b ∈ datain, b < 256) (hT : T + y + g < datain.length) (hS : S < out.length) :
    halveComponent datain 1 y g { dataout := out, s := (S : Int), t := (T : Int) } =
      .ok { dataout := out.set S ((datain.getD T 0 + datain.getD (T + g) 0 +
              datain.getD (T + y) 0 + datain.getD (T + y + g) 0 + 2) / 4),
            s := ((S + 1 : Nat) : Int), t := ((T + 1 : Nat) : Int) } := by
  have e0 := index_ok datain T 0 0 (by omega) (by omega)
  have e1 := index_ok datain T (g : Int) g rfl (by omega)
  have e2 := index_ok datain T (y : Int) y rfl (by omega)
  have e3 : index datain (T : Int) ((y : Int) + (g : Int)) =
      .ok (datain.getD (T + y + g) 0) := by
    rw [Nat.add_assoc]
    exact index_ok datain T ((y : Int) + (g : Int)) (y + g) (by omega) (by omega)
  have e4 := byteAvg4 _ _ _ _ (getD_lt_256 datain hb T) (getD_lt_256 datain hb (T + g))
    (getD_lt_256 datain hb (T + y)) (getD_lt_256 datain hb (T + y + g))
  have e5 := store_ok out S
    ((datain.getD T 0 + datain.getD (T + g) 0 + datain.getD (T + y) 0 +
      datain.getD (T + y + g) 0 + 2) / 4) hS
  have e6 := reslice_ok out.length S 1 1 (by omega)
    (by omega)
  have e7 := reslice_ok datain.length T 1 1 (by omega) (by omega)
  simp only [Nat.add_zero] at e0
  simp only [halveComponent, e0, e1, e2, e3, e4, e5, List.length_set, e6, e7, bind,
    Except.bind, pure, Except.pure]

theorem boxAverage_eq (datain : List Nat) (y c i j m : Nat) :
    (datain.getD (2 * (i * y) + 2 * (j * c) + m) 0 +
      datain.getD (2 * (i * y) + 2 * (j * c) + m + c) 0 +
      datain.getD (2 * (i * y) + 2 * (j * c) + m + y) 0 +
      datain.getD (2 * (i * y) + 2 * (j * c) + m + y + c) 0 + 2) / 4 =
    boxAverage datain y c i j m := by
  have h1 : 2 * i * y + 2 * j * c + m = 2 * (i * y) + 2 * (j * c) + m := by ring
  have h2 : 2 * i * y + (2 * j + 1) * c + m = 2 * (i * y) + 2 * (j * c) + m + c := by ring
  have h3 : (2 * i + 1) * y + 2 * j * c + m = 2 * (i * y) + 2 * (j * c) + m + y := by ring
  have h4 : (2 * i + 1) * y + (2 * j + 1) * c + m =
      2 * (i * y) + 2 * (j * c) + m + y + c := by ring
  simp only [boxAverage, srcByte, h1, h2, h3, h4]

theorem HalveInput.read_bound {c w h y : Nat} {datain dataout : List Nat}
    (H : HalveInput c w h y datain dataout) (i j m : Nat) (hi : i < h / 2) (hj : j < w / 2)
    (hm : m < c) : 2 * (i * y) + 2 * (j * c) + m + y + c < datain.length := by
  have h1 : (2 * i + 2) * y ≤ h * y := Nat.mul_le_mul_right y (by omega)
  have h2 : (2 * j + 2) * c ≤ w * c := Nat.mul_le_mul_right c (by omega)
  have h3 : (2 * i + 2) * y = 2 * (i * y) + 2 * y := by ring
  have h4 : (2 * j + 2) * c = 2 * (j * c) + 2 * c := by ring
  have h5 := H.hy
  have h6 := H.hin
  omega

theorem HalveInput.write_bound {c w h y : Nat} {datain dataout : List Nat}
    (H : HalveInput c w h y datain dataout) (i j m : Nat) (hi : i < h / 2) (hj : j < w / 2)
    (hm : m < c) : (i * (w / 2) + j) * c + m < dataout.length := by
  have h1 := radix_lt i (h / 2) j (w / 2) hi hj
  have h2 := radix_lt _ _ m c h1 hm
  have h3 := H.hout
  have h4 : h / 2 * (w / 2) * c = w / 2 * (h / 2) * c := by ring
  omega

theorem halvePixel_ok {c w h y : Nat} {datain dataout : List Nat}
    (H : HalveInput c w h y datain dataout) (i j : Nat) (hi : i < h / 2) (hj : j < w / 2)
    (out : List Nat)
    (hW : Written dataout out (boxAverage datain y c) (w / 2) c ((i * (w / 2) + j) * c)) :
    ∃ out1, halvePixel (c : Int) datain 1 (y : Int) (c : Int)
        { dataout := out, s := (((i * (w / 2) + j) * c : Nat) : Int),
          t := ((2 * (i * y) + 2 * (j * c) : Nat) : Int) } =
        .ok { dataout := out1, s := (((i * (w / 2) + (j + 1)) * c : Nat) : Int),
              t := ((2 * (i * y) + 2 * ((j + 1) * c) : Nat) : Int) } ∧
      Written dataout out1 (boxAverage datain y c) (w / 2) c
        ((i * (w / 2) + (j + 1)) * c) := by
  obtain ⟨st1, hf, hs, ht, hw1⟩ := forN_inv (halveComponent datain 1 (y : Int) (c : Int)) c
    (fun m st => st.s = (((i * (w / 2) + j) * c + m : Nat) : Int) ∧
      st.t = ((2 * (i * y) + 2 * (j * c) + m : Nat) : Int) ∧
      Written dataout st.dataout (boxAverage datain y c) (w / 2) c
        ((i * (w / 2) + j) * c + m))
    { dataout := out, s := (((i * (w / 2) + j) * c : Nat) : Int),
      t := ((2 * (i * y) + 2 * (j * c) : Nat) : Int) }
    ⟨rfl, rfl, hW⟩
    (by
      rintro m ⟨out0, s0, t0⟩ hm ⟨hs, ht, hw0⟩
      simp only at hs ht hw0
      subst hs ht
      have hlen : (i * (w / 2) + j) * c + m < out0.length := by
        rw [hw0.1]; exact H.write_bound i j m hi hj hm
      refine ⟨_, halveComponent_ok datain out0 y c _ _ H.hbytes
        (H.read_bound i j m hi hj hm) hlen, rfl, rfl, ?_⟩
      simp only [boxAverage_eq]
      exact hw0.set i j m hj hm rfl hlen)
  obtain ⟨out1, s1, t1⟩ := st1
  simp only at hs ht hw1
  subst hs ht
  have hb := H.read_bound i j 0 hi hj (by have := H.hc; omega)
  have hcy : 2 * c ≤ w * c := Nat.mul_le_mul_right c H.hw
  have hy := H.hy
  have hr := reslice_ok datain.length (2 * (i * y) + 2 * (j * c) + c) (c : Int) c rfl
    (by omega)
  refine ⟨out1, ?_, ?_⟩
  · simp only [halvePixel, Int.toNat_ofNat, hf, hr, bind, Except.bind, pure, Except.pure]
    congr 2
    · congr 1; ring
    · congr 1; ring
  · have e : (i * (w / 2) + (j + 1)) * c = (i * (w / 2) + j) * c + c := by ring
    rw [e]; exact hw1

theorem halveRow_ok {c w h y : Nat} {datain dataout : List Nat}
    (H : HalveInput c w h y datain dataout) (i : Nat) (hi : i < h / 2) (out : List Nat)
    (hW : Written dataout out (boxAverage datain y c) (w / 2) c (i * (w / 2) * c)) :
    ∃ out1, halveRow (c : Int) ((w / 2 : Nat) : Int) datain 1 (y : Int) (c : Int)
        ((y : Int) - (w : Int) * (c : Int))
        { dataout := out, s := ((i * (w / 2) * c : Nat) : Int),
          t := ((2 * (i * y) : Nat) : Int) } =
        .ok { dataout := out1, s := (((i + 1) * (w / 2) * c : Nat) : Int),
              t := ((2 * ((i + 1) * y) : Nat) : Int) } ∧
      Written dataout out1 (boxAverage datain y c) (w / 2) c ((i + 1) * (w / 2) * c) := by
  obtain ⟨st1, hf, hs, ht, hw1⟩ := forN_inv
    (halvePixel (c : Int) datain 1 (y : Int) (c : Int)) (w / 2)
    (fun j st => st.s = (((i * (w / 2) + j) * c : Nat) : Int) ∧
      st.t = ((2 * (i * y) + 2 * (j * c) : Nat) : Int) ∧
      Written dataout st.dataout (boxAverage datain y c) (w / 2) c ((i * (w / 2) + j) * c))
    { dataout := out, s := ((i * (w / 2) * c : Nat) : Int),
      t := ((2 * (i * y) : Nat) : Int) }
    ⟨by simp, by simp, by simpa using hW⟩
    (by
      rintro j ⟨out0, s0, t0⟩ hj ⟨hs, ht, hw0⟩
      simp only at hs ht hw0
      subst hs ht
      obtain ⟨out1, hrun, hw1⟩ := halvePixel_ok H i j hi hj out0 hw0
      exact ⟨_, hrun, rfl, rfl, hw1⟩)
  obtain ⟨out1, s1, t1⟩ := st1
  simp only at hs ht hw1
  subst hs ht
  have h1 : (2 * i + 2) * y ≤ h * y := Nat.mul_le_mul_right y (by omega)
  have h3 : (2 * i + 2) * y = 2 * (i * y) + 2 * y := by ring
  have h4 : 2 * (w / 2 * c) = w * c := by
    have : 2 * (w / 2) = w := by have := H.hweven; omega
    rw [← Nat.mul_assoc, this]
  have hy := H.hy
  have hin := H.hin
  have hp := reslice_ok datain.length (2 * (i * y) + 2 * (w / 2 * c))
    ((y : Int) - (w : Int) * (c : Int)) (y - w * c)
    (by rw [Nat.cast_sub hy, Nat.cast_mul]) (by omega)
  have hq := reslice_ok datain.length (2 * (i * y) + 2 * (w / 2 * c) + (y - w * c))
    (y : Int) y rfl (by omega)
  refine ⟨out1, ?_, ?_⟩
  · simp only [halveRow, Int.toNat_ofNat, hf, hp, hq, bind, Except.bind, pure, Except.pure]
    congr 2
    · congr 1; ring
    · congr 1
      have : (i + 1) * y = i * y + y := by ring
      omega
  · have e : (i + 1) * (w / 2) * c = (i * (w / 2) + w / 2) * c := by ring
    rw [e]; exact hw1

theorem oneEighth_eq : oneEighth = 1 / 8 := by
  rw [oneEighth, Rat.mk'_eq_divInt, Rat.divInt_eq_div]
  norm_num

theorem triple_bind {α β : Type} {P : GLState → Prop} {m : GLM α}
    {R : α → GLState → Prop} {f : α → GLM β} {Q : β → GLState → Prop}
    (hm : GLM.Triple P m R) (hf : ∀ a, GLM.Triple (R a) (f a) Q) :
    GLM.Triple P (m >>= f) Q := by
  intro s hs b t h
  rw [GLM.run_bind] at h
  rcases hms : m s with ⟨r, s1⟩
  rw [hms] at h
  cases r with
  | error e => simp at h
  | ok a => exact hf a s1 (hm s hs a s1 hms) b t h

theorem triple_skip {α β : Type} {P : GLState → Prop} {m : GLM α}
    {f : α → GLM β} {Q : β → GLState → Prop}
    (hf : ∀ a, GLM.Triple (fun _ => True) (f a) Q) :
    GLM.Triple P (m >>= f) Q :=
  triple_bind (R := fun _ _ => True) (fun _ _ _ _ _ => trivial) hf

theorem triple_pure {α : Type} {P : GLState → Prop} {a : α} {Q : α → GLState → Prop}
    (h : ∀ s, P s → Q a s) : GLM.Triple P (Pure.pure a) Q := by
  intro s hs b t hb
  rw [GLM.run_pure] at hb
  cases hb
  exact h s hs

theorem triple_lift {α : Type} {P : GLState → Prop} {x : Except Err α}
    {Q : α → GLState → Prop} (h : ∀ a, x = .ok a → ∀ s, P s → Q a s) :
    GLM.Triple P (GLM.lift x) Q := by
  intro s hs b t hb
  rw [GLM.run_lift] at hb
  cases hb
  exact h b rfl s hs

theorem triple_ite {α : Type} {P : GLState → Prop} {c : Prop} [Decidable c]
    {m n : GLM α} {Q : α → GLState → Prop}
    (hm : c → GLM.Triple P m Q) (hn : ¬ c → GLM.Triple P n Q) :
    GLM.Triple P (if c then m else n) Q := by
  by_cases h : c
  · rw [if_pos h]; exact hm h
  · rw [if_neg h]; exact hn h

theorem retrieveStoreModes_run (s : GLState) :
    ∃ psm, retrieveStoreModes {} s = (.ok psm, s) ∧ psm.Holds (unpackState s) :=
  ⟨_, rfl, rfl⟩

theorem restoreStoreModes_run (psm : PixelStorageMode) (s : GLState) :
    ∃ t, restoreStoreModes psm s = (.ok (), t) ∧ psm.Holds (unpackState t) :=
  ⟨_, rfl, rfl⟩

theorem restoreStoreModes_triple (psm : PixelStorageMode) (P : GLState → Prop) :
    GLM.Triple P (restoreStoreModes psm) (fun _ t => psm.Holds (unpackState t)) := by
  intro s _ a t h
  obtain ⟨t1, h1, h2⟩ := restoreStoreModes_run psm s
  rw [h1] at h
  cases h
  exact h2

theorem glm_pure_bind {α β : Type} (a : α) (f : α → GLM β) :
    (Pure.pure a >>= f) = f a := rfl

theorem triple_post {α : Type} {P : GLState → Prop} {m : GLM α}
    {Q R : α → GLState → Prop} (h : GLM.Triple P m R) (hq : ∀ a t, R a t → Q a t) :
    GLM.Triple P m Q :=
  fun s hs a t ht => hq a t (h s hs a t ht)

theorem triple_of_fact {α : Type} {φ : Prop} {m : GLM α} {Q : α → GLState → Prop}
    (h : φ → GLM.Triple (fun _ => True) m Q) : GLM.Triple (fun _ => φ) m Q :=
  fun s hs a t ht => h hs s trivial a t ht

theorem restoreStoreModes_pure_triple (psm : PixelStorageMode) (P : GLState → Prop) :
    GLM.Triple P (restoreStoreModes psm >>= fun _ => Pure.pure ())
      (fun _ t => psm.Holds (unpackState t)) :=
  triple_bind (restoreStoreModes_triple psm P) (fun _ => triple_pure fun _ h => h)

theorem core_triple (scaleInternalUbyte : ScaleKernel)
    (target internalFormat width height widthPowerOf2 heightPowerOf2 format typ
      userLevel baseLevel maxLevel : Int) (data : List Nat) (s : GLState) :
    GLM.Triple (fun t => t = s)
      (gluBuild2DMipmapLevelsCore scaleInternalUbyte target internalFormat width height
        widthPowerOf2 heightPowerOf2 format typ userLevel baseLevel maxLevel data)
      (fun _ t => unpackState t = unpackState s) := by
  unfold gluBuild2DMipmapLevelsCore
  refine triple_bind (R := fun _ t => t = s) (triple_lift fun _ _ _ h => h) fun _ => ?_
  refine triple_bind (R := fun _ t => t = s) (triple_lift fun _ _ _ h => h) fun _ => ?_
  refine triple_bind (R := fun _ t => t = s) (triple_lift fun _ _ _ h => h) fun _ => ?_
  refine triple_bind (R := fun _ t => t = s) (triple_lift fun _ _ _ h => h) fun _ => ?_
  refine triple_bind (R := fun _ t => t = s) (triple_lift fun _ _ _ h => h) fun _ => ?_
  refine triple_bind (R := fun psm _ => psm.Holds (unpackState s)) ?_ fun psm => ?_
  · intro t ht a t1 h
    subst ht
    obtain ⟨psm, h1, h2⟩ := retrieveStoreModes_run t
    rw [h1] at h
    cases h
    exact h2
  refine triple_of_fact fun hpsm => ?_
  refine triple_post (R := fun _ t => psm.Holds (unpackState t)) ?_
    (fun _ t h => Eq.trans (Eq.symm h) hpsm)
  dsimp only
  simp only [glm_pure_bind]
  repeat' first
    | with_reducible exact restoreStoreModes_triple psm _
    | with_reducible exact restoreStoreModes_pure_triple psm _
    | with_reducible refine triple_ite (fun _ => ?_) (fun _ => ?_)
    | with_reducible refine triple_skip fun _ => ?_

theorem sameSink_refl (s : GLState) : SameSink s s := ⟨rfl, rfl⟩

theorem sameSink_trans {s t u : GLState} (h1 : SameSink s t) (h2 : SameSink t u) :
    SameSink s u :=
  ⟨h2.1.trans h1.1, h2.2.trans h1.2⟩

theorem keeps_pure {α : Type} (a : α) : GLM.Keeps (Pure.pure a : GLM α) :=
  fun s => sameSink_refl s

theorem keeps_lift {α : Type} (x : Except Err α) : GLM.Keeps (GLM.lift x) :=
  fun s => sameSink_refl s

theorem keeps_get : GLM.Keeps GLM.get := fun s => sameSink_refl s

theorem keeps_bind {α β : Type} {m : GLM α} {f : α → GLM β}
    (hm : GLM.Keeps m) (hf : ∀ a, GLM.Keeps (f a)) : GLM.Keeps (m >>= f) := by
  intro s
  have h1 := hm s
  rw [GLM.run_bind]
  rcases hms : m s with ⟨r, s1⟩
  rw [hms] at h1
  cases r with
  | error e => exact h1
  | ok a => exact sameSink_trans h1 (hf a s1)

theorem keeps_ite {α : Type} {c : Prop} [Decidable c] {m n : GLM α}
    (hm : GLM.Keeps m) (hn : GLM.Keeps n) : GLM.Keeps (if c then m else n) := by
  by_cases h : c
  · rw [if_pos h]; exact hm
  · rw [if_neg h]; exact hn

theorem texImage_proxy_keeps (target level internalFormat width : Int) (height : Option Int)
    (format typ : Int) (pixels : Option (List Nat)) (h : isProxyTarget target = true) :
    GLM.Keeps (texImage target level internalFormat width height format typ pixels) := by
  intro s
  simp only [texImage, GLM.run_modify, h, if_true, afterProbe]
  refine ⟨rfl, ?_⟩
  simp [uploads, List.filter_append, texImageRecord, h]

theorem GetTexLevelParameteriv_keeps : GLM.Keeps GetTexLevelParameteriv :=
  keeps_bind keeps_get fun _ => keeps_pure _

theorem GetIntegerv_keeps (pname : Int) : GLM.Keeps (GetIntegerv pname) :=
  keeps_bind keeps_get fun _ => keeps_pure _

theorem closestFitNoProxyTexture_keeps (width height : Int) :
    GLM.Keeps (closestFitNoProxyTexture width height) := by
  unfold closestFitNoProxyTexture
  repeat' first
    | with_reducible exact keeps_pure _
    | with_reducible exact keeps_lift _
    | with_reducible exact GetIntegerv_keeps _
    | with_reducible refine keeps_bind ?_ fun _ => ?_

theorem closestFitLoop_keeps (target height internalFormat format typ : Int) (fuel : Nat) :
    ∀ W H, GLM.Keeps (closestFitLoop target height internalFormat format typ fuel W H) := by
  induction fuel with
  | zero => intro W H; exact keeps_lift _
  | succ n ih =>
    intro W H
    rw [closestFitLoop]
    dsimp only
    repeat' first
      | with_reducible exact ih _ _
      | with_reducible exact keeps_pure _
      | with_reducible exact keeps_lift _
      | with_reducible exact GetTexLevelParameteriv_keeps
      | with_reducible exact closestFitNoProxyTexture_keeps _ _
      | exact texImage_proxy_keeps _ _ _ _ _ _ _ _ rfl
      | with_reducible refine keeps_ite ?_ ?_
      | with_reducible refine keeps_bind ?_ fun _ => ?_

theorem closestFit_keeps (target width height internalFormat format typ : Int) :
    GLM.Keeps (closestFit target width height internalFormat format typ) := by
  unfold closestFit
  repeat' first
    | with_reducible exact closestFitLoop_keeps _ _ _ _ _ _ _ _
    | with_reducible exact keeps_pure _
    | with_reducible exact keeps_lift _
    | with_reducible exact keeps_get
    | with_reducible exact closestFitNoProxyTexture_keeps _ _
    | with_reducible refine keeps_ite ?_ ?_
    | with_reducible refine keeps_bind ?_ fun _ => ?_

theorem core_bitmap (scaleInternalUbyte : ScaleKernel)
    (target internalFormat width height widthPowerOf2 heightPowerOf2 format
      userLevel baseLevel maxLevel : Int) (data : List Nat) (s : GLState) :
    ∃ e, gluBuild2DMipmapLevelsCore scaleInternalUbyte target internalFormat width height
      widthPowerOf2 heightPowerOf2 format gl.BITMAP userLevel baseLevel maxLevel data s =
        (.error e, s) := by
  unfold gluBuild2DMipmapLevelsCore
  simp only [GLM.run_bind, GLM.run_lift]
  rcases h1 : assert (checkMipmapArgs internalFormat format gl.BITMAP == .ok ()) with e | u
  · exact ⟨e, rfl⟩
  rcases h2 : assert (decide (width ≥ 1) && decide (height ≥ 1)) with e | u
  · exact ⟨e, rfl⟩
  exact ⟨.assertFailed, rfl⟩

theorem gluBuild2DMipmaps_frame_aux (scaleInternalUbyte : ScaleKernel)
    (target internalFormat width height format typ : Int) (data : List Nat) (s : GLState)
    (h : checkMipmapArgs internalFormat format typ ≠ .ok () ∨ width < 1 ∨ height < 1 ∨
      typ = gl.BITMAP) :
    (∃ e, (gluBuild2DMipmaps scaleInternalUbyte target internalFormat width height format typ
        data s).1 = .error e) ∧
      SameSink s (gluBuild2DMipmaps scaleInternalUbyte target internalFormat width height
        format typ data s).2 := by
  unfold gluBuild2DMipmaps
  rcases hc : checkMipmapArgs internalFormat format typ with e | u
  · exact ⟨⟨e, rfl⟩, sameSink_refl s⟩
  by_cases hwh : width < 1 ∨ height < 1
  · simp only [GLM.run_bind, GLM.run_pure, if_pos hwh, GLM.run_lift]
    exact ⟨⟨_, rfl⟩, sameSink_refl s⟩
  have ht : typ = gl.BITMAP := by
    rcases h with h | h | h | h
    · exact absurd hc h
    · exact absurd (Or.inl h) hwh
    · exact absurd (Or.inr h) hwh
    · exact h
  subst ht
  simp only [GLM.run_bind, GLM.run_pure, if_neg hwh, GLM.run_lift]
  have hk := closestFit_keeps target width height internalFormat format gl.BITMAP s
  rcases hf : closestFit target width height internalFormat format gl.BITMAP s with ⟨r, s1⟩
  rw [hf] at hk
  rcases r with e | ⟨W, H⟩
  · exact ⟨⟨e, rfl⟩, hk⟩
  dsimp only
  rcases hW : intLog2 W with e | lw
  · exact ⟨⟨e, rfl⟩, hk⟩
  dsimp only
  rcases hH : intLog2 H with e | lh
  · exact ⟨⟨e, rfl⟩, hk⟩
  obtain ⟨e, he⟩ := core_bitmap scaleInternalUbyte target internalFormat width height W H
    format 0 0 (if lh > lw then lh else lw) data s1
  dsimp only
  rw [he]
  exact ⟨⟨e, rfl⟩, hk⟩

theorem log2Floor_eq_log (fuel : Nat) : ∀ n, n ≤ fuel → log2Floor fuel n = Nat.log 2 n := by
  induction fuel with
  | zero =>
    intro n hn
    have : n = 0 := by omega
    subst this
    simp [log2Floor]
  | succ f ih =>
    intro n hn
    rw [log2Floor]
    by_cases h : n < 2
    · rw [if_pos h, Nat.log_of_lt h]
    · rw [if_neg h, Nat.log_of_one_lt_of_le (by decide) (by omega), ih (n / 2) (by omega)]

theorem intLog2_eq {v a : Int} (h : intLog2 v = .ok a) : a = (Nat.log 2 v.toNat : Int) := by
  unfold intLog2 at h
  split at h
  · cases h
  · cases h
    rw [log2Floor_eq_log _ _ (le_refl _)]

theorem levels_eq_fitDepth {W H lw lh : Int} (hW : intLog2 W = .ok lw)
    (hH : intLog2 H = .ok lh) : (if lh > lw then lh else lw) = (fitDepth W H : Int) := by
  rw [intLog2_eq hW, intLog2_eq hH, fitDepth]
  split_ifs with h
  · rw [max_eq_right (by omega)]
  · rw [max_eq_left (by omega)]

theorem triple_bind_lift {α β : Type} {P : GLState → Prop} {x : Except Err α}
    {f : α → GLM β} {Q : β → GLState → Prop}
    (h : ∀ a, x = .ok a → GLM.Triple (fun _ => True) (f a) Q) :
    GLM.Triple P (GLM.lift x >>= f) Q :=
  triple_bind (R := fun a _ => x = .ok a) (triple_lift fun _ h _ _ => h)
    fun a => triple_of_fact (h a)

theorem triple_assert_false {β : Type} {P : GLState → Prop}
    {f : Unit → GLM β} {Q : β → GLState → Prop} :
    GLM.Triple P (GLM.lift (assert false) >>= f) Q := by
  intro s _ b t h
  simp [GLM.run_bind, GLM.run_lift, assert] at h

theorem triple_absurd {α : Type} {P : GLState → Prop} {m : GLM α}
    {Q : α → GLState → Prop} (h : False) : GLM.Triple P m Q := h.elim

theorem core_unsupported (scaleInternalUbyte : ScaleKernel)
    (target internalFormat width height widthPowerOf2 heightPowerOf2 format typ
      userLevel baseLevel maxLevel : Int) (data : List Nat)
    (htyp : typ ≠ gl.UNSIGNED_BYTE)
    (hmulti : ¬ (width = widthPowerOf2 ∧ height = heightPowerOf2 ∧
      (fitDepth widthPowerOf2 heightPowerOf2 : Int) + userLevel = 0)) :
    GLM.Triple (fun _ => True)
      (gluBuild2DMipmapLevelsCore scaleInternalUbyte target internalFormat width height
        widthPowerOf2 heightPowerOf2 format typ userLevel baseLevel maxLevel data)
      (fun _ _ => False) := by
  unfold gluBuild2DMipmapLevelsCore
  iterate 3 with_reducible refine triple_skip fun _ => ?_
  with_reducible refine triple_bind_lift fun lw hlw => ?_
  with_reducible refine triple_bind_lift fun lh hlh => ?_
  have hlev := levels_eq_fitDepth hlw hlh
  dsimp only
  simp only [glm_pure_bind]
  rw [hlev]
  repeat' first
    | with_reducible exact triple_assert_false
    | exact triple_absurd (htyp ‹typ = gl.UNSIGNED_BYTE›)
    | exact triple_absurd (hmulti ⟨(‹width = widthPowerOf2 ∧ height = heightPowerOf2›).1,
        (‹width = widthPowerOf2 ∧ height = heightPowerOf2›).2, ‹_›⟩)
    | with_reducible refine triple_ite (fun _ => ?_) (fun _ => ?_)
    | with_reducible refine triple_skip fun _ => ?_

theorem isNearestPow2_unique {p q v : Int} (hp : IsNearestPow2 p v) (hq : IsNearestPow2 q v) :
    q = p := by
  obtain ⟨⟨a, ha⟩, hp1, hp2⟩ := hp
  obtain ⟨⟨b, hb⟩, hq1, hq2⟩ := hq
  have h1 : (2 : Int) ^ a < 2 ^ (b + 1) := by
    rw [pow_succ, ← ha, ← hb]; omega
  have h2 : (2 : Int) ^ b < 2 ^ (a + 1) := by
    rw [pow_succ, ← ha, ← hb]; omega
  have h3 : a < b + 1 := (pow_lt_pow_iff_right₀ (by norm_num : (1 : Int) < 2)).1 h1
  have h4 : b < a + 1 := (pow_lt_pow_iff_right₀ (by norm_num : (1 : Int) < 2)).1 h2
  have h5 : a = b := by omega
  rw [ha, hb, h5]

theorem copyRow_ok (dst src : List Nat) (d n s : Nat) (hd : d + n ≤ dst.length)
    (hs : s + n ≤ src.length) :
    ∃ img, copyRow dst (d : Int) (n : Int) src (s : Int) = .ok img ∧
      img.length = dst.length ∧
      (∀ i, i < d → img[i]? = dst[i]?) ∧
      (∀ b, b < n → img[d + b]? = src[s + b]?) := by
  have hc : 0 ≤ (n : Int) ∧ (d : Int) + (n : Int) ≤ (dst.length : Int) := by omega
  have hmin : min n (src.length - s) = n := by omega
  refine ⟨_, by rw [copyRow, if_pos hc], ?_, ?_, ?_⟩
  · simp only [Int.toNat_ofNat, hmin, List.length_append, List.length_take, List.length_drop]
    omega
  · intro i hi
    simp only [Int.toNat_ofNat, hmin]
    rw [List.append_assoc, List.getElem?_append_left (by simp; omega),
      List.getElem?_take_of_lt hi]
  · intro b hb
    simp only [Int.toNat_ofNat, hmin]
    rw [List.getElem?_append_left (by simp; omega),
      List.getElem?_append_right (by simp)]
    simp only [List.length_take]
    rw [min_eq_left (by omega), Nat.add_sub_cancel_left, List.getElem?_take_of_lt hb,
      List.getElem?_drop]

theorem goMod_cast (a b : Nat) (hb : 0 < b) :
    goMod (a : Int) (b : Int) = .ok ((a % b : Nat) : Int) := by
  have h : (b : Int) ≠ 0 := by omega
  rw [goMod, if_neg h, Int.tmod_eq_emod (by omega) (by omega)]
  rfl

theorem make_cast (n : Nat) : make (n : Int) = .ok (List.replicate n 0) := by
  have h : ¬ ((n : Int) < 0) := by omega
  rw [make, if_neg h, Int.toNat_ofNat]

theorem repack_loop (out : List Nat) (rowsize L newheight : Nat) (hL : rowsize ≤ L)
    (hlen : rowsize * newheight ≤ out.length) :
    ∃ rp : RepackState,
      forN newheight (fun (rp : RepackState) => do
        let img ← copyRow rp.newMipmapImage rp.dstTrav (rowsize : Int) out rp.srcTrav
        let dstTrav ← reslice img.length rp.dstTrav (L : Int)
        let srcTrav ← reslice out.length rp.srcTrav (rowsize : Int)
        pure { newMipmapImage := img, dstTrav := dstTrav, srcTrav := srcTrav })
        { newMipmapImage := List.replicate (L * newheight) 0, dstTrav := 0, srcTrav := 0 } =
          .ok rp ∧
      rp.newMipmapImage.length = L * newheight ∧
      ∀ r b, r < newheight → b < rowsize →
        rp.newMipmapImage[r * L + b]? = out[r * rowsize + b]? := by
  obtain ⟨rp, hrun, -, -, hlen1, hcopy⟩ := forN_inv
    (fun (rp : RepackState) => do
        let img ← copyRow rp.newMipmapImage rp.dstTrav (rowsize : Int) out rp.srcTrav
        let dstTrav ← reslice img.length rp.dstTrav (L : Int)
        let srcTrav ← reslice out.length rp.srcTrav (rowsize : Int)
        pure { newMipmapImage := img, dstTrav := dstTrav, srcTrav := srcTrav })
    newheight
    (fun m rp => rp.dstTrav = ((m * L : Nat) : Int) ∧ rp.srcTrav = ((m * rowsize : Nat) : Int) ∧
      rp.newMipmapImage.length = L * newheight ∧
      ∀ r b, r < m → b < rowsize → rp.newMipmapImage[r * L + b]? = out[r * rowsize + b]?)
    { newMipmapImage := List.replicate (L * newheight) 0, dstTrav := 0, srcTrav := 0 }
    ⟨by simp, by simp, by simp, fun _ _ h => by omega⟩
    (by
      rintro m ⟨img0, d0, s0⟩ hm ⟨hd, hs, hl, hc⟩
      simp only at hd hs hl hc
      subst hd hs
      have e1 : (m + 1) * L = m * L + L := by ring
      have e2 : (m + 1) * rowsize = m * rowsize + rowsize := by ring
      have h1 : (m + 1) * L ≤ L * newheight := by
        rw [Nat.mul_comm L]; exact Nat.mul_le_mul_right L hm
      have h2 : (m + 1) * rowsize ≤ out.length :=
        le_trans (by rw [Nat.mul_comm rowsize]; exact Nat.mul_le_mul_right rowsize hm) hlen
      have h3 : m * L + rowsize ≤ img0.length := by
        rw [hl]; omega
      have h4 : m * rowsize + rowsize ≤ out.length := by
        omega
      obtain ⟨img, hcopy, hlen2, hbefore, hnew⟩ := copyRow_ok img0 out (m * L) rowsize
        (m * rowsize) h3 h4
      have h5 := reslice_ok img.length (m * L) (L : Int) L rfl
        (by rw [hlen2, hl]; omega)
      have h6 := reslice_ok out.length (m * rowsize) (rowsize : Int) rowsize rfl h4
      refine ⟨{ newMipmapImage := img, dstTrav := ((m * L + L : Nat) : Int),
                srcTrav := ((m * rowsize + rowsize : Nat) : Int) }, ?_, ?_, ?_, ?_, ?_⟩
      · simp only [hcopy, h5, h6, bind, Except.bind, pure, Except.pure]
      · simp only [e1]
      · simp only [e2]
      · simp only [hlen2, hl]
      · intro r b hr hb
        simp only
        by_cases hrm : r < m
        · rw [hbefore (r * L + b) ?_, hc r b hrm hb]
          have h7 : (r + 1) * L ≤ m * L := Nat.mul_le_mul_right L hrm
          have e3 : (r + 1) * L = r * L + L := by ring
          omega
        · have : r = m := by omega
          subst this
          exact hnew b hb)
  exact ⟨rp, hrun, hlen1, hcopy⟩

theorem roundUp_least (A rowsize : Nat) (hA : 0 < A) (hpad : rowsize % A ≠ 0) :
    A ∣ rowsize + A - rowsize % A ∧ rowsize ≤ rowsize + A - rowsize % A ∧
      ∀ m, A ∣ m → rowsize ≤ m → rowsize + A - rowsize % A ≤ m := by
  have hlt : rowsize % A < A := Nat.mod_lt _ hA
  have hdm := Nat.div_add_mod rowsize A
  have e : rowsize + A - rowsize % A = A * (rowsize / A + 1) := by
    rw [Nat.mul_add, Nat.mul_one]; omega
  refine ⟨?_, by omega, ?_⟩
  · rw [e]; exact Dvd.intro _ rfl
  · rintro m ⟨k, rfl⟩ hm
    rw [e]
    apply Nat.mul_le_mul_left
    by_contra hk
    have hk1 : k ≤ rowsize / A := by omega
    have := Nat.mul_le_mul_left A hk1
    omega

theorem levelBody_repack_aux (target internalFormat format baseLevel maxLevel cmpts : Int)
    (elementSize : ℚ) (groupSize : Int) (psm : PixelStorageMode) (st : LevelState)
    (s : GLState) (A rowsize newwidth newheight : Nat) (out : List Nat)
    (hhalve : halveImageUbyte cmpts st.newwidth st.newheight st.srcImage st.dstImage
      (truncInt elementSize) st.rowsize groupSize = .ok out)
    (hnw : (if st.newwidth > 1 then st.newwidth.tdiv 2 else st.newwidth) = (newwidth : Int))
    (hrs : (if st.newwidth > 1 then st.rowsize.tdiv 2 else st.rowsize) = (rowsize : Int))
    (hnh : (if st.newheight > 1 then st.newheight.tdiv 2 else st.newheight) = (newheight : Int))
    (hA : psm.UnpackAlignment = (A : Int)) (hApos : 0 < A) (hpad : rowsize % A ≠ 0)
    (hh : 1 ≤ newheight) (hlen : rowsize * newheight ≤ out.length)
    (hlevel : baseLevel ≤ st.level ∧ st.level ≤ maxLevel) :
    ∃ img : List Nat,
      img.length = (rowsize + A - rowsize % A) * newheight ∧
      (∀ r b, r < newheight → b < rowsize →
        img[r * (rowsize + A - rowsize % A) + b]? = out[r * rowsize + b]?) ∧
      levelBody target internalFormat format gl.UNSIGNED_BYTE baseLevel maxLevel cmpts
          elementSize groupSize psm st s =
        (.ok { level := st.level, newwidth := newwidth, newheight := newheight,
               rowsize := rowsize, srcImage := out, dstImage := st.srcImage },
          (TexImage2D target st.level internalFormat newwidth newheight format
            gl.UNSIGNED_BYTE (some img) s).2) := by
  have hlt : rowsize % A < A := Nat.mod_lt _ hApos
  have hle : rowsize ≤ rowsize + A - rowsize % A := by omega
  obtain ⟨rp, hrun, hlen1, hcopy⟩ := repack_loop out rowsize (rowsize + A - rowsize % A)
    newheight hle hlen
  have hL : (rowsize : Int) + (A : Int) - ((rowsize % A : Nat) : Int) =
      ((rowsize + A - rowsize % A : Nat) : Int) := by omega
  have hpad1 : ¬ (((rowsize % A : Nat) : Int) = 0) := by omega
  have hpos : 0 < rp.newMipmapImage.length := by
    rw [hlen1]; exact Nat.mul_pos (by omega) (by omega)
  have hptr : pointerTo rp.newMipmapImage = .ok (some rp.newMipmapImage) := by
    have h0 : (0 : Int) ≤ 0 ∧ (0 : Int) + 0 < (rp.newMipmapImage.length : Int) := by omega
    simp only [pointerTo, addrOf, if_pos h0, bind, Except.bind, pure, Except.pure]
  refine ⟨rp.newMipmapImage, hlen1, hcopy, ?_⟩
  have hpair : (if st.newwidth > 1 then (st.newwidth.tdiv 2, st.rowsize.tdiv 2)
      else (st.newwidth, st.rowsize)) = ((newwidth : Int), (rowsize : Int)) := by
    split_ifs at hnw hrs ⊢ <;> rw [hnw, hrs]
  unfold levelBody
  simp only [if_true, GLM.run_bind, GLM.run_lift, hhalve, hpair, hnh, hA, goMod_cast _ _ hApos,
    if_neg hpad1, hL, ← Nat.cast_mul, make_cast, Int.toNat_ofNat, hrun, if_pos hlevel, hptr,
    GLM.run_pure]
  rfl

theorem grows_pure {α : Type} (a : α) : GLM.Grows (Pure.pure a : GLM α) :=
  fun s => ⟨[], by simp⟩

theorem grows_lift {α : Type} (x : Except Err α) : GLM.Grows (GLM.lift x) :=
  fun s => ⟨[], by simp⟩

theorem grows_bind {α β : Type} {m : GLM α} {f : α → GLM β}
    (hm : GLM.Grows m) (hf : ∀ a, GLM.Grows (f a)) : GLM.Grows (m >>= f) := by
  intro s
  obtain ⟨l1, h1⟩ := hm s
  rw [GLM.run_bind]
  rcases hms : m s with ⟨r, s1⟩
  rw [hms] at h1
  cases r with
  | error e => exact ⟨l1, h1⟩
  | ok a =>
    obtain ⟨l2, h2⟩ := hf a s1
    exact ⟨l1 ++ l2, by rw [h2, h1, List.append_assoc]⟩

theorem grows_ite {α : Type} {c : Prop} [Decidable c] {m n : GLM α}
    (hm : GLM.Grows m) (hn : GLM.Grows n) : GLM.Grows (if c then m else n) := by
  by_cases h : c
  · rw [if_pos h]; exact hm
  · rw [if_neg h]; exact hn

theorem grows_PixelStorei (pname param : Int) : GLM.Grows (PixelStorei pname param) := by
  intro s
  refine ⟨[], ?_⟩
  simp only [PixelStorei, GLM.run_modify, List.append_nil]
  split_ifs <;> rfl

theorem grows_TexImage2D (target level internalFormat width height format typ : Int)
    (pixels : Option (List Nat)) :
    GLM.Grows (TexImage2D target level internalFormat width height format typ pixels) := by
  intro s
  simp only [TexImage2D, texImage, GLM.run_modify]
  split_ifs
  · exact ⟨_, rfl⟩
  · exact ⟨_, rfl⟩

theorem grows_restoreStoreModes (psm : PixelStorageMode) :
    GLM.Grows (restoreStoreModes psm) := by
  unfold restoreStoreModes
  repeat' first
    | with_reducible exact grows_PixelStorei _ _
    | with_reducible refine grows_bind ?_ fun _ => ?_

theorem grows_levelBody (target internalFormat format typ baseLevel maxLevel cmpts : Int)
    (elementSize : ℚ) (groupSize : Int) (psm : PixelStorageMode) (st : LevelState) :
    GLM.Grows (levelBody target internalFormat format typ baseLevel maxLevel cmpts elementSize
      groupSize psm st) := by
  unfold levelBody
  dsimp only
  simp only [glm_pure_bind]
  repeat' first
    | with_reducible exact grows_pure _
    | with_reducible exact grows_lift _
    | with_reducible exact grows_TexImage2D _ _ _ _ _ _ _ _
    | with_reducible refine grows_ite ?_ ?_
    | with_reducible refine grows_bind ?_ fun _ => ?_

theorem grows_levelLoop (target internalFormat format typ baseLevel maxLevel cmpts : Int)
    (elementSize : ℚ) (groupSize : Int) (psm : PixelStorageMode) (n : Nat) :
    ∀ st, GLM.Grows (levelLoop target internalFormat format typ baseLevel maxLevel cmpts
      elementSize groupSize psm n st) := by
  induction n with
  | zero => intro st; exact grows_pure st
  | succ n ih =>
    intro st
    rw [levelLoop]
    exact grows_bind (grows_levelBody _ _ _ _ _ _ _ _ _ _ _) fun _ => ih _

theorem truncMul_one (n : Int) : truncMul (bytesPerElement gl.UNSIGNED_BYTE) n = n := by
  have h : bytesPerElement gl.UNSIGNED_BYTE = 1 := by decide!
  rw [h]
  simp [truncMul]

theorem truncInt_one : truncInt (bytesPerElement gl.UNSIGNED_BYTE) = 1 := by
  have h : bytesPerElement gl.UNSIGNED_BYTE = 1 := by decide!
  rw [h]
  simp [truncInt]

theorem intLog2_ok (v : Int) (hv : 1 ≤ v) : intLog2 v = .ok (Nat.log 2 v.toNat : Int) := by
  have h : ¬ v ≤ 0 := by omega
  rw [intLog2, if_neg h, log2Floor_eq_log _ _ (le_refl _)]

theorem imageSize_ubyte (width height format : Int) (hw : 1 ≤ width) (hh : 1 ≤ height) :
    imageSize width height format gl.UNSIGNED_BYTE =
      .ok (width * height * elementsPerGroup format gl.UNSIGNED_BYTE) := by
  have h1 : decide (width > 0) = true := by simp; omega
  have h2 : decide (height > 0) = true := by simp; omega
  have h3 : ¬ (gl.UNSIGNED_BYTE = gl.BITMAP) := by decide
  simp only [imageSize, assert, h1, h2, if_true, if_neg h3, truncMul_one, bind, Except.bind,
    pure, Except.pure]

theorem retrieveStoreModes_snapshot (s : GLState) :
    retrieveStoreModes {} s = (.ok (snapshot s), s) := rfl

theorem roundUp_eq (n A : Nat) (hA : 0 < A) :
    (if n % A ≠ 0 then n + (A - n % A) else n) = (n + A - 1) / A * A := by
  have hlt : n % A < A := Nat.mod_lt _ hA
  have hdm := Nat.div_add_mod n A
  split_ifs with h
  · have e : (n + A - 1) / A = n / A + 1 := by
      apply Nat.div_eq_of_lt_le
      · rw [Nat.add_mul, Nat.one_mul, Nat.mul_comm]; omega
      · rw [Nat.add_mul, Nat.add_mul, Nat.one_mul, Nat.mul_comm]; omega
    rw [e, Nat.add_mul, Nat.one_mul, Nat.mul_comm]; omega
  · have h0 : n % A = 0 := by omega
    have e : (n + A - 1) / A = n / A := by
      apply Nat.div_eq_of_lt_le
      · rw [Nat.mul_comm]; omega
      · rw [Nat.add_mul, Nat.one_mul, Nat.mul_comm]; omega
    rw [e, Nat.mul_comm]; omega

theorem PixelStorei_run (pname param : Int) (s : GLState) :
    PixelStorei pname param s = (.ok (), storei pname param s) := rfl

theorem storei_calls (pname param : Int) (s : GLState) :
    (storei pname param s).calls = s.calls := by
  simp only [storei, PixelStorei, GLM.run_modify]
  split_ifs <;> rfl

theorem TexImage2D_run (target level internalFormat width height format typ : Int)
    (pixels : Option (List Nat)) (s : GLState) :
    TexImage2D target level internalFormat width height format typ pixels s =
      (.ok (), texUpload s
        (texImageRecord s target level internalFormat width (some height) format typ pixels)) :=
  rfl

theorem texUpload_calls (s : GLState) (c : TexImage) :
    (texUpload s c).calls = s.calls ++ [c] := by
  simp only [texUpload]
  split_ifs <;> rfl

theorem half_clamp (n : Nat) :
    (if (n : Int).tdiv 2 < 1 then 1 else (n : Int).tdiv 2) = ((max 1 (n / 2) : Nat) : Int) := by
  rw [tdiv_two_cast]
  split_ifs with h
  · rw [max_eq_left (by omega)]; rfl
  · rw [max_eq_right (by omega)]

theorem groupsPerLine_cast (rowLength width : Nat) :
    (if (rowLength : Int) > 0 then (rowLength : Int) else (width : Int)) =
      ((if rowLength > 0 then rowLength else width : Nat) : Int) := by
  split_ifs with h1 h2 h2
  · rfl
  · omega
  · omega
  · rfl

theorem rowsize_cast (n A : Nat) (hA : 0 < A) :
    (if ((n % A : Nat) : Int) ≠ 0 then (n : Int) + ((A : Int) - ((n % A : Nat) : Int))
      else (n : Int)) = (((n + A - 1) / A * A : Nat) : Int) := by
  rw [← roundUp_eq n A hA]
  have hlt : n % A < A := Nat.mod_lt _ hA
  split_ifs with h1 h2 h2
  · omega
  · omega
  · omega
  · rfl

theorem exists_call_of_grows {α β : Type} {m : GLM α} {f : α → GLM β}
    (hm : GLM.Grows m) (hf : ∀ a, GLM.Grows (f a)) {s : GLState} {φ : TexImage → Prop}
    (h : ∃ c ∈ s.calls, φ c) :
    ∃ r ∈ (match m s with
      | (.ok a, s1) => f a s1
      | (.error e, s1) => (.error e, s1)).2.calls, φ r := by
  obtain ⟨c, hc, hφ⟩ := h
  obtain ⟨l, hl⟩ := grows_bind hm hf s
  rw [GLM.run_bind] at hl
  rw [hl]
  exact ⟨c, List.mem_append_left _ hc, hφ⟩

theorem exists_call_texUpload (s : GLState) (c : TexImage) {φ : TexImage → Prop} (h : φ c) :
    ∃ r ∈ (texUpload s c).calls, φ r := by
  rw [texUpload_calls]
  exact ⟨c, List.mem_append_right _ (List.mem_singleton.2 rfl), h⟩

theorem core_halve_source (scaleInternalUbyte : ScaleKernel)
    (target internalFormat format userLevel baseLevel maxLevel : Int)
    (width height A rowLength skipRows skipPixels c : Nat) (data out : List Nat) (s : GLState)
    (hargs : checkMipmapArgs internalFormat format gl.UNSIGNED_BYTE = .ok ())
    (hc : elementsPerGroup format gl.UNSIGNED_BYTE = (c : Int))
    (hw : 1 ≤ width) (hh : 1 ≤ height)
    (hA : s.unpackAlignment = (A : Int)) (hApos : 0 < A)
    (hRL : s.unpackRowLength = (rowLength : Int))
    (hSR : s.unpackSkipRows = (skipRows : Int))
    (hSP : s.unpackSkipPixels = (skipPixels : Int))
    (hoff : sourceOffset skipRows skipPixels (sourceRowsize rowLength width c A) c < data.length)
    (hlevels : (fitDepth (width : Int) (height : Int) : Int) + userLevel ≠ 0)
    (hhalve : halveImageUbyte (c : Int) (width : Int) (height : Int)
      (data.drop (sourceOffset skipRows skipPixels (sourceRowsize rowLength width c A) c))
      (List.replicate (max 1 (width / 2) * max 1 (height / 2) * c) 0) 1
      (sourceRowsize rowLength width c A : Nat) (c : Int) = .ok out)
    (hout : out ≠ [])
    (hlev : baseLevel ≤ userLevel + 1 ∧ userLevel + 1 ≤ maxLevel) :
    ∃ r ∈ (gluBuild2DMipmapLevelsCore scaleInternalUbyte target internalFormat width height
        width height format gl.UNSIGNED_BYTE userLevel baseLevel maxLevel data s).2.calls,
      r.level = userLevel + 1 ∧ r.pixels = some out := by
  have h1 : (decide ((width : Int) ≥ 1) && decide ((height : Int) ≥ 1)) = true := by
    simp; omega
  have h2 : (gl.UNSIGNED_BYTE != gl.BITMAP) = true := by decide
  have hlw := intLog2_ok (width : Int) (by omega)
  have hlh := intLog2_ok (height : Int) (by omega)
  have hlev0 := levels_eq_fitDepth hlw hlh
  have hroff : reslice data.length 0
      (((skipRows * sourceRowsize rowLength width c A + skipPixels * c : Nat)) : Int) =
      .ok ((sourceOffset skipRows skipPixels (sourceRowsize rowLength width c A) c : Nat) : Int) := by
    have := reslice_ok data.length 0 _ (skipRows * sourceRowsize rowLength width c A +
      skipPixels * c) rfl (by rw [sourceOffset] at hoff; omega)
    simpa [sourceOffset] using this
  have hptr0 : pointerTo (List.drop
      (sourceOffset skipRows skipPixels (sourceRowsize rowLength width c A) c) data) =
      .ok (some (List.drop
        (sourceOffset skipRows skipPixels (sourceRowsize rowLength width c A) c) data)) := by
    have h0 : (0 : Int) ≤ 0 ∧ (0 : Int) + 0 < ((List.drop
      (sourceOffset skipRows skipPixels (sourceRowsize rowLength width c A) c) data).length : Int) := by
      rw [List.length_drop]; omega
    simp only [pointerTo, addrOf, if_pos h0, bind, Except.bind, pure, Except.pure]
  have hptr1 : pointerTo out = .ok (some out) := by
    have hpos : 0 < out.length := List.length_pos.2 hout
    have h0 : (0 : Int) ≤ 0 ∧ (0 : Int) + 0 < (out.length : Int) := by omega
    simp only [pointerTo, addrOf, if_pos h0, bind, Except.bind, pure, Except.pure]
  have hmw : 1 ≤ max 1 (width / 2) := le_max_left _ _
  have hmh : 1 ≤ max 1 (height / 2) := le_max_left _ _
  have him := imageSize_ubyte ((max 1 (width / 2) : Nat) : Int) ((max 1 (height / 2) : Nat) : Int)
    format (by omega) (by omega)
  rw [hc] at him
  simp only [sourceRowsize, sourceOffset] at hroff hptr0 hhalve
  simp only [Int.toNat_ofNat] at hlw hlh hlev0
  unfold gluBuild2DMipmapLevelsCore
  by_cases hb0 : baseLevel ≤ userLevel ∧ userLevel ≤ maxLevel
  · simp only [GLM.run_bind, GLM.run_lift, hargs, assert, h1, h2, if_true, beq_self_eq_true,
      retrieveStoreModes_snapshot, hlw, hlh, hlev0, snapshot, hA, hRL, hSR, hSP, truncMul_one,
      truncInt_one, hc, groupsPerLine_cast, ← Nat.cast_mul, goMod_cast _ _ hApos,
      rowsize_cast _ _ hApos, ← Nat.cast_add, PixelStorei_run, and_self, if_neg hlevels,
      half_clamp, hroff, Int.toNat_ofNat, if_pos hb0, hptr0, TexImage2D_run, him, make_cast,
      hhalve, GLM.run_pure, if_pos hlev, hptr1]
    apply exists_call_of_grows (grows_levelLoop _ _ _ _ _ _ _ _ _ _ _ _)
      (fun _ => grows_restoreStoreModes _)
    exact exists_call_texUpload _ _ ⟨rfl, rfl⟩
  · simp only [GLM.run_bind, GLM.run_lift, hargs, assert, h1, h2, if_true, beq_self_eq_true,
      retrieveStoreModes_snapshot, hlw, hlh, hlev0, snapshot, hA, hRL, hSR, hSP, truncMul_one,
      truncInt_one, hc, groupsPerLine_cast, ← Nat.cast_mul, goMod_cast _ _ hApos,
      rowsize_cast _ _ hApos, ← Nat.cast_add, PixelStorei_run, and_self, if_neg hlevels,
      half_clamp, hroff, Int.toNat_ofNat, if_neg hb0, hptr0, TexImage2D_run, him, make_cast,
      hhalve, GLM.run_pure, if_pos hlev, hptr1]
    apply exists_call_of_grows (grows_levelLoop _ _ _ _ _ _ _ _ _ _ _ _)
      (fun _ => grows_restoreStoreModes _)
    exact exists_call_texUpload _ _ ⟨rfl, rfl⟩

theorem core_scale_source (scaleInternalUbyte : ScaleKernel)
    (target internalFormat format userLevel baseLevel maxLevel : Int)
    (width height W H A rowLength skipRows skipPixels c : Nat) (data out : List Nat)
    (s : GLState)
    (hargs : checkMipmapArgs internalFormat format gl.UNSIGNED_BYTE = .ok ())
    (hc : elementsPerGroup format gl.UNSIGNED_BYTE = (c : Int))
    (hw : 1 ≤ width) (hh : 1 ≤ height) (hW : 1 ≤ W) (hH : 1 ≤ H)
    (hA : s.unpackAlignment = (A : Int)) (hApos : 0 < A)
    (hRL : s.unpackRowLength = (rowLength : Int))
    (hSR : s.unpackSkipRows = (skipRows : Int))
    (hSP : s.unpackSkipPixels = (skipPixels : Int))
    (hoff : sourceOffset skipRows skipPixels (sourceRowsize rowLength width c A) c < data.length)
    (hfit : ¬ ((width : Int) = (W : Int) ∧ (height : Int) = (H : Int)))
    (hk : scaleInternalUbyte (c : Int) (width : Int) (height : Int)
      (data.drop (sourceOffset skipRows skipPixels (sourceRowsize rowLength width c A) c))
      (W : Int) (H : Int) (List.replicate (W * H * c) 0) 1
      (sourceRowsize rowLength width c A : Nat) (c : Int) = .ok out)
    (hout : out ≠ [])
    (hlev : baseLevel ≤ userLevel ∧ userLevel ≤ maxLevel) :
    ∃ r ∈ (gluBuild2DMipmapLevelsCore scaleInternalUbyte target internalFormat width height
        W H format gl.UNSIGNED_BYTE userLevel baseLevel maxLevel data s).2.calls,
      r.level = userLevel ∧ r.pixels = some out := by
  have h1 : (decide ((width : Int) ≥ 1) && decide ((height : Int) ≥ 1)) = true := by
    simp; omega
  have h2 : (gl.UNSIGNED_BYTE != gl.BITMAP) = true := by decide
  have hlw := intLog2_ok (W : Int) (by omega)
  have hlh := intLog2_ok (H : Int) (by omega)
  have hlev0 := levels_eq_fitDepth hlw hlh
  have hroff : reslice data.length 0
      (((skipRows * sourceRowsize rowLength width c A + skipPixels * c : Nat)) : Int) =
      .ok ((sourceOffset skipRows skipPixels (sourceRowsize rowLength width c A) c : Nat) : Int) := by
    have := reslice_ok data.length 0 _ (skipRows * sourceRowsize rowLength width c A +
      skipPixels * c) rfl (by rw [sourceOffset] at hoff; omega)
    simpa [sourceOffset] using this
  have hptr1 : pointerTo out = .ok (some out) := by
    have hpos : 0 < out.length := List.length_pos.2 hout
    have h0 : (0 : Int) ≤ 0 ∧ (0 : Int) + 0 < (out.length : Int) := by omega
    simp only [pointerTo, addrOf, if_pos h0, bind, Except.bind, pure, Except.pure]
  have hmw : 1 ≤ max 1 (W / 2) := le_max_left _ _
  have hmh : 1 ≤ max 1 (H / 2) := le_max_left _ _
  have him := imageSize_ubyte (W : Int) (H : Int) format (by omega) (by omega)
  have him2 := imageSize_ubyte ((max 1 (W / 2) : Nat) : Int) ((max 1 (H / 2) : Nat) : Int)
    format (by omega) (by omega)
  rw [hc] at him him2
  simp only [sourceRowsize, sourceOffset] at hroff hk
  simp only [Int.toNat_ofNat] at hlw hlh hlev0
  unfold gluBuild2DMipmapLevelsCore
  by_cases hz : (fitDepth (W : Int) (H : Int) : Int) + userLevel = 0
  · simp only [GLM.run_bind, GLM.run_lift, hargs, assert, h1, h2, if_true, beq_self_eq_true,
      retrieveStoreModes_snapshot, hlw, hlh, hlev0, snapshot, hA, hRL, hSR, hSP, truncMul_one,
      truncInt_one, hc, groupsPerLine_cast, ← Nat.cast_mul, goMod_cast _ _ hApos,
      rowsize_cast _ _ hApos, ← Nat.cast_add, PixelStorei_run, if_neg hfit, hz, ne_eq,
      not_true_eq_false, if_false,
      half_clamp, hroff, Int.toNat_ofNat, TexImage2D_run, him, him2, make_cast,
      hk, GLM.run_pure, if_pos hlev, hptr1]
    apply exists_call_of_grows (grows_levelLoop _ _ _ _ _ _ _ _ _ _ _ _)
      (fun _ => grows_restoreStoreModes _)
    exact exists_call_texUpload _ _ ⟨rfl, rfl⟩
  · simp only [GLM.run_bind, GLM.run_lift, hargs, assert, h1, h2, if_true, beq_self_eq_true,
      retrieveStoreModes_snapshot, hlw, hlh, hlev0, snapshot, hA, hRL, hSR, hSP, truncMul_one,
      truncInt_one, hc, groupsPerLine_cast, ← Nat.cast_mul, goMod_cast _ _ hApos,
      rowsize_cast _ _ hApos, ← Nat.cast_add, PixelStorei_run, if_neg hfit, hz, ne_eq,
      not_false_eq_true, if_true,
      half_clamp, hroff, Int.toNat_ofNat, TexImage2D_run, him, him2, make_cast,
      hk, GLM.run_pure, if_pos hlev, hptr1]
    apply exists_call_of_grows (grows_levelLoop _ _ _ _ _ _ _ _ _ _ _ _)
      (fun _ => grows_restoreStoreModes _)
    exact exists_call_texUpload _ _ ⟨rfl, rfl⟩

theorem sourceRowsize_spec (rowLength width groupSize A : Nat) (hA : 0 < A) :
    A ∣ sourceRowsize rowLength width groupSize A ∧
      (if rowLength > 0 then rowLength else width) * groupSize ≤
        sourceRowsize rowLength width groupSize A ∧
      sourceRowsize rowLength width groupSize A <
        (if rowLength > 0 then rowLength else width) * groupSize + A := by
  unfold sourceRowsize
  generalize (if rowLength > 0 then rowLength else width) * groupSize = n
  have h1 := Nat.div_add_mod (n + A - 1) A
  have h2 : (n + A - 1) % A < A := Nat.mod_lt _ hA
  have h3 : (n + A - 1) / A * A = A * ((n + A - 1) / A) := Nat.mul_comm _ _
  refine ⟨Dvd.intro_left _ rfl, ?_, ?_⟩ <;> omega

theorem srcByte_drop (data : List Nat) (off ysize groupSize r x k : Nat) :
    srcByte (data.drop off) ysize groupSize r x k =
      data.getD (off + r * ysize + x * groupSize + k) 0 := by
  simp only [srcByte, List.getD_eq_getElem?_getD, List.getElem?_drop]
  congr 2
  omega

theorem cacheGet_ok (a : List F64) (i : Int) (h : a.length = 240) (h0 : 0 ≤ i)
    (h1 : i < 240) : cacheGet a i = .ok (a.getD i.toNat (.lit 0)) := by
  unfold cacheGet
  rw [if_pos]
  rw [h]; exact ⟨h0, by exact_mod_cast h1⟩

theorem cacheSet_ok (a : List F64) (i : Int) (v : F64) (h : a.length = 240) (h0 : 0 ≤ i)
    (h1 : i < 240) : cacheSet a i v = .ok (a.set i.toNat v) := by
  unfold cacheSet
  rw [if_pos]
  rw [h]; exact ⟨h0, by exact_mod_cast h1⟩

theorem forIdx_inv {σ : Type} (body : Int → σ → Except Err σ) :
    ∀ (n : Nat) (lo : Int) (P : Nat → σ → Prop) (st : σ), P 0 st →
      (∀ (m : Nat) st, m < n → P m st → ∃ st1, body (lo + m) st = .ok st1 ∧ P (m + 1) st1) →
      ∃ st1, forIdx n lo body st = .ok st1 ∧ P n st1 := by
  intro n
  induction n with
  | zero => intro lo P st h0 _; exact ⟨st, rfl, h0⟩
  | succ n ih =>
    intro lo P st h0 hstep
    obtain ⟨s1, hb, h1⟩ := hstep 0 st (Nat.succ_pos n) h0
    simp only [Nat.cast_zero, add_zero] at hb
    obtain ⟨s2, hr, h2⟩ := ih (lo + 1) (fun m s => P (m + 1) s) s1 h1 (by
      intro m s hm hP
      have := hstep (m + 1) s (Nat.succ_lt_succ hm) hP
      have e : lo + 1 + (m : Int) = lo + ((m + 1 : Nat) : Int) := by push_cast; ring
      rw [e]; exact this)
    refine ⟨s2, ?_, h2⟩
    show (body lo st >>= forIdx n (lo + 1) body) = _
    rw [hb]; exact hr

theorem forDown_inv {σ : Type} (body : Int → σ → Except Err σ) :
    ∀ (n : Nat) (hi : Int) (P : Nat → σ → Prop) (st : σ), P 0 st →
      (∀ (m : Nat) st, m < n → P m st → ∃ st1, body (hi - m) st = .ok st1 ∧ P (m + 1) st1) →
      ∃ st1, forDown n hi body st = .ok st1 ∧ P n st1 := by
  intro n
  induction n with
  | zero => intro hi P st h0 _; exact ⟨st, rfl, h0⟩
  | succ n ih =>
    intro hi P st h0 hstep
    obtain ⟨s1, hb, h1⟩ := hstep 0 st (Nat.succ_pos n) h0
    simp only [Nat.cast_zero, sub_zero] at hb
    obtain ⟨s2, hr, h2⟩ := ih (hi - 1) (fun m s => P (m + 1) s) s1 h1 (by
      intro m s hm hP
      have := hstep (m + 1) s (Nat.succ_lt_succ hm) hP
      have e : hi - 1 - (m : Int) = hi - ((m + 1 : Nat) : Int) := by push_cast; ring
      rw [e]; exact this)
    refine ⟨s2, ?_, h2⟩
    show (body hi st >>= forDown n (hi - 1) body) = _
    rw [hb]; exact hr

theorem shape_append (a b : List GLCmd) : shape (a ++ b) = shape a ++ shape b := by
  simp [shape]

theorem draws_forIdx (body : Int → SphereDraw → Except Err SphereDraw) (f : Int → List GLCmd)
    (n : Nat) (lo : Int) (h : ∀ m : Nat, m < n → Draws (body (lo + m)) (f (lo + m))) :
    Draws (forIdx n lo body) ((List.range n).flatMap (fun (m : Nat) => f (lo + (m : Int)))) := by
  intro st
  obtain ⟨s1, hr, k, hk, hs⟩ := forIdx_inv body n lo
    (fun m s => ∃ k, s.cmds = st.cmds ++ k ∧
      shape k = (List.range m).flatMap (fun (m : Nat) => f (lo + (m : Int)))) st
    ⟨[], by simp, by simp [shape]⟩ (by
      rintro m s hm ⟨k, hk, hs⟩
      obtain ⟨s1, k1, hb, hk1, hs1⟩ := h m hm s
      refine ⟨s1, hb, k ++ k1, by rw [hk1, hk, List.append_assoc], ?_⟩
      rw [shape_append, hs, hs1, List.range_succ]
      simp)
  exact ⟨s1, k, hr, hk, hs⟩

theorem draws_forDown (body : Int → SphereDraw → Except Err SphereDraw) (f : Int → List GLCmd)
    (n : Nat) (hi : Int) (h : ∀ m : Nat, m < n → Draws (body (hi - m)) (f (hi - m))) :
    Draws (forDown n hi body) ((List.range n).flatMap (fun (m : Nat) => f (hi - (m : Int)))) := by
  intro st
  obtain ⟨s1, hr, k, hk, hs⟩ := forDown_inv body n hi
    (fun m s => ∃ k, s.cmds = st.cmds ++ k ∧
      shape k = (List.range m).flatMap (fun (m : Nat) => f (hi - (m : Int)))) st
    ⟨[], by simp, by simp [shape]⟩ (by
      rintro m s hm ⟨k, hk, hs⟩
      obtain ⟨s1, k1, hb, hk1, hs1⟩ := h m hm s
      refine ⟨s1, hb, k ++ k1, by rw [hk1, hk, List.append_assoc], ?_⟩
      rw [shape_append, hs, hs1, List.range_succ]
      simp)
  exact ⟨s1, k, hr, hk, hs⟩

theorem draws_bind (m n : SphereDraw → Except Err SphereDraw) (a b : List GLCmd)
    (hm : Draws m a) (hn : Draws n b) : Draws (fun st => m st >>= n) (a ++ b) := by
  intro st
  obtain ⟨s1, k1, h1, e1, p1⟩ := hm st
  obtain ⟨s2, k2, h2, e2, p2⟩ := hn s1
  refine ⟨s2, k1 ++ k2, ?_, by rw [e2, e1, List.append_assoc], by rw [shape_append, p1, p2]⟩
  show (m st >>= n) = _
  rw [h1]; exact h2

theorem cacheSlice_ok (nc2 : Bool) (slices i : Int) (t : SphereCaches) (hS : t.Sized)
    (h0 : 0 ≤ i) (h1 : i < 240) :
    ∃ t1, cacheSlice nc2 slices i t = .ok t1 ∧ t1.Sized ∧
      t1.sinCache1a = t.sinCache1a.set i.toNat (.sin (sliceAngle slices i)) ∧
      t1.cosCache1a = t.cosCache1a.set i.toNat (.cos (sliceAngle slices i)) ∧
      t1.sinCache1b = t.sinCache1b ∧ t1.cosCache1b = t.cosCache1b := by
  obtain ⟨a1, a2, a3, a4, a5, a6, a7, a8, a9, a10, a11, a12⟩ := hS
  cases nc2 <;>
  simp [cacheSlice, cacheGet, cacheSet, bind, Except.bind, pure, Except.pure, sliceAngle,
    a1, a2, a3, a4, h0, h1] <;>
  exact ⟨by simp [*], by simp [*], by simp [*], by simp [*], by simp [*], by simp [*],
    by simp [*], by simp [*], by simp [*], by simp [*], by simp [*], by simp [*]⟩

theorem cacheStack_ok (qobj : Quadric) (nc2 : Bool) (radius : ℚ) (stacks' j : Int)
    (t : SphereCaches) (hS : t.Sized) (h0 : 0 ≤ j) (h1 : j < 240) :
    ∃ t1, cacheStack qobj nc2 radius stacks' j t = .ok t1 ∧ t1.Sized ∧
      t1.sinCache1a = t.sinCache1a ∧ t1.cosCache1a = t.cosCache1a ∧
      t1.sinCache1b = t.sinCache1b.set j.toNat (.mul (.lit radius) (.sin (stackAngle stacks' j))) ∧
      t1.cosCache1b =
        t.cosCache1b.set j.toNat (.mul (.lit radius) (.cos (stackAngle stacks' j))) := by
  obtain ⟨a1, a2, a3, a4, a5, a6, a7, a8, a9, a10, a11, a12⟩ := hS
  by_cases ho : qobj.Orientation = GLU_OUTSIDE <;> cases nc2 <;>
  simp [cacheStack, cacheGet, cacheSet, bind, Except.bind, pure, Except.pure, stackAngle,
    a7, a8, a9, a10, h0, h1, ho] <;>
  exact ⟨by simp [*], by simp [*], by simp [*], by simp [*], by simp [*], by simp [*],
    by simp [*], by simp [*], by simp [*], by simp [*], by simp [*], by simp [*]⟩

theorem cacheSlice3_ok (slices i : Int) (t : SphereCaches) (hS : t.Sized)
    (h0 : 0 ≤ i) (h1 : i < 240) :
    ∃ t1, cacheSlice3 slices i t = .ok t1 ∧ t1.Sized ∧
      t1.sinCache1a = t.sinCache1a ∧ t1.cosCache1a = t.cosCache1a ∧
      t1.sinCache1b = t.sinCache1b ∧ t1.cosCache1b = t.cosCache1b := by
  obtain ⟨a1, a2, a3, a4, a5, a6, a7, a8, a9, a10, a11, a12⟩ := hS
  simp [cacheSlice3, cacheGet, cacheSet, bind, Except.bind, pure, Except.pure,
    a5, a6, h0, h1]
  exact ⟨by simp [*], by simp [*], by simp [*], by simp [*], by simp [*], by simp [*],
    by simp [*], by simp [*], by simp [*], by simp [*], by simp [*], by simp [*]⟩

theorem cacheStack3_ok (qobj : Quadric) (stacks' j : Int) (t : SphereCaches) (hS : t.Sized)
    (h0 : 0 ≤ j) (h1 : j < 240) :
    ∃ t1, cacheStack3 qobj stacks' j t = .ok t1 ∧ t1.Sized ∧
      t1.sinCache1a = t.sinCache1a ∧ t1.cosCache1a = t.cosCache1a ∧
      t1.sinCache1b = t.sinCache1b ∧ t1.cosCache1b = t.cosCache1b := by
  obtain ⟨a1, a2, a3, a4, a5, a6, a7, a8, a9, a10, a11, a12⟩ := hS
  by_cases ho : qobj.Orientation = GLU_OUTSIDE <;>
  simp [cacheStack3, cacheGet, cacheSet, bind, Except.bind, pure, Except.pure,
    a11, a12, h0, h1, ho] <;>
  exact ⟨by simp [*], by simp [*], by simp [*], by simp [*], by simp [*], by simp [*],
    by simp [*], by simp [*], by simp [*], by simp [*], by simp [*], by simp [*]⟩

theorem getD_set_eq (a : List F64) (k : Nat) (v d : F64) (h : k < a.length) :
    (a.set k v).getD k d = v := by
  simp [List.getD_eq_getElem?_getD, List.getElem?_set, h]

theorem getD_set_ne (a : List F64) (k m : Nat) (v d : F64) (h : m ≠ k) :
    (a.set m v).getD k d = a.getD k d := by
  simp [List.getD_eq_getElem?_getD, List.getElem?_set, h]

theorem zeroCache_length : zeroCache.length = 240 := by
  unfold zeroCache
  rw [List.length_replicate]
  rfl

theorem sized_zero : SphereCaches.Sized
    { sinCache1a := zeroCache, cosCache1a := zeroCache, sinCache2a := zeroCache,
      cosCache2a := zeroCache, sinCache3a := zeroCache, cosCache3a := zeroCache,
      sinCache1b := zeroCache, cosCache1b := zeroCache, sinCache2b := zeroCache,
      cosCache2b := zeroCache, sinCache3b := zeroCache, cosCache3b := zeroCache } := by
  constructor <;> exact zeroCache_length

theorem slicesLoop_ok (nc2 : Bool) (slices : Int) (t : SphereCaches) (hS : t.Sized)
    (h1 : slices ≤ 240) :
    ∃ t1, forRange 0 slices (cacheSlice nc2 slices) t = .ok t1 ∧ t1.Sized ∧
      (∀ k : Nat, (k : Int) < slices →
        t1.sinCache1a.getD k (.lit 0) = .sin (sliceAngle slices k) ∧
        t1.cosCache1a.getD k (.lit 0) = .cos (sliceAngle slices k)) ∧
      t1.sinCache1b = t.sinCache1b ∧ t1.cosCache1b = t.cosCache1b := by
  obtain ⟨t1, hr, hS1, hc, hb⟩ := forIdx_inv (cacheSlice nc2 slices) (slices - 0).toNat 0
    (fun m s => s.Sized ∧
      (∀ k : Nat, k < m →
        s.sinCache1a.getD k (.lit 0) = .sin (sliceAngle slices k) ∧
        s.cosCache1a.getD k (.lit 0) = .cos (sliceAngle slices k)) ∧
      s.sinCache1b = t.sinCache1b ∧ s.cosCache1b = t.cosCache1b) t
    ⟨hS, fun k hk => absurd hk (Nat.not_lt_zero k), rfl, rfl⟩ (by
      rintro m s hm ⟨hSs, hc, hb1, hb2⟩
      have hm1 : (m : Int) < 240 := by omega
      obtain ⟨s1, hok, hS1, e1, e2, e3, e4⟩ :=
        cacheSlice_ok nc2 slices (0 + (m : Int)) s hSs (by omega) (by omega)
      refine ⟨s1, hok, hS1, ?_, e3.trans hb1, e4.trans hb2⟩
      intro k hk
      have et : (0 + (m : Int)).toNat = m := by simp
      rw [e1, e2, et]
      rcases Nat.lt_succ_iff_lt_or_eq.mp hk with hlt | heq
      · rw [getD_set_ne _ _ _ _ _ (by omega), getD_set_ne _ _ _ _ _ (by omega)]
        exact hc k hlt
      · subst heq
        rw [getD_set_eq _ _ _ _ (by rw [hSs.sin1a]; omega),
          getD_set_eq _ _ _ _ (by rw [hSs.cos1a]; omega)]
        simp)
  refine ⟨t1, hr, hS1, ?_, hb⟩
  intro k hk
  exact hc k (by omega)

theorem stacksLoop_ok (qobj : Quadric) (nc2 : Bool) (radius : ℚ) (stacks' : Int)
    (t : SphereCaches) (hS : t.Sized) (h1 : stacks' < 240) :
    ∃ t1, forRange 0 (stacks' + 1) (cacheStack qobj nc2 radius stacks') t = .ok t1 ∧ t1.Sized ∧
      (∀ k : Nat, (k : Int) ≤ stacks' →
        t1.sinCache1b.getD k (.lit 0) = .mul (.lit radius) (.sin (stackAngle stacks' k)) ∧
        t1.cosCache1b.getD k (.lit 0) = .mul (.lit radius) (.cos (stackAngle stacks' k))) ∧
      t1.sinCache1a = t.sinCache1a ∧ t1.cosCache1a = t.cosCache1a := by
  obtain ⟨t1, hr, hS1, hc, hb⟩ := forIdx_inv (cacheStack qobj nc2 radius stacks')
    (stacks' + 1 - 0).toNat 0
    (fun m s => s.Sized ∧
      (∀ k : Nat, k < m →
        s.sinCache1b.getD k (.lit 0) = .mul (.lit radius) (.sin (stackAngle stacks' k)) ∧
        s.cosCache1b.getD k (.lit 0) = .mul (.lit radius) (.cos (stackAngle stacks' k))) ∧
      s.sinCache1a = t.sinCache1a ∧ s.cosCache1a = t.cosCache1a) t
    ⟨hS, fun k hk => absurd hk (Nat.not_lt_zero k), rfl, rfl⟩ (by
      rintro m s hm ⟨hSs, hc, hb1, hb2⟩
      have hm1 : (m : Int) < 240 := by omega
      obtain ⟨s1, hok, hS1, e1, e2, e3, e4⟩ :=
        cacheStack_ok qobj nc2 radius stacks' (0 + (m : Int)) s hSs (by omega) (by omega)
      refine ⟨s1, hok, hS1, ?_, e1.trans hb1, e2.trans hb2⟩
      intro k hk
      have et : (0 + (m : Int)).toNat = m := by simp
      rw [e3, e4, et]
      rcases Nat.lt_succ_iff_lt_or_eq.mp hk with hlt | heq
      · rw [getD_set_ne _ _ _ _ _ (by omega), getD_set_ne _ _ _ _ _ (by omega)]
        exact hc k hlt
      · subst heq
        rw [getD_set_eq _ _ _ _ (by rw [hSs.sin1b]; omega),
          getD_set_eq _ _ _ _ (by rw [hSs.cos1b]; omega)]
        simp)
  refine ⟨t1, hr, hS1, ?_, hb⟩
  intro k hk
  exact hc k (by omega)

theorem slices3Loop_ok (slices : Int) (t : SphereCaches) (hS : t.Sized) (h1 : slices ≤ 240) :
    ∃ t1, forRange 0 slices (cacheSlice3 slices) t = .ok t1 ∧ t1.Sized ∧ SameRings t t1 := by
  refine forIdx_inv (cacheSlice3 slices) (slices - 0).toNat 0
    (fun _ s => s.Sized ∧ SameRings t s) t ⟨hS, rfl, rfl, rfl, rfl⟩ ?_
  rintro m s hm ⟨hSs, b1, b2, b3, b4⟩
  obtain ⟨s1, hok, hS1, e1, e2, e3, e4⟩ :=
    cacheSlice3_ok slices (0 + (m : Int)) s hSs (by omega) (by omega)
  exact ⟨s1, hok, hS1, e1.trans b1, e2.trans b2, e3.trans b3, e4.trans b4⟩

theorem stacks3Loop_ok (qobj : Quadric) (stacks' : Int) (t : SphereCaches) (hS : t.Sized)
    (h1 : stacks' < 240) :
    ∃ t1, forRange 0 (stacks' + 1) (cacheStack3 qobj stacks') t = .ok t1 ∧ t1.Sized ∧
      SameRings t t1 := by
  refine forIdx_inv (cacheStack3 qobj stacks') (stacks' + 1 - 0).toNat 0
    (fun _ s => s.Sized ∧ SameRings t s) t ⟨hS, rfl, rfl, rfl, rfl⟩ ?_
  rintro m s hm ⟨hSs, b1, b2, b3, b4⟩
  obtain ⟨s1, hok, hS1, e1, e2, e3, e4⟩ :=
    cacheStack3_ok qobj stacks' (0 + (m : Int)) s hSs (by omega) (by omega)
  exact ⟨s1, hok, hS1, e1.trans b1, e2.trans b2, e3.trans b3, e4.trans b4⟩

theorem filled_wrap (t u : SphereCaches) (radius : ℚ) (slices stacks' : Int)
    (hs0 : 1 ≤ slices) (hs1 : slices < 240) (hS : t.Sized) (hU : u.Sized)
    (h1 : ∀ k : Nat, (k : Int) < slices →
      t.sinCache1a.getD k (.lit 0) = .sin (sliceAngle slices k) ∧
      t.cosCache1a.getD k (.lit 0) = .cos (sliceAngle slices k))
    (h2 : ∀ j : Int, 0 ≤ j → j ≤ stacks' →
      t.sinCache1b.getD j.toNat (.lit 0) = ringRadius radius stacks' j)
    (h3 : ∀ j : Int, 0 ≤ j → j ≤ stacks' →
      t.cosCache1b.getD j.toNat (.lit 0) = .mul (.lit radius) (.cos (stackAngle stacks' j)))
    (e1 : u.sinCache1a = t.sinCache1a.set slices.toNat (t.sinCache1a.getD 0 (.lit 0)))
    (e2 : u.cosCache1a = t.cosCache1a.set slices.toNat (t.cosCache1a.getD 0 (.lit 0)))
    (e3 : u.sinCache1b = t.sinCache1b) (e4 : u.cosCache1b = t.cosCache1b) :
    u.Filled radius slices stacks' := by
  have key : ∀ i : Int, 0 ≤ i → i ≤ slices →
      u.sinCache1a.getD i.toNat (.lit 0) =
        .sin (sliceAngle slices (if i = slices then 0 else i)) ∧
      u.cosCache1a.getD i.toNat (.lit 0) =
        .cos (sliceAngle slices (if i = slices then 0 else i)) := by
    intro i hi0 hi1
    rw [e1, e2]
    by_cases hi : i = slices
    · subst hi
      rw [getD_set_eq _ _ _ _ (by rw [hS.sin1a]; omega),
        getD_set_eq _ _ _ _ (by rw [hS.cos1a]; omega), if_pos rfl]
      simpa using h1 0 (by simpa using hs0)
    · rw [getD_set_ne _ _ _ _ _ (by omega), getD_set_ne _ _ _ _ _ (by omega), if_neg hi]
      have := h1 i.toNat (by omega)
      rwa [Int.toNat_of_nonneg hi0] at this
  refine ⟨hU, fun i a b => (key i a b).1, fun i a b => (key i a b).2, ?_, ?_⟩
  · rw [e3]; exact h2
  · rw [e4]; exact h3

theorem poles_getD (b : List F64) (radius : ℚ) (stacks' : Int) (hl : b.length = 240)
    (ht0 : 1 ≤ stacks') (ht1 : stacks' < 240)
    (hc : ∀ k : Nat, (k : Int) ≤ stacks' →
      b.getD k (.lit 0) = .mul (.lit radius) (.sin (stackAngle stacks' k))) :
    ∀ j : Int, 0 ≤ j → j ≤ stacks' →
      ((b.set 0 (.lit 0)).set stacks'.toNat (.lit 0)).getD j.toNat (.lit 0) =
        ringRadius radius stacks' j := by
  intro j hj0 hj1
  unfold ringRadius
  by_cases h1 : j = stacks'
  · subst h1
    rw [getD_set_eq _ _ _ _ (by rw [List.length_set, hl]; omega), if_pos (Or.inr rfl)]
  · rw [getD_set_ne _ _ _ _ _ (by omega)]
    by_cases h0 : j = 0
    · subst h0
      rw [if_pos (Or.inl rfl)]
      exact getD_set_eq _ _ _ _ (by rw [hl]; omega)
    · rw [getD_set_ne _ _ _ _ _ (by omega), if_neg (by simp [h0, h1])]
      have := hc j.toNat (by omega)
      rwa [Int.toNat_of_nonneg hj0] at this

theorem sphereCaches_ok (qobj : Quadric) (nc2 nc3 : Bool) (radius : ℚ) (slices stacks' : Int)
    (hs0 : 1 ≤ slices) (hs1 : slices < 240) (ht0 : 1 ≤ stacks') (ht1 : stacks' < 240) :
    ∃ t, sphereCaches qobj nc2 nc3 radius slices stacks' = .ok t ∧
      t.Filled radius slices stacks' := by
  obtain ⟨t1, hr1, hS1, hc1, hb1, hb1c⟩ := slicesLoop_ok nc2 slices _ sized_zero (by omega)
  obtain ⟨t2, hr2, hS2, hc2, ha2, ha2c⟩ :=
    stacksLoop_ok qobj nc2 radius stacks' t1 hS1 ht1
  have hS3 : SphereCaches.Sized
      { t2 with sinCache1b := (t2.sinCache1b.set 0 (.lit 0)).set stacks'.toNat (.lit 0) } := by
    obtain ⟨a1, a2, a3, a4, a5, a6, a7, a8, a9, a10, a11, a12⟩ := hS2
    exact ⟨a1, a2, a3, a4, a5, a6, by simp [a7], a8, a9, a10, a11, a12⟩
  obtain ⟨t4, hr4, hS4, s4a, s4b, s4c, s4d⟩ := slices3Loop_ok slices _ hS3 (by omega)
  obtain ⟨t5, hr5, hS5, s5a, s5b, s5c, s5d⟩ := stacks3Loop_ok qobj stacks' t4 hS4 ht1
  have hs0' : 0 ≤ slices := by omega
  have ht0' : 0 ≤ stacks' := by omega
  have c3a : ∀ k : Nat, (k : Int) < slices →
      t2.sinCache1a.getD k (.lit 0) = .sin (sliceAngle slices k) ∧
      t2.cosCache1a.getD k (.lit 0) = .cos (sliceAngle slices k) := by
    rw [ha2, ha2c]; exact hc1
  have c3b := poles_getD t2.sinCache1b radius stacks' hS2.sin1b ht0 ht1 (fun k hk => (hc2 k hk).1)
  have c3c : ∀ j : Int, 0 ≤ j → j ≤ stacks' →
      t2.cosCache1b.getD j.toNat (.lit 0) = .mul (.lit radius) (.cos (stackAngle stacks' j)) := by
    intro j hj0 hj1
    have := (hc2 j.toNat (by omega)).2
    rwa [Int.toNat_of_nonneg hj0] at this
  have e5a : t5.sinCache1a = t2.sinCache1a := s5a.trans s4a
  have e5b : t5.cosCache1a = t2.cosCache1a := s5b.trans s4b
  have e5c : t5.sinCache1b = (t2.sinCache1b.set 0 (.lit 0)).set stacks'.toNat (.lit 0) :=
    s5c.trans s4c
  have e5d : t5.cosCache1b = t2.cosCache1b := s5d.trans s4d
  have c5a : ∀ k : Nat, (k : Int) < slices →
      t5.sinCache1a.getD k (.lit 0) = .sin (sliceAngle slices k) ∧
      t5.cosCache1a.getD k (.lit 0) = .cos (sliceAngle slices k) := by
    rw [e5a, e5b]; exact c3a
  have c5b : ∀ j : Int, 0 ≤ j → j ≤ stacks' →
      t5.sinCache1b.getD j.toNat (.lit 0) = ringRadius radius stacks' j := by
    rw [e5c]; exact c3b
  have c5c : ∀ j : Int, 0 ≤ j → j ≤ stacks' →
      t5.cosCache1b.getD j.toNat (.lit 0) = .mul (.lit radius) (.cos (stackAngle stacks' j)) := by
    rw [e5d]; exact c3c
  obtain ⟨a1, a2, a3, a4, a5, a6, a7, a8, a9, a10, a11, a12⟩ := hS2
  obtain ⟨b1, b2, b3, b4, b5, b6, b7, b8, b9, b10, b11, b12⟩ := hS5
  cases nc3 <;> cases nc2 <;>
    simp [sphereCaches, hr1, hr2, hr4, hr5, cacheGet, cacheSet, bind, Except.bind, pure,
      Except.pure, a1, a2, a3, a4, a5, a6, a7, a8, a9, a10, a11, a12, b1, b2, b3, b4, b5, b6,
      b7, b8, b9, b10, b11, b12, hs0', hs1, ht0', ht1]
  · refine filled_wrap _ _ radius slices stacks' hs0 hs1 hS3 ?_ c3a c3b c3c ?_ ?_ rfl rfl
    · constructor <;> simp [a1, a2, a3, a4, a5, a6, a7, a8, a9, a10, a11, a12]
    · simp [List.getD_eq_getElem?_getD, a1]
    · simp [List.getD_eq_getElem?_getD, a2]
  · refine filled_wrap _ _ radius slices stacks' hs0 hs1 hS3 ?_ c3a c3b c3c ?_ ?_ rfl rfl
    · constructor <;> simp [a1, a2, a3, a4, a5, a6, a7, a8, a9, a10, a11, a12]
    · simp [List.getD_eq_getElem?_getD, a1]
    · simp [List.getD_eq_getElem?_getD, a2]
  · refine filled_wrap t5 _ radius slices stacks' hs0 hs1 ⟨b1, b2, b3, b4, b5, b6, b7, b8, b9, b10, b11, b12⟩ ?_ c5a c5b c5c ?_ ?_ rfl rfl
    · constructor <;> simp [b1, b2, b3, b4, b5, b6, b7, b8, b9, b10, b11, b12]
    · simp [List.getD_eq_getElem?_getD, b1]
    · simp [List.getD_eq_getElem?_getD, b2]
  · refine filled_wrap t5 _ radius slices stacks' hs0 hs1 ⟨b1, b2, b3, b4, b5, b6, b7, b8, b9, b10, b11, b12⟩ ?_ c5a c5b c5c ?_ ?_ rfl rfl
    · constructor <;> simp [b1, b2, b3, b4, b5, b6, b7, b8, b9, b10, b11, b12]
    · simp [List.getD_eq_getElem?_getD, b1]
    · simp [List.getD_eq_getElem?_getD, b2]

theorem emitVertex_ok (t : SphereCaches) (radius : ℚ) (slices stacks' : Int)
    (hF : t.Filled radius slices stacks') (hs : slices < 240) (i : Int) (h0 : 0 ≤ i)
    (h1 : i ≤ slices) (s z : F64) (st : SphereDraw) :
    emitVertex t i s z st = .ok (emit (.Vertex3d
      (.mul s (.sin (sliceAngle slices (if i = slices then 0 else i))))
      (.mul s (.cos (sliceAngle slices (if i = slices then 0 else i)))) z) st) := by
  unfold emitVertex
  rw [cacheGet_ok _ _ hF.sized.sin1a h0 (by omega), cacheGet_ok _ _ hF.sized.cos1a h0 (by omega),
    hF.sliceSin i h0 h1, hF.sliceCos i h0 h1]
  rfl

theorem emitNormal_ok (a b : List F64) (ha : a.length = 240) (hb : b.length = 240) (i : Int)
    (h0 : 0 ≤ i) (h1 : i < 240) (s c : F64) (st : SphereDraw) :
    emitNormal a b i s c st = .ok (emit (.Normal3d (.mul (a.getD i.toNat (.lit 0)) s)
      (.mul (b.getD i.toNat (.lit 0)) s) c) st) := by
  unfold emitNormal
  rw [cacheGet_ok _ _ ha h0 h1, cacheGet_ok _ _ hb h0 h1]
  rfl

theorem smooth_ne_flat : GLU_SMOOTH ≠ GLU_FLAT := by decide

theorem draws_emitNormal (a b : List F64) (ha : a.length = 240) (hb : b.length = 240)
    (i : Int) (h0 : 0 ≤ i) (h1 : i < 240) (f g : SphereDraw → F64) :
    Draws (fun st => emitNormal a b i (f st) (g st) st) [] := fun st =>
  ⟨_, _, emitNormal_ok a b ha hb i h0 h1 _ _ st, rfl, rfl⟩

theorem draws_emitVertex (t : SphereCaches) (radius : ℚ) (slices stacks' : Int)
    (hF : t.Filled radius slices stacks') (hs : slices < 240) (i : Int) (h0 : 0 ≤ i)
    (h1 : i ≤ slices) (s z : F64) :
    Draws (emitVertex t i s z) [.Vertex3d
      (.mul s (.sin (sliceAngle slices (if i = slices then 0 else i))))
      (.mul s (.cos (sliceAngle slices (if i = slices then 0 else i)))) z] := fun st =>
  ⟨_, _, emitVertex_ok t radius slices stacks' hF hs i h0 h1 s z st, rfl, rfl⟩

theorem draws_skip : Draws (fun st => pure st) [] := fun st => ⟨st, [], rfl, by simp, rfl⟩

theorem except_ok_bind {α β : Type} (a : α) (f : α → Except Err β) :
    (Except.ok a >>= f) = f a := rfl

theorem draws_step (r : Except Err SphereDraw) (n : SphereDraw → Except Err SphereDraw)
    (st : SphereDraw) (a b l : List GLCmd) (hl : a ++ b = l)
    (hr : ∃ st1 k, r = .ok st1 ∧ st1.cmds = st.cmds ++ k ∧ shape k = a) (hn : Draws n b) :
    ∃ st1 k, (r >>= n) = .ok st1 ∧ st1.cmds = st.cmds ++ k ∧ shape k = l := by
  obtain ⟨s1, k1, h1, e1, p1⟩ := hr
  obtain ⟨s2, k2, h2, e2, p2⟩ := hn s1
  refine ⟨s2, k1 ++ k2, ?_, by rw [e2, e1, List.append_assoc], by rw [shape_append, p1, p2, hl]⟩
  rw [h1]; exact h2

theorem draws_fanVertexUp (qobj : Quadric) (t : SphereCaches) (radius : ℚ)
    (slices stacks' : Int) (hF : t.Filled radius slices stacks') (hs : slices < 240)
    (hN : qobj.Normals = GLU_SMOOTH ∨ qobj.Normals = GLU_FLAT) (s z : F64) (i : Int)
    (h0 : 0 ≤ i) (h1 : i ≤ slices) :
    Draws (fanVertexUp qobj t s z i) [.Vertex3d
      (.mul s (.sin (sliceAngle slices (if i = slices then 0 else i))))
      (.mul s (.cos (sliceAngle slices (if i = slices then 0 else i)))) z] := by
  have hi : i < 240 := by omega
  have hV := draws_emitVertex t radius slices stacks' hF hs i h0 h1 s z
  intro st
  unfold fanVertexUp
  dsimp only
  rcases hN with hN | hN
  · simp only [if_pos hN]
    exact draws_step _ _ st [] _ _ rfl
      (draws_emitNormal _ _ hF.sized.sin2a hF.sized.cos2a i h0 hi _ _ st) hV
  · simp only [if_neg (show ¬ qobj.Normals = GLU_SMOOTH by rw [hN]; exact smooth_ne_flat.symm),
      if_pos hN]
    exact draws_step _ _ st [] _ _ rfl
      (draws_emitNormal _ _ hF.sized.sin3a hF.sized.cos3a i h0 hi _ _ st) hV

theorem draws_fanVertexDown (qobj : Quadric) (t : SphereCaches) (radius : ℚ)
    (slices stacks' : Int) (hF : t.Filled radius slices stacks') (hs : slices < 240)
    (hN : qobj.Normals = GLU_SMOOTH ∨ qobj.Normals = GLU_FLAT) (s z : F64) (i : Int)
    (h0 : 0 ≤ i) (h1 : i ≤ slices) :
    Draws (fanVertexDown qobj t slices s z i) [.Vertex3d
      (.mul s (.sin (sliceAngle slices (if i = slices then 0 else i))))
      (.mul s (.cos (sliceAngle slices (if i = slices then 0 else i)))) z] := by
  have hi : i < 240 := by omega
  have hV := draws_emitVertex t radius slices stacks' hF hs i h0 h1 s z
  intro st
  unfold fanVertexDown
  dsimp only
  rcases hN with hN | hN
  · simp only [if_pos hN]
    exact draws_step _ _ st [] _ _ rfl
      (draws_emitNormal _ _ hF.sized.sin2a hF.sized.cos2a i h0 hi _ _ st) hV
  · simp only [if_neg (show ¬ qobj.Normals = GLU_SMOOTH by rw [hN]; exact smooth_ne_flat.symm),
      if_pos hN]
    by_cases hi2 : i = slices
    · rw [if_neg (not_not.mpr hi2)]
      exact draws_step _ _ st [] _ _ rfl (draws_skip st) hV
    · rw [if_pos hi2]
      exact draws_step _ _ st [] _ _ rfl
        (draws_emitNormal _ _ hF.sized.sin3a hF.sized.cos3a (i + 1) (by omega) (by omega) _ _ st)
        hV

theorem flatMap_single {α β : Type} (l : List α) (g : α → β) :
    l.flatMap (fun m => [g m]) = l.map g := by
  induction l with
  | nil => rfl
  | cons a l ih => simp [List.flatMap_cons, ih]

theorem forRange_eq {σ : Type} (lo hi : Int) (body : Int → σ → Except Err σ) :
    forRange lo hi body = forIdx (hi - lo).toNat lo body := rfl

theorem forDownTo_eq {σ : Type} (hi lo : Int) (body : Int → σ → Except Err σ) :
    forDownTo hi lo body = forDown (hi - lo + 1).toNat hi body := rfl

theorem draws_fanUp (qobj : Quadric) (t : SphereCaches) (radius : ℚ)
    (slices stacks' : Int) (hF : t.Filled radius slices stacks') (hs : slices < 240)
    (hN : qobj.Normals = GLU_SMOOTH ∨ qobj.Normals = GLU_FLAT) (s z : F64) :
    Draws (forRange 0 (slices + 1) (fanVertexUp qobj t s z))
      ((slicesUp slices).map (fun i => .Vertex3d
        (.mul s (.sin (sliceAngle slices (if i = slices then 0 else i))))
        (.mul s (.cos (sliceAngle slices (if i = slices then 0 else i)))) z)) := by
  have h := draws_forIdx (fanVertexUp qobj t s z) (fun i => [.Vertex3d
        (.mul s (.sin (sliceAngle slices (if i = slices then 0 else i))))
        (.mul s (.cos (sliceAngle slices (if i = slices then 0 else i)))) z])
      (slices + 1 - 0).toNat 0 (fun m hm =>
        draws_fanVertexUp qobj t radius slices stacks' hF hs hN s z (0 + (m : Int))
          (by omega) (by omega))
  rw [flatMap_single (List.range _) (fun m : Nat => GLCmd.Vertex3d
        (.mul s (.sin (sliceAngle slices (if 0 + (m : Int) = slices then 0 else 0 + (m : Int)))))
        (.mul s (.cos (sliceAngle slices (if 0 + (m : Int) = slices then 0 else 0 + (m : Int)))))
        z)] at h
  simp only [zero_add, sub_zero] at h
  unfold slicesUp
  rw [List.map_map, forRange_eq, sub_zero]
  exact h

theorem draws_fanDown (qobj : Quadric) (t : SphereCaches) (radius : ℚ)
    (slices stacks' : Int) (hF : t.Filled radius slices stacks') (hs : slices < 240)
    (hN : qobj.Normals = GLU_SMOOTH ∨ qobj.Normals = GLU_FLAT) (s z : F64) :
    Draws (forDownTo slices 0 (fanVertexDown qobj t slices s z))
      ((slicesDown slices).map (fun i => .Vertex3d
        (.mul s (.sin (sliceAngle slices (if i = slices then 0 else i))))
        (.mul s (.cos (sliceAngle slices (if i = slices then 0 else i)))) z)) := by
  have h := draws_forDown (fanVertexDown qobj t slices s z) (fun i => [.Vertex3d
        (.mul s (.sin (sliceAngle slices (if i = slices then 0 else i))))
        (.mul s (.cos (sliceAngle slices (if i = slices then 0 else i)))) z])
      (slices - 0 + 1).toNat slices (fun m hm =>
        draws_fanVertexDown qobj t radius slices stacks' hF hs hN s z (slices - (m : Int))
          (by omega) (by omega))
  rw [flatMap_single (List.range _) (fun m : Nat => GLCmd.Vertex3d
        (.mul s (.sin (sliceAngle slices
          (if slices - (m : Int) = slices then 0 else slices - (m : Int)))))
        (.mul s (.cos (sliceAngle slices
          (if slices - (m : Int) = slices then 0 else slices - (m : Int)))))
        z)] at h
  simp only [sub_zero] at h
  unfold slicesDown
  rw [List.map_map, forDownTo_eq, sub_zero]
  exact h

theorem draws_after (m : SphereDraw → Except Err SphereDraw) (l : List GLCmd) (h : Draws m l)
    (st st0 : SphereDraw) (pre : List GLCmd) (hst : st0.cmds = st.cmds ++ pre)
    (hpre : shape pre = []) :
    ∃ st1 k, m st0 = .ok st1 ∧ st1.cmds = st.cmds ++ k ∧ shape k = l := by
  obtain ⟨s1, k, h1, e1, p1⟩ := h st0
  exact ⟨s1, pre ++ k, h1, by rw [e1, hst, List.append_assoc], by rw [shape_append, hpre, p1]; rfl⟩

theorem draws_fanRest (loop : SphereDraw → Except Err SphereDraw) (apex : F64)
    (rim : List GLCmd) (hloop : Draws loop rim) :
    Draws (fun st => loop (emit (.Vertex3d (.lit 0) (.lit 0) apex)
        (emit (.Begin gl.TRIANGLE_FAN) st)) >>= fun y => pure (emit .End y))
      ([.Begin gl.TRIANGLE_FAN, .Vertex3d (.lit 0) (.lit 0) apex] ++ rim ++ [.End]) := by
  intro st
  obtain ⟨s1, k, h1, e1, p1⟩ := hloop (emit (.Vertex3d (.lit 0) (.lit 0) apex)
    (emit (.Begin gl.TRIANGLE_FAN) st))
  refine ⟨emit .End s1,
    [.Begin gl.TRIANGLE_FAN, .Vertex3d (.lit 0) (.lit 0) apex] ++ k ++ [.End], ?_, ?_, ?_⟩
  · show (loop _ >>= _) = _
    rw [h1]; rfl
  · simp [emit, e1]
  · rw [shape_append, shape_append, p1]; rfl

theorem draws_lowFan (qobj : Quadric) (t : SphereCaches) (radius : ℚ)
    (slices stacks' : Int) (hF : t.Filled radius slices stacks') (hs : slices < 240)
    (ht0 : 1 ≤ stacks')
    (hN : qobj.Normals = GLU_SMOOTH ∨ qobj.Normals = GLU_FLAT) :
    Draws (sphereLowFan qobj t radius slices)
      (fanShape radius slices stacks' (.lit radius) 1
        (if qobj.Orientation = GLU_OUTSIDE then slicesDown slices else slicesUp slices)) := by
  intro st
  have g1 := cacheGet_ok _ 1 hF.sized.sin1b (by norm_num) (by norm_num)
  have g2 := cacheGet_ok _ 1 hF.sized.cos1b (by norm_num) (by norm_num)
  have g3 := cacheGet_ok _ 1 hF.sized.sin3b (by norm_num) (by norm_num)
  have g4 := cacheGet_ok _ 1 hF.sized.cos3b (by norm_num) (by norm_num)
  have g5 := cacheGet_ok _ 1 hF.sized.sin2b (by norm_num) (by norm_num)
  have g6 := cacheGet_ok _ 1 hF.sized.cos2b (by norm_num) (by norm_num)
  have g7 := cacheGet_ok _ 0 hF.sized.sin2a (by norm_num) (by norm_num)
  have g8 := cacheGet_ok _ 0 hF.sized.cos2a (by norm_num) (by norm_num)
  have g9 := cacheGet_ok _ 0 hF.sized.sin2b (by norm_num) (by norm_num)
  have g10 := cacheGet_ok _ 0 hF.sized.cos2b (by norm_num) (by norm_num)
  have r1 := hF.ringSin 1 (by norm_num) ht0
  have r2 := hF.ringCos 1 (by norm_num) ht0
  unfold sphereLowFan fanShape
  dsimp only
  simp only [g1, g2, g3, g4, g5, g6, g7, g8, g9, g10, except_ok_bind, pure_bind, r1, r2]
  by_cases ho : qobj.Orientation = GLU_OUTSIDE
  · simp only [if_pos ho]
    have hl := draws_fanRest _ (.lit radius) _ (draws_fanDown qobj t radius slices stacks' hF hs hN
      (ringRadius radius stacks' 1) (.mul (.lit radius) (.cos (stackAngle stacks' 1))))
    rcases hN with hN | hN
    · simp only [if_neg (show ¬ qobj.Normals = GLU_FLAT by rw [hN]; exact smooth_ne_flat),
        if_pos hN]
      exact draws_after _ _ hl st _ [_] rfl rfl
    · simp only [if_pos hN]
      exact draws_after _ _ hl st _ [] (List.append_nil _).symm rfl
  · simp only [if_neg ho]
    have hl := draws_fanRest _ (.lit radius) _ (draws_fanUp qobj t radius slices stacks' hF hs hN
      (ringRadius radius stacks' 1) (.mul (.lit radius) (.cos (stackAngle stacks' 1))))
    rcases hN with hN | hN
    · simp only [if_neg (show ¬ qobj.Normals = GLU_FLAT by rw [hN]; exact smooth_ne_flat),
        if_pos hN]
      exact draws_after _ _ hl st _ [_] rfl rfl
    · simp only [if_pos hN]
      exact draws_after _ _ hl st _ [] (List.append_nil _).symm rfl

theorem draws_highFan (qobj : Quadric) (t : SphereCaches) (radius : ℚ)
    (slices stacks' : Int) (hF : t.Filled radius slices stacks') (hs : slices < 240)
    (ht0 : 1 ≤ stacks') (ht1 : stacks' < 240)
    (hN : qobj.Normals = GLU_SMOOTH ∨ qobj.Normals = GLU_FLAT) :
    Draws (sphereHighFan qobj t radius slices stacks')
      (fanShape radius slices stacks' (.neg (.lit radius)) (stacks' - 1)
        (if qobj.Orientation = GLU_OUTSIDE then slicesUp slices else slicesDown slices)) := by
  intro st
  have g1 := cacheGet_ok _ (stacks' - 1) hF.sized.sin1b (by omega) (by omega)
  have g2 := cacheGet_ok _ (stacks' - 1) hF.sized.cos1b (by omega) (by omega)
  have g3 := cacheGet_ok _ stacks' hF.sized.sin3b (by omega) (by omega)
  have g4 := cacheGet_ok _ stacks' hF.sized.cos3b (by omega) (by omega)
  have g5 := cacheGet_ok _ (stacks' - 1) hF.sized.sin2b (by omega) (by omega)
  have g6 := cacheGet_ok _ (stacks' - 1) hF.sized.cos2b (by omega) (by omega)
  have g7 := cacheGet_ok _ stacks' hF.sized.sin2a (by omega) (by omega)
  have g8 := cacheGet_ok _ stacks' hF.sized.cos2a (by omega) (by omega)
  have g9 := cacheGet_ok _ stacks' hF.sized.sin2b (by omega) (by omega)
  have g10 := cacheGet_ok _ stacks' hF.sized.cos2b (by omega) (by omega)
  have r1 := hF.ringSin (stacks' - 1) (by omega) (by omega)
  have r2 := hF.ringCos (stacks' - 1) (by omega) (by omega)
  unfold sphereHighFan fanShape
  dsimp only
  simp only [g1, g2, g3, g4, g5, g6, g7, g8, g9, g10, except_ok_bind, pure_bind, r1, r2]
  by_cases ho : qobj.Orientation = GLU_OUTSIDE
  · simp only [if_pos ho]
    have hl := draws_fanRest _ (.neg (.lit radius)) _
      (draws_fanUp qobj t radius slices stacks' hF hs hN (ringRadius radius stacks' (stacks' - 1))
        (.mul (.lit radius) (.cos (stackAngle stacks' (stacks' - 1)))))
    rcases hN with hN | hN
    · simp only [if_neg (show ¬ qobj.Normals = GLU_FLAT by rw [hN]; exact smooth_ne_flat),
        if_pos hN]
      exact draws_after _ _ hl st _ [_] rfl rfl
    · simp only [if_pos hN]
      exact draws_after _ _ hl st _ [] (List.append_nil _).symm rfl
  · simp only [if_neg ho]
    have hl := draws_fanRest _ (.neg (.lit radius)) _
      (draws_fanDown qobj t radius slices stacks' hF hs hN (ringRadius radius stacks' (stacks' - 1))
        (.mul (.lit radius) (.cos (stackAngle stacks' (stacks' - 1)))))
    rcases hN with hN | hN
    · simp only [if_neg (show ¬ qobj.Normals = GLU_FLAT by rw [hN]; exact smooth_ne_flat),
        if_pos hN]
      exact draws_after _ _ hl st _ [_] rfl rfl
    · simp only [if_pos hN]
      exact draws_after _ _ hl st _ [] (List.append_nil _).symm rfl

theorem draws_texVertex (qobj : Quadric) (t : SphereCaches) (radius : ℚ)
    (slices stacks' : Int) (hF : t.Filled radius slices stacks') (hs : slices < 240)
    (i : Int) (h0 : 0 ≤ i) (h1 : i ≤ slices) (j : Int) :
    Draws (fun st => emitVertex t i (ringRadius radius stacks' j)
        (.mul (.lit radius) (.cos (stackAngle stacks' j)))
        (emitTexCoord qobj slices stacks' i j st))
      (texVertex qobj radius slices stacks' j i) := by
  intro st
  dsimp only
  rw [emitVertex_ok t radius slices stacks' hF hs i h0 h1]
  unfold emitTexCoord texVertex
  by_cases hT : qobj.TextureCoords = true
  · simp only [hT, if_true]
    exact ⟨_, [texCoord slices stacks' i j, ringVertex radius slices stacks' j i], rfl,
      by simp [emit, texCoord, ringVertex], rfl⟩
  · simp only [hT, if_false]
    exact ⟨_, [_], rfl, rfl, rfl⟩

theorem draws_stripVertexPair (qobj : Quadric) (t : SphereCaches) (radius : ℚ)
    (slices stacks' : Int) (hF : t.Filled radius slices stacks') (hs : slices < 240)
    (hN : qobj.Normals = GLU_SMOOTH ∨ qobj.Normals = GLU_FLAT) (j i : Int)
    (h0 : 0 ≤ i) (h1 : i ≤ slices) :
    Draws (stripVertexPair qobj t slices stacks' j
        (.mul (.lit radius) (.cos (stackAngle stacks' j)))
        (.mul (.lit radius) (.cos (stackAngle stacks' (j + 1))))
        (ringRadius radius stacks' j) (ringRadius radius stacks' (j + 1)) i)
      (if qobj.Orientation = GLU_OUTSIDE then
        texVertex qobj radius slices stacks' (j + 1) i ++ texVertex qobj radius slices stacks' j i
      else
        texVertex qobj radius slices stacks' j i ++
          texVertex qobj radius slices stacks' (j + 1) i) := by
  have hi : i < 240 := by omega
  have hA := draws_texVertex qobj t radius slices stacks' hF hs i h0 h1 j
  have hB := draws_texVertex qobj t radius slices stacks' hF hs i h0 h1 (j + 1)
  intro st
  unfold stripVertexPair
  dsimp only
  by_cases ho : qobj.Orientation = GLU_OUTSIDE
  · simp only [if_pos ho]
    rcases hN with hN | hN
    · simp only [if_pos hN]
      exact draws_step _ _ st [] _ _ rfl
        (draws_emitNormal _ _ hF.sized.sin2a hF.sized.cos2a i h0 hi _ _ st)
        (fun st => draws_step _ _ st (texVertex qobj radius slices stacks' (j + 1) i)
          (texVertex qobj radius slices stacks' j i) _ rfl (hB st)
          (fun st => draws_step _ _ st [] _ _ rfl
            (draws_emitNormal _ _ hF.sized.sin2a hF.sized.cos2a i h0 hi _ _ st) hA))
    · simp only [if_neg (show ¬ qobj.Normals = GLU_SMOOTH by rw [hN]; exact smooth_ne_flat.symm),
        if_pos hN, if_pos (show qobj.Normals = GLU_FLAT ∨ qobj.Normals = GLU_NONE from Or.inl hN),
        pure_bind]
      exact draws_step _ _ st (texVertex qobj radius slices stacks' (j + 1) i)
          (texVertex qobj radius slices stacks' j i) _ rfl (hB st)
          (fun st => draws_step _ _ st [] _ _ rfl
            (draws_emitNormal _ _ hF.sized.sin3a hF.sized.cos3a i h0 hi _ _ st) hA)
  · simp only [if_neg ho]
    rcases hN with hN | hN
    · simp only [if_pos hN]
      exact draws_step _ _ st [] _ _ rfl
        (draws_emitNormal _ _ hF.sized.sin2a hF.sized.cos2a i h0 hi _ _ st)
        (fun st => draws_step _ _ st (texVertex qobj radius slices stacks' j i)
          (texVertex qobj radius slices stacks' (j + 1) i) _ rfl (hA st)
          (fun st => draws_step _ _ st [] _ _ rfl
            (draws_emitNormal _ _ hF.sized.sin2a hF.sized.cos2a i h0 hi _ _ st) hB))
    · simp only [if_neg (show ¬ qobj.Normals = GLU_SMOOTH by rw [hN]; exact smooth_ne_flat.symm),
        if_pos hN, if_pos (show qobj.Normals = GLU_FLAT ∨ qobj.Normals = GLU_NONE from Or.inl hN),
        pure_bind]
      exact draws_step _ _ st (texVertex qobj radius slices stacks' j i)
          (texVertex qobj radius slices stacks' (j + 1) i) _ rfl (hA st)
          (fun st => draws_step _ _ st [] _ _ rfl
            (draws_emitNormal _ _ hF.sized.sin3a hF.sized.cos3a i h0 hi _ _ st) hB)

theorem flatMap_map_eq {α β γ : Type} (l : List α) (g : α → β) (f : β → List γ) :
    (l.map g).flatMap f = l.flatMap (fun a => f (g a)) := by
  induction l with
  | nil => rfl
  | cons a l ih => simp [List.flatMap_cons, ih]

theorem draws_stripRest (loop : SphereDraw → Except Err SphereDraw) (body : List GLCmd)
    (hloop : Draws loop body) :
    Draws (fun st => loop (emit (.Begin gl.QUAD_STRIP) st) >>= fun y => pure (emit .End y))
      ([.Begin gl.QUAD_STRIP] ++ body ++ [.End]) := by
  intro st
  obtain ⟨s1, k, h1, e1, p1⟩ := hloop (emit (.Begin gl.QUAD_STRIP) st)
  refine ⟨emit .End s1, [.Begin gl.QUAD_STRIP] ++ k ++ [.End], ?_, ?_, ?_⟩
  · show (loop _ >>= _) = _
    rw [h1]; rfl
  · simp [emit, e1]
  · rw [shape_append, shape_append, p1]; rfl

theorem draws_strip (qobj : Quadric) (t : SphereCaches) (radius : ℚ)
    (slices stacks' : Int) (hF : t.Filled radius slices stacks') (hs : slices < 240)
    (ht1 : stacks' < 240) (hN : qobj.Normals = GLU_SMOOTH ∨ qobj.Normals = GLU_FLAT)
    (j : Int) (hj0 : 0 ≤ j) (hj1 : j + 1 ≤ stacks') :
    Draws (sphereStrip qobj t slices stacks' j) (stripShape qobj radius slices stacks' j) := by
  have hloop : Draws (forRange 0 (slices + 1) (stripVertexPair qobj t slices stacks' j
        (.mul (.lit radius) (.cos (stackAngle stacks' j)))
        (.mul (.lit radius) (.cos (stackAngle stacks' (j + 1))))
        (ringRadius radius stacks' j) (ringRadius radius stacks' (j + 1))))
      ((slicesUp slices).flatMap (fun (i : Int) =>
        if qobj.Orientation = GLU_OUTSIDE then
          texVertex qobj radius slices stacks' (j + 1) i ++
            texVertex qobj radius slices stacks' j i
        else
          texVertex qobj radius slices stacks' j i ++
            texVertex qobj radius slices stacks' (j + 1) i)) := by
    have h := draws_forIdx (stripVertexPair qobj t slices stacks' j
        (.mul (.lit radius) (.cos (stackAngle stacks' j)))
        (.mul (.lit radius) (.cos (stackAngle stacks' (j + 1))))
        (ringRadius radius stacks' j) (ringRadius radius stacks' (j + 1)))
      (fun (i : Int) =>
        if qobj.Orientation = GLU_OUTSIDE then
          texVertex qobj radius slices stacks' (j + 1) i ++
            texVertex qobj radius slices stacks' j i
        else
          texVertex qobj radius slices stacks' j i ++
            texVertex qobj radius slices stacks' (j + 1) i)
      (slices + 1 - 0).toNat 0 (fun m hm =>
        draws_stripVertexPair qobj t radius slices stacks' hF hs hN j (0 + (m : Int))
          (by omega) (by omega))
    simp only [zero_add, sub_zero] at h
    unfold slicesUp
    rw [flatMap_map_eq, forRange_eq, sub_zero]
    exact h
  have hl := draws_stripRest _ _ hloop
  intro st
  have g1 := cacheGet_ok _ j hF.sized.cos1b hj0 (by omega)
  have g2 := cacheGet_ok _ (j + 1) hF.sized.cos1b (by omega) (by omega)
  have g3 := cacheGet_ok _ j hF.sized.sin1b hj0 (by omega)
  have g4 := cacheGet_ok _ (j + 1) hF.sized.sin1b (by omega) (by omega)
  have g5 := cacheGet_ok _ (j + 1) hF.sized.sin3b (by omega) (by omega)
  have g6 := cacheGet_ok _ (j + 1) hF.sized.cos3b (by omega) (by omega)
  have g7 := cacheGet_ok _ (j + 1) hF.sized.sin2b (by omega) (by omega)
  have g8 := cacheGet_ok _ (j + 1) hF.sized.cos2b (by omega) (by omega)
  have g9 := cacheGet_ok _ j hF.sized.sin2b hj0 (by omega)
  have g10 := cacheGet_ok _ j hF.sized.cos2b hj0 (by omega)
  have r1 := hF.ringSin j hj0 (by omega)
  have r2 := hF.ringCos j hj0 (by omega)
  have r3 := hF.ringSin (j + 1) (by omega) hj1
  have r4 := hF.ringCos (j + 1) (by omega) hj1
  unfold sphereStrip stripShape
  dsimp only
  simp only [g1, g2, g3, g4, g5, g6, g7, g8, g9, g10, except_ok_bind, pure_bind, r1, r2, r3, r4]
  rcases hN with hN | hN
  · simp only [if_neg (show ¬ qobj.Normals = GLU_FLAT by rw [hN]; exact smooth_ne_flat),
      if_pos hN]
    by_cases ho : qobj.Orientation = GLU_OUTSIDE
    · simp only [if_pos ho] at hl ⊢
      exact draws_after _ _ hl st _ [] (List.append_nil _).symm rfl
    · simp only [if_neg ho] at hl ⊢
      exact draws_after _ _ hl st _ [] (List.append_nil _).symm rfl
  · simp only [if_pos hN]
    exact draws_after _ _ hl st _ [] (List.append_nil _).symm rfl

theorem draws_sphereFill (qobj : Quadric) (t : SphereCaches) (radius : ℚ)
    (slices stacks' : Int) (hF : t.Filled radius slices stacks') (hs : slices < 240)
    (ht0 : 1 ≤ stacks') (ht1 : stacks' < 240)
    (hN : qobj.Normals = GLU_SMOOTH ∨ qobj.Normals = GLU_FLAT) :
    Draws (sphereFill qobj t radius slices stacks') (sphereShape qobj radius slices stacks') := by
  by_cases hT : qobj.TextureCoords = true
  · have h := draws_forIdx (sphereStrip qobj t slices stacks')
      (stripShape qobj radius slices stacks') (stacks' - 0).toNat 0 (fun m hm =>
        draws_strip qobj t radius slices stacks' hF hs ht1 hN (0 + (m : Int))
          (by omega) (by omega))
    simp only [zero_add, sub_zero] at h
    intro st
    unfold sphereFill sphereShape
    simp only [hT, Bool.not_true, if_true, Bool.false_eq_true, if_false]
    rw [forRange_eq, sub_zero]
    exact h st
  · have h := draws_forIdx (sphereStrip qobj t slices stacks')
      (stripShape qobj radius slices stacks') (stacks' - 1 - 1).toNat 1 (fun m hm =>
        draws_strip qobj t radius slices stacks' hF hs ht1 hN (1 + (m : Int))
          (by omega) (by omega))
    have e : stacks' - 1 - 1 = stacks' - 2 := by ring
    rw [e] at h
    have h2 := draws_bind _ _ _ _ (draws_lowFan qobj t radius slices stacks' hF hs ht0 hN)
      (draws_bind _ _ _ _ (draws_highFan qobj t radius slices stacks' hF hs ht0 ht1 hN) h)
    intro st
    unfold sphereFill sphereShape
    simp only [hT, Bool.not_false, if_true, Bool.false_eq_true, if_false]
    rw [forRange_eq, e, List.append_assoc]
    exact h2 st

theorem except_error_bind {α β : Type} (e : Err) (f : α → Except Err β) :
    (Except.error e >>= f) = .error e := rfl

theorem gluSphere_eq (qobj : Quadric) (radius : ℚ) (slices stacks' : Int) :
    gluSphere qobj radius slices stacks' =
      if clampCache slices < 2 ∨ clampCache stacks' < 1 ∨ radius < 0 then
        .error .assertFailed
      else
        sphereCaches qobj
          (decide (qobj.Normals = GLU_SMOOTH) ||
            (decide (qobj.Normals = GLU_FLAT) && decide (qobj.DrawStyle = GLU_LINE)))
          (decide (qobj.Normals = GLU_FLAT) && decide (qobj.DrawStyle ≠ GLU_POINT))
          radius (clampCache slices) (clampCache stacks') >>= fun t =>
        if qobj.DrawStyle = GLU_FILL then
          sphereFill qobj t radius (clampCache slices) (clampCache stacks')
            { sintemp3 := .lit 0, costemp3 := .lit 0, sintemp4 := .lit 0, costemp4 := .lit 0,
              cmds := [] } >>= fun st => pure st.cmds
        else .error .assertFailed := by
  have ha : assert false = .error .assertFailed := rfl
  unfold gluSphere clampCache
  dsimp only
  simp only [ha, except_error_bind, pure_bind]

theorem clampCache_lt (n : Int) : clampCache n < 240 := by
  unfold clampCache CACHE_SIZE
  split <;> omega

theorem clampCache_le_iff (n k : Int) (hk : k ≤ 239) : k ≤ clampCache n ↔ k ≤ n := by
  unfold clampCache CACHE_SIZE
  split <;> omega

theorem gluSphere_bad_args (qobj : Quadric) (radius : ℚ) (slices stacks' : Int)
    (h : slices < 2 ∨ stacks' < 1 ∨ radius < 0) :
    gluSphere qobj radius slices stacks' = .error .assertFailed := by
  rw [gluSphere_eq, if_pos]
  rcases h with h | h | h
  · exact Or.inl (by
      have := clampCache_le_iff slices 2 (by norm_num)
      omega)
  · exact Or.inr (Or.inl (by
      have := clampCache_le_iff stacks' 1 (by norm_num)
      omega))
  · exact Or.inr (Or.inr h)

theorem gluSphere_good_args (slices stacks' : Int) (radius : ℚ) (hs : 2 ≤ slices)
    (ht : 1 ≤ stacks') (hr : 0 ≤ radius) :
    ¬ (clampCache slices < 2 ∨ clampCache stacks' < 1 ∨ radius < 0) := by
  have h1 := (clampCache_le_iff slices 2 (by norm_num)).mpr hs
  have h2 := (clampCache_le_iff stacks' 1 (by norm_num)).mpr ht
  rintro (h | h | h)
  · omega
  · omega
  · exact absurd hr (not_le.mpr h)

theorem gluSphere_bad_style (qobj : Quadric) (radius : ℚ) (slices stacks' : Int)
    (hs : 2 ≤ slices) (ht : 1 ≤ stacks') (hr : 0 ≤ radius) (hD : qobj.DrawStyle ≠ GLU_FILL) :
    gluSphere qobj radius slices stacks' = .error .assertFailed := by
  rw [gluSphere_eq, if_neg (gluSphere_good_args slices stacks' radius hs ht hr)]
  obtain ⟨t, hok, _⟩ := sphereCaches_ok qobj
    (decide (qobj.Normals = GLU_SMOOTH) ||
      (decide (qobj.Normals = GLU_FLAT) && decide (qobj.DrawStyle = GLU_LINE)))
    (decide (qobj.Normals = GLU_FLAT) && decide (qobj.DrawStyle ≠ GLU_POINT))
    radius (clampCache slices) (clampCache stacks')
    (by have := (clampCache_le_iff slices 2 (by norm_num)).mpr hs; omega) (clampCache_lt _)
    ((clampCache_le_iff stacks' 1 (by norm_num)).mpr ht) (clampCache_lt _)
  rw [hok, except_ok_bind, if_neg hD]

theorem sphereFill_bad_normals (qobj : Quadric) (t : SphereCaches) (radius : ℚ)
    (slices stacks' : Int) (hF : t.Filled radius slices stacks')
    (ht0 : 1 ≤ stacks') (ht1 : stacks' < 240)
    (hN : ¬ (qobj.Normals = GLU_SMOOTH ∨ qobj.Normals = GLU_FLAT)) (st : SphereDraw) :
    sphereFill qobj t radius slices stacks' st = .error .assertFailed := by
  have hN1 : ¬ qobj.Normals = GLU_SMOOTH := fun h => hN (Or.inl h)
  have hN2 : ¬ qobj.Normals = GLU_FLAT := fun h => hN (Or.inr h)
  unfold sphereFill
  by_cases hT : qobj.TextureCoords = true
  · simp only [hT, Bool.not_true, Bool.false_eq_true, if_false]
    have g1 := cacheGet_ok _ 0 hF.sized.cos1b (by norm_num) (by norm_num)
    have g2 := cacheGet_ok _ (0 + 1) hF.sized.cos1b (by norm_num) (by norm_num)
    have g3 := cacheGet_ok _ 0 hF.sized.sin1b (by norm_num) (by norm_num)
    have g4 := cacheGet_ok _ (0 + 1) hF.sized.sin1b (by norm_num) (by norm_num)
    have hb : sphereStrip qobj t slices stacks' 0 st = .error .assertFailed := by
      unfold sphereStrip
      dsimp only
      simp only [g1, g2, g3, g4, except_ok_bind, if_neg hN1, if_neg hN2]
      rfl
    obtain ⟨n, hn⟩ : ∃ n : Nat, (stacks' - 0).toNat = n + 1 :=
      ⟨(stacks' - 0).toNat - 1, by omega⟩
    rw [forRange_eq, hn]
    show (sphereStrip qobj t slices stacks' 0 st >>= _) = _
    rw [hb]
    rfl
  · simp only [hT, Bool.not_false, if_true]
    have g1 := cacheGet_ok _ 1 hF.sized.sin1b (by norm_num) (by norm_num)
    have g2 := cacheGet_ok _ 1 hF.sized.cos1b (by norm_num) (by norm_num)
    have hb : sphereLowFan qobj t radius slices st = .error .assertFailed := by
      unfold sphereLowFan
      dsimp only
      simp only [g1, g2, except_ok_bind, if_neg hN1, if_neg hN2]
      rfl
    rw [hb]
    rfl

theorem gluSphere_bad_normals (qobj : Quadric) (radius : ℚ) (slices stacks' : Int)
    (hs : 2 ≤ slices) (ht : 1 ≤ stacks') (hr : 0 ≤ radius)
    (hN : ¬ (qobj.Normals = GLU_SMOOTH ∨ qobj.Normals = GLU_FLAT)) :
    gluSphere qobj radius slices stacks' = .error .assertFailed := by
  by_cases hD : qobj.DrawStyle = GLU_FILL
  · rw [gluSphere_eq, if_neg (gluSphere_good_args slices stacks' radius hs ht hr)]
    obtain ⟨t, hok, hF⟩ := sphereCaches_ok qobj
      (decide (qobj.Normals = GLU_SMOOTH) ||
        (decide (qobj.Normals = GLU_FLAT) && decide (qobj.DrawStyle = GLU_LINE)))
      (decide (qobj.Normals = GLU_FLAT) && decide (qobj.DrawStyle ≠ GLU_POINT))
      radius (clampCache slices) (clampCache stacks')
      (by have := (clampCache_le_iff slices 2 (by norm_num)).mpr hs; omega) (clampCache_lt _)
      ((clampCache_le_iff stacks' 1 (by norm_num)).mpr ht) (clampCache_lt _)
    rw [hok, except_ok_bind, if_pos hD,
      sphereFill_bad_normals qobj t radius _ _ hF
        ((clampCache_le_iff stacks' 1 (by norm_num)).mpr ht) (clampCache_lt _) hN]
    rfl
  · exact gluSphere_bad_style qobj radius slices stacks' hs ht hr hD

theorem gluSphere_good (qobj : Quadric) (radius : ℚ) (slices stacks' : Int)
    (hs : 2 ≤ slices) (ht : 1 ≤ stacks') (hr : 0 ≤ radius) (hD : qobj.DrawStyle = GLU_FILL)
    (hN : qobj.Normals = GLU_SMOOTH ∨ qobj.Normals = GLU_FLAT) :
    ∃ cmds, gluSphere qobj radius slices stacks' = .ok cmds ∧
      shape cmds = sphereShape qobj radius (clampCache slices) (clampCache stacks') := by
  rw [gluSphere_eq, if_neg (gluSphere_good_args slices stacks' radius hs ht hr)]
  obtain ⟨t, hok, hF⟩ := sphereCaches_ok qobj
    (decide (qobj.Normals = GLU_SMOOTH) ||
      (decide (qobj.Normals = GLU_FLAT) && decide (qobj.DrawStyle = GLU_LINE)))
    (decide (qobj.Normals = GLU_FLAT) && decide (qobj.DrawStyle ≠ GLU_POINT))
    radius (clampCache slices) (clampCache stacks')
    (by have := (clampCache_le_iff slices 2 (by norm_num)).mpr hs; omega) (clampCache_lt _)
    ((clampCache_le_iff stacks' 1 (by norm_num)).mpr ht) (clampCache_lt _)
  obtain ⟨st1, k, h1, e1, p1⟩ := draws_sphereFill qobj t radius _ _ hF (clampCache_lt _)
    ((clampCache_le_iff stacks' 1 (by norm_num)).mpr ht) (clampCache_lt _) hN
    { sintemp3 := .lit 0, costemp3 := .lit 0, sintemp4 := .lit 0, costemp4 := .lit 0,
      cmds := [] }
  rw [hok, except_ok_bind, if_pos hD, h1]
  refine ⟨st1.cmds, rfl, ?_⟩
  rw [e1, List.nil_append, p1]

theorem run_lift_ok_bind {α β : Type} (a : α) (f : α → GLM β) (s : GLState) :
    (GLM.lift (Except.ok a) >>= f) s = f a s := rfl

theorem run_PixelStorei_bind {β : Type} (pname param : Int) (f : Unit → GLM β) (s : GLState) :
    (PixelStorei pname param >>= f) s = f () (storei pname param s) := rfl

theorem run_retrieve_bind {β : Type} (f : PixelStorageMode → GLM β) (s : GLState) :
    (retrieveStoreModes {} >>= f) s = f (snapshot s) s := rfl

theorem run_TexImage2D_bind {β : Type} (target level internalFormat width height format
    typ : Int) (pixels : Option (List Nat)) (f : Unit → GLM β) (s : GLState) :
    (TexImage2D target level internalFormat width height format typ pixels >>= f) s =
      f () (texUpload s
        (texImageRecord s target level internalFormat width (some height) format typ pixels)) :=
  rfl

theorem exists_call_of_grows_at {α : Type} {m : GLM α} (hm : GLM.Grows m) {s : GLState}
    {φ : TexImage → Prop} (h : ∃ c ∈ s.calls, φ c) : ∃ r ∈ (m s).2.calls, φ r := by
  obtain ⟨c, hc, hφ⟩ := h
  obtain ⟨l, hl⟩ := hm s
  rw [hl]
  exact ⟨c, List.mem_append_left _ hc, hφ⟩

theorem core_upload_source (scaleInternalUbyte : ScaleKernel)
    (target internalFormat format typ userLevel baseLevel maxLevel : Int)
    (width height A rowLength skipRows skipPixels c g : Nat) (data : List Nat) (s : GLState)
    (hargs : checkMipmapArgs internalFormat format typ = .ok ())
    (hbm : typ ≠ gl.BITMAP)
    (hc : elementsPerGroup format typ = (c : Int))
    (hg : truncMul (bytesPerElement typ) (c : Int) = (g : Int))
    (hw : 1 ≤ width) (hh : 1 ≤ height)
    (hA : s.unpackAlignment = (A : Int)) (hApos : 0 < A)
    (hRL : s.unpackRowLength = (rowLength : Int))
    (hSR : s.unpackSkipRows = (skipRows : Int))
    (hSP : s.unpackSkipPixels = (skipPixels : Int))
    (hoff : sourceOffset skipRows skipPixels (sourceRowsize rowLength width g A) g < data.length)
    (hlev : baseLevel ≤ userLevel ∧ userLevel ≤ maxLevel) :
    ∃ r ∈ (gluBuild2DMipmapLevelsCore scaleInternalUbyte target internalFormat width height
        width height format typ userLevel baseLevel maxLevel data s).2.calls,
      r.level = userLevel ∧ r.typ = typ ∧
      r.pixels = some (data.drop
        (sourceOffset skipRows skipPixels (sourceRowsize rowLength width g A) g)) ∧
      r.unpackAlignment = A ∧ r.unpackRowLength = rowLength ∧ r.unpackSkipRows = 0 ∧
      r.unpackSkipPixels = 0 := by
  have h1 : (decide ((width : Int) ≥ 1) && decide ((height : Int) ≥ 1)) = true := by
    simp; omega
  have h2 : (typ != gl.BITMAP) = true := by simpa using hbm
  have hlw := intLog2_ok (width : Int) (by omega)
  have hlh := intLog2_ok (height : Int) (by omega)
  have hroff : reslice data.length 0
      (((skipRows * sourceRowsize rowLength width g A + skipPixels * g : Nat)) : Int) =
      .ok ((sourceOffset skipRows skipPixels (sourceRowsize rowLength width g A) g : Nat) : Int) := by
    have := reslice_ok data.length 0 _ (skipRows * sourceRowsize rowLength width g A +
      skipPixels * g) rfl (by rw [sourceOffset] at hoff; omega)
    simpa [sourceOffset] using this
  have hptr0 : pointerTo (List.drop
      (sourceOffset skipRows skipPixels (sourceRowsize rowLength width g A) g) data) =
      .ok (some (List.drop
        (sourceOffset skipRows skipPixels (sourceRowsize rowLength width g A) g) data)) := by
    have h0 : (0 : Int) ≤ 0 ∧ (0 : Int) + 0 < ((List.drop
      (sourceOffset skipRows skipPixels (sourceRowsize rowLength width g A) g) data).length : Int) := by
      rw [List.length_drop]; omega
    simp only [pointerTo, addrOf, if_pos h0, bind, Except.bind, pure, Except.pure]
  simp only [sourceRowsize, sourceOffset] at hroff hptr0
  unfold gluBuild2DMipmapLevelsCore
  simp only [run_lift_ok_bind, run_PixelStorei_bind, run_retrieve_bind, run_TexImage2D_bind,
    hargs, assert, h1, h2, if_true, beq_self_eq_true,
    hlw, hlh, snapshot, hA, hRL, hSR, hSP, hc, hg, groupsPerLine_cast, ← Nat.cast_mul,
    goMod_cast _ _ hApos, rowsize_cast _ _ hApos, ← Nat.cast_add, and_self,
    hroff, Int.toNat_ofNat, if_pos hlev, hptr0, glm_pure_bind]
  apply exists_call_of_grows_at
  · repeat' first
      | with_reducible exact grows_pure _
      | with_reducible exact grows_lift _
      | with_reducible exact grows_PixelStorei _ _
      | with_reducible exact grows_TexImage2D _ _ _ _ _ _ _ _
      | with_reducible exact grows_restoreStoreModes _
      | with_reducible exact grows_levelLoop _ _ _ _ _ _ _ _ _ _ _ _
      | with_reducible refine grows_ite ?_ ?_
      | with_reducible refine grows_bind ?_ fun _ => ?_
  · simp only [storei_calls, texUpload_calls]
    refine ⟨_, List.mem_append_right _ (List.mem_singleton.2 rfl), rfl, rfl, rfl,
      ?_, ?_, ?_, ?_⟩
    · exact hA
    · rfl
    · rfl
    · rfl

theorem truncMul_natCast (k : Nat) (n : Int) : truncMul (k : ℚ) n = k * n := by
  simp [truncMul]

theorem bytesPerElement_nat (typ : Int) (hbm : typ ≠ gl.BITMAP) :
    ∃ k : Nat, bytesPerElement typ = (k : ℚ) := by
  unfold bytesPerElement
  rw [if_neg hbm]
  repeat' split
  all_goals first
    | exact ⟨1, Nat.cast_one.symm⟩
    | exact ⟨2, (Nat.cast_ofNat : ((2 : Nat) : ℚ) = 2).symm⟩
    | exact ⟨4, (Nat.cast_ofNat : ((4 : Nat) : ℚ) = 4).symm⟩

theorem groupSize_eq (typ : Int) (hbm : typ ≠ gl.BITMAP) (c g : Nat)
    (hg : truncMul (bytesPerElement typ) (c : Int) = (g : Int)) :
    (g : ℚ) = bytesPerElement typ * (c : ℚ) := by
  obtain ⟨k, hk⟩ := bytesPerElement_nat typ hbm
  rw [hk, truncMul_natCast] at hg
  rw [hk]
  exact_mod_cast hg.symm

/-! ## The claims of the specification -/

/-- C1: for every `components >= 1`, even `width >= 2`, even `height >= 2`, element size
1, group size `components`, row stride `ysize >= width * components`, a source of
`height` rows of `ysize` bytes and a destination that has room for the result,
`halveImageUbyte` returns and leaves in the destination the tightly packed
`(width/2) x (height/2)` image whose byte `((i * (width/2) + j) * components + k)` is
`(s(2i,2j,k) + s(2i,2j+1,k) + s(2i+1,2j,k) + s(2i+1,2j+1,k) + 2) / 4`; no other byte of
the destination changes, and the padding bytes of the source rows are never used. -/
theorem halveImageUbyte_box (components width height ysize : Nat)
    (datain dataout : List Nat)
    (hc : 1 ≤ components) (hw : 2 ≤ width) (hweven : width % 2 = 0)
    (hh : 2 ≤ height) (hheven : height % 2 = 0)
    (hy : width * components ≤ ysize) (hin : height * ysize ≤ datain.length)
    (hbytes : ∀ b ∈ datain, b < 256)
    (hout : width / 2 * (height / 2) * components ≤ dataout.length) :
    ∃ out, halveImageUbyte (components : Int) (width : Int) (height : Int) datain dataout 1
        (ysize : Int) (components : Int) = .ok out ∧
      out.length = dataout.length ∧
      (∀ i j k, i < height / 2 → j < width / 2 → k < components →
        out[(i * (width / 2) + j) * components + k]? =
          some (boxAverage datain ysize components i j k)) ∧
      (∀ n, width / 2 * (height / 2) * components ≤ n → out[n]? = dataout[n]?) := by
  have H : HalveInput components width height ysize datain dataout :=
    ⟨hc, hw, hweven, hh, hheven, hy, hin, hbytes, hout⟩
  obtain ⟨st1, hf, -, -, hw1⟩ := forN_inv
    (halveRow (components : Int) ((width / 2 : Nat) : Int) datain 1 (ysize : Int)
      (components : Int) ((ysize : Int) - (width : Int) * (components : Int))) (height / 2)
    (fun i st => st.s = ((i * (width / 2) * components : Nat) : Int) ∧
      st.t = ((2 * (i * ysize) : Nat) : Int) ∧
      Written dataout st.dataout (boxAverage datain ysize components) (width / 2) components
        (i * (width / 2) * components))
    { dataout := dataout, s := 0, t := 0 }
    ⟨by simp, by simp, rfl, fun _ _ _ _ _ hlt => by simp at hlt, fun _ _ => rfl⟩
    (by
      rintro i ⟨out0, s0, t0⟩ hi ⟨hs, ht, hw0⟩
      simp only at hs ht hw0
      subst hs ht
      obtain ⟨out1, hrun, hw1⟩ := halveRow_ok H i hi out0 hw0
      exact ⟨_, hrun, rfl, rfl, hw1⟩)
  have hcond : ¬ ((width : Int) = 1 ∨ (height : Int) = 1) := by omega
  refine ⟨st1.dataout, ?_, hw1.1, ?_, ?_⟩
  · simp only [halveImageUbyte, if_neg hcond, tdiv_two_cast, Int.toNat_ofNat, hf, bind,
      Except.bind, pure, Except.pure]
  · intro i j k hi hj hk
    apply hw1.2.1 i j k hj hk
    have := radix_lt i (height / 2) j (width / 2) hi hj
    exact radix_lt _ _ k components this hk
  · intro n hn
    apply hw1.2.2 n
    have e : height / 2 * (width / 2) * components = width / 2 * (height / 2) * components := by
      ring
    omega

/-- Witness of C1: a 4x4 single-component checkerboard of 0 and 255 becomes a uniform
2x2 image of 128. -/
theorem halveImageUbyte_box_witness :
    (halveImageUbyte 1 4 4 [0, 255, 0, 255, 255, 0, 255, 0, 0, 255, 0, 255, 255, 0, 255, 0]
      [0, 0, 0, 0] 1 4 1 = .ok [128, 128, 128, 128]) ∧
    ∃ out, halveImageUbyte ((1 : Nat) : Int) ((4 : Nat) : Int) ((4 : Nat) : Int)
        [0, 255, 0, 255, 255, 0, 255, 0, 0, 255, 0, 255, 255, 0, 255, 0] [0, 0, 0, 0] 1
        ((4 : Nat) : Int) ((1 : Nat) : Int) = .ok out ∧
      out.length = [0, 0, 0, 0].length ∧
      (∀ i j k, i < 4 / 2 → j < 4 / 2 → k < 1 →
        out[(i * (4 / 2) + j) * 1 + k]? =
          some (boxAverage [0, 255, 0, 255, 255, 0, 255, 0, 0, 255, 0, 255, 255, 0, 255, 0]
            4 1 i j k)) ∧
      (∀ n, 4 / 2 * (4 / 2) * 1 ≤ n → out[n]? = [0, 0, 0, 0][n]?) :=
  ⟨by decide,
    halveImageUbyte_box 1 4 4 4 [0, 255, 0, 255, 255, 0, 255, 0, 0, 255, 0, 255, 255, 0, 255, 0]
      [0, 0, 0, 0] (by decide) (by decide) (by decide) (by decide) (by decide) (by decide)
      (by decide) (by decide) (by decide)⟩

/-- C2 (the code at failing inputs): on a tall 1x2 and on a wide 2x1 RGBA image of
unsigned bytes, both already of power-of-two size, `gluBuild2DMipmaps` uploads level 0
and then stops with a panic in the halving kernel, whatever the scaling kernel; the
1x1 level is never produced. -/
theorem gluBuild2DMipmaps_one_dimensional_panics (scaleInternalUbyte : ScaleKernel) :
    (gluBuild2DMipmaps scaleInternalUbyte gl.TEXTURE_2D gl.RGBA 1 2 gl.RGBA gl.UNSIGNED_BYTE
      [1, 2, 3, 4, 5, 6, 7, 8] (exampleGL 1024)).1 = .error .indexOutOfRange ∧
    ((gluBuild2DMipmaps scaleInternalUbyte gl.TEXTURE_2D gl.RGBA 1 2 gl.RGBA gl.UNSIGNED_BYTE
      [1, 2, 3, 4, 5, 6, 7, 8] (exampleGL 1024)).2.calls.map
        fun c => (c.target, c.level, c.width, c.height)) =
      [(gl.PROXY_TEXTURE_2D, 1, 1, some 1), (gl.TEXTURE_2D, 0, 1, some 2)] ∧
    (gluBuild2DMipmaps scaleInternalUbyte gl.TEXTURE_2D gl.RGBA 2 1 gl.RGBA gl.UNSIGNED_BYTE
      [1, 2, 3, 4, 5, 6, 7, 8] (exampleGL 1024)).1 = .error .indexOutOfRange ∧
    ((gluBuild2DMipmaps scaleInternalUbyte gl.TEXTURE_2D gl.RGBA 2 1 gl.RGBA gl.UNSIGNED_BYTE
      [1, 2, 3, 4, 5, 6, 7, 8] (exampleGL 1024)).2.calls.map
        fun c => (c.target, c.level, c.width, c.height)) =
      [(gl.PROXY_TEXTURE_2D, 1, 1, some 1), (gl.TEXTURE_2D, 0, 2, some 1)] := by
  refine ⟨?_, ?_, ?_, ?_⟩ <;> rfl

/-- C3: for every format and every type that is not a packed-pixel type,
`checkMipmapArgs` returns no error exactly when the format is one of the 13 recognized
formats other than `STENCIL_INDEX` and the type is one of the recognized element types;
the internal format never affects the result. -/
theorem checkMipmapArgs_unpacked (internalFormat format typ : Int)
    (hp : typ ∉ packedPixelTypes) :
    (checkMipmapArgs internalFormat format typ = .ok () ↔
      (format ∈ recognizedFormats ∧ format ≠ gl.STENCIL_INDEX) ∧ typ ∈ recognizedTypes) ∧
    ∀ other : Int,
      checkMipmapArgs other format typ = checkMipmapArgs internalFormat format typ :=
  ⟨checkMipmapArgs_of_legal_pair internalFormat format typ
    (isLegalFormatForPackedPixelType_unpacked format typ hp), fun _ => rfl⟩

/-- Witness of C3: RGB data of unsigned bytes. -/
theorem checkMipmapArgs_unpacked_witness :
    gl.UNSIGNED_BYTE ∉ packedPixelTypes ∧
    ((checkMipmapArgs gl.RGB gl.RGB gl.UNSIGNED_BYTE = .ok () ↔
      (gl.RGB ∈ recognizedFormats ∧ gl.RGB ≠ gl.STENCIL_INDEX) ∧
        gl.UNSIGNED_BYTE ∈ recognizedTypes) ∧
    ∀ other : Int,
      checkMipmapArgs other gl.RGB gl.UNSIGNED_BYTE =
        checkMipmapArgs gl.RGB gl.RGB gl.UNSIGNED_BYTE) :=
  ⟨by decide, checkMipmapArgs_unpacked gl.RGB gl.RGB gl.UNSIGNED_BYTE (by decide)⟩

/-- C4 (the code at failing inputs): a packed-pixel type is accepted with every
recognized format other than `STENCIL_INDEX`, also with the formats it is not
compatible with: 3-3-2 with RGBA, 8-8-8-8 with RGB, 5-6-5 with LUMINANCE. -/
theorem checkMipmapArgs_accepts_incompatible_packed :
    checkMipmapArgs gl.RGBA gl.RGBA gl.UNSIGNED_BYTE_3_3_2 = .ok () ∧
    checkMipmapArgs gl.RGB gl.RGB gl.UNSIGNED_INT_8_8_8_8 = .ok () ∧
    checkMipmapArgs gl.LUMINANCE gl.LUMINANCE gl.UNSIGNED_SHORT_5_6_5 = .ok () ∧
    ∀ format typ : Int, isLegalFormatForPackedPixelType format typ = true :=
  ⟨by decide, by decide, by decide, isLegalFormatForPackedPixelType_true⟩

/-- C5: `elementsPerGroup` is 1 for a packed-pixel type and otherwise 3 for RGB and BGR,
2 for LUMINANCE_ALPHA, 4 for RGBA and BGRA and 1 for any other format; `bytesPerElement`
is exactly 1/8 for BITMAP, 1 for the byte types and the two 8-bit packed types, 2 for the
short types and the 16-bit packed types, and 4 for INT, UNSIGNED_INT, FLOAT and the
32-bit packed types (and for every other value). -/
theorem elementsPerGroup_bytesPerElement_table (format typ : Int) :
    elementsPerGroup format typ =
      (if typ ∈ packedPixelTypes then 1
       else if format = gl.RGB ∨ format = gl.BGR then 3
       else if format = gl.LUMINANCE_ALPHA then 2
       else if format = gl.RGBA ∨ format = gl.BGRA then 4
       else 1) ∧
    bytesPerElement typ =
      (if typ = gl.BITMAP then 1 / 8
       else if typ = gl.BYTE ∨ typ = gl.UNSIGNED_BYTE ∨ typ = gl.UNSIGNED_BYTE_3_3_2 ∨
         typ = gl.UNSIGNED_BYTE_2_3_3_REV then 1
       else if typ = gl.SHORT ∨ typ = gl.UNSIGNED_SHORT ∨ typ = gl.UNSIGNED_SHORT_5_6_5 ∨
         typ = gl.UNSIGNED_SHORT_5_6_5_REV ∨ typ = gl.UNSIGNED_SHORT_4_4_4_4 ∨
         typ = gl.UNSIGNED_SHORT_4_4_4_4_REV ∨ typ = gl.UNSIGNED_SHORT_5_5_5_1 ∨
         typ = gl.UNSIGNED_SHORT_1_5_5_5_REV then 2
       else 4) := by
  constructor
  · unfold elementsPerGroup
    by_cases h : typ ∈ packedPixelTypes
    · rw [if_pos h, if_pos ((mem_packedPixelTypes typ).1 h)]
    · rw [if_neg h, if_neg (mt (mem_packedPixelTypes typ).2 h)]
  · by_cases h : typ ∈ recognizedTypes
    · simp only [recognizedTypes, List.mem_cons, List.mem_singleton, List.mem_nil_iff,
        or_false] at h
      rcases h with h | h | h | h | h | h | h | h | h | h | h | h | h | h | h | h | h | h | h | h <;>
        subst h <;> simp [bytesPerElement, oneEighth_eq, gl.BITMAP, gl.BYTE, gl.UNSIGNED_BYTE,
          gl.SHORT, gl.UNSIGNED_SHORT, gl.INT, gl.UNSIGNED_INT, gl.FLOAT,
          gl.UNSIGNED_BYTE_3_3_2, gl.UNSIGNED_BYTE_2_3_3_REV, gl.UNSIGNED_SHORT_5_6_5,
          gl.UNSIGNED_SHORT_5_6_5_REV, gl.UNSIGNED_SHORT_4_4_4_4,
          gl.UNSIGNED_SHORT_4_4_4_4_REV, gl.UNSIGNED_SHORT_5_5_5_1,
          gl.UNSIGNED_SHORT_1_5_5_5_REV, gl.UNSIGNED_INT_8_8_8_8, gl.UNSIGNED_INT_8_8_8_8_REV,
          gl.UNSIGNED_INT_10_10_10_2, gl.UNSIGNED_INT_2_10_10_10_REV]
    · simp only [recognizedTypes, List.mem_cons, List.mem_singleton, List.mem_nil_iff,
        or_false, not_or] at h
      simp [bytesPerElement, h]

/-- C6 (amended): under the direct-clamp policy each requested dimension `d` with
`1 <= d < 3 * 2^61` is replaced by `min (p d) M`, where `M` is the platform maximum and
`p d` is the power of two NEAREST to `d`, ties rounded up (`3 * p <= 4 * d < 6 * p`); the
context is left as it was.  (From `3 * 2^61` on the nearest power of two is `2^63`, which
a 64-bit `int` does not hold.) -/
theorem closestFitNoProxyTexture_nearest (s : GLState) (width height : Int)
    (hw : 1 ≤ width) (hh : 1 ≤ height) (hwb : width < 3 * 2 ^ 61)
    (hhb : height < 3 * 2 ^ 61) :
    ∃ pw ph : Int, IsNearestPow2 pw width ∧ IsNearestPow2 ph height ∧
      closestFitNoProxyTexture width height s =
        (.ok (min pw s.maxTextureSize, min ph s.maxTextureSize), s) := by
  obtain ⟨pw, hpw, hnw⟩ := nearestPow2_spec width hw hwb
  obtain ⟨ph, hph, hnh⟩ := nearestPow2_spec height hh hhb
  exact ⟨pw, ph, hnw, hnh, closestFitNoProxyTexture_run width height pw ph s hpw hph⟩

/-- Witness of C6 (amended): a request of 100x50 with a maximum of 1024. -/
theorem closestFitNoProxyTexture_nearest_witness :
    (1 : Int) ≤ 100 ∧ (1 : Int) ≤ 50 ∧ (100 : Int) < 3 * 2 ^ 61 ∧ (50 : Int) < 3 * 2 ^ 61 ∧
    ∃ pw ph : Int, IsNearestPow2 pw 100 ∧ IsNearestPow2 ph 50 ∧
      closestFitNoProxyTexture 100 50 (exampleGL 0) =
        (.ok (min pw (exampleGL 0).maxTextureSize, min ph (exampleGL 0).maxTextureSize),
          exampleGL 0) :=
  ⟨by decide, by decide, by norm_num, by norm_num,
    closestFitNoProxyTexture_nearest (exampleGL 0) 100 50 (by decide) (by decide)
      (by norm_num) (by norm_num)⟩

/-- Counterexample to C6 as stated: with a maximum of 1024 a request of 5x5 yields 4x4,
not 8x8, and a request of 3x3 yields 4x4, not 12x12. -/
theorem closestFitNoProxyTexture_rounds_down :
    (closestFitNoProxyTexture 5 5 (exampleGL 0)).1 = .ok (4, 4) ∧
    (closestFitNoProxyTexture 5 5 (exampleGL 0)).1 ≠ .ok (8, 8) ∧
    (closestFitNoProxyTexture 3 3 (exampleGL 0)).1 = .ok (4, 4) ∧
    (closestFitNoProxyTexture 3 3 (exampleGL 0)).1 ≠ .ok (12, 12) := by
  decide

/-- C7 (counterexample): with a proxy that accepts every width up to 16, a request of
`3 * 2^61` by 1 starts from the candidate `(-2^63, 1)`, because the product in
`nearestPow2` wraps; the probe of that candidate asks for `(1, 1)` and is accepted, yet
`closestFit` returns no candidate: it stops at its assertion `widthAtLevelOne > 0`.  So
does a 4x4 request for the target 0, for which `closestFit` has no proxy. -/
theorem closestFit_stops_without_candidate :
    nearestPow2 (3 * 2 ^ 61) = .ok (-2 ^ 63) ∧ nearestPow2 1 = .ok 1 ∧
    fitCandidate (-2 ^ 63) 1 1 = (1, 1) ∧
    probeReply (exampleGL 16) gl.TEXTURE_2D gl.RGB gl.RGB gl.UNSIGNED_BYTE (-2 ^ 63) 1 0 ≠ 0 ∧
    (closestFit gl.TEXTURE_2D (3 * 2 ^ 61) 1 gl.RGB gl.RGB gl.UNSIGNED_BYTE (exampleGL 16)).1 =
      .error .assertFailed ∧
    (closestFit 0 4 4 gl.RGB gl.RGB gl.UNSIGNED_BYTE (exampleGL 16)).1 =
      .error .assertFailed := by
  have h1 := nearestPow2_overflow (3 * 2 ^ 61) (le_refl _) (by norm_num)
  have h2 : nearestPow2 1 = .ok 1 := by decide
  refine ⟨h1, h2, by decide, by decide, ?_, by decide⟩
  rw [closestFit_proxy gl.TEXTURE_2D (3 * 2 ^ 61) 1 gl.RGB gl.RGB gl.UNSIGNED_BYTE (-2 ^ 63) 1
    (exampleGL 16) (by decide) h1 h2,
    closestFitLoop_nonpos _ _ _ _ _ _ _ _ (Or.inl (by norm_num))]

/-- C7 (amended): under the iterative-probe policy, for a target that `closestFit` has a
proxy for and a request of at least 1x1 with both sides below `3 * 2^61`, if the probe
accepts some candidate then `closestFit` returns the candidate `(W_k, H_k)` for the least
`k` whose probe is accepted; every earlier candidate was rejected and the returned one
was not. -/
theorem closestFit_least_accepted (s : GLState)
    (target width height internalFormat format typ : Int)
    (hpol : stringGE (firstToken s.version) version11 = true) (ht : validTarget target)
    (hw : 1 ≤ width) (hh : 1 ≤ height) (hwb : width < 3 * 2 ^ 61)
    (hhb : height < 3 * 2 ^ 61) :
    ∃ W0 H0 : Int, nearestPow2 width = .ok W0 ∧ nearestPow2 height = .ok H0 ∧
      ((∃ k, probeReply s target internalFormat format typ W0 H0 k ≠ 0) →
        ∃ k, probeReply s target internalFormat format typ W0 H0 k ≠ 0 ∧
          (∀ j, j < k → probeReply s target internalFormat format typ W0 H0 j = 0) ∧
          (closestFit target width height internalFormat format typ s).1 =
            .ok (fitCandidate W0 H0 k)) := by
  obtain ⟨W0, hW0, hnW⟩ := nearestPow2_spec width hw hwb
  obtain ⟨H0, hH0, hnH⟩ := nearestPow2_spec height hh hhb
  refine ⟨W0, H0, hW0, hH0, ?_⟩
  rintro ⟨k, hk⟩
  obtain ⟨m, -, hrej, -, hone, hrun⟩ :=
    closestFitLoop_run target height internalFormat format typ ht ((W0 + H0).toNat + 1) W0 H0
      s hnW.pos hnH.pos (Nat.le_succ_of_le (fitDepth_lt W0 H0 hnW.pos hnH.pos))
  have hacc : probeReply s target internalFormat format typ W0 H0 m ≠ 0 := by
    intro hz
    apply hk
    rcases Nat.lt_or_ge k m with hkm | hkm
    · exact hrej k hkm
    · have h1 := fitCandidate_stable W0 H0 m (hone hz)
      have e : probeReply s target internalFormat format typ W0 H0 k =
          probeReply s target internalFormat format typ W0 H0 m := by
        simp only [probeReply, h1 (k + 1) (by omega), h1 (m + 1) (by omega)]
      rw [e]; exact hz
  refine ⟨m, hacc, hrej, ?_⟩
  rw [closestFit_proxy target width height internalFormat format typ W0 H0 s hpol hW0 hH0,
    hrun]
  simp only [if_neg hacc]

/-- Witness of C7 (amended): a 100x50 request against a proxy that accepts widths up to
16. -/
theorem closestFit_least_accepted_witness :
    stringGE (firstToken (exampleGL 16).version) version11 = true ∧
    validTarget gl.TEXTURE_2D ∧ (1 : Int) ≤ 100 ∧ (1 : Int) ≤ 50 ∧
    (100 : Int) < 3 * 2 ^ 61 ∧ (50 : Int) < 3 * 2 ^ 61 ∧
    ∃ W0 H0 : Int, nearestPow2 100 = .ok W0 ∧ nearestPow2 50 = .ok H0 ∧
      ((∃ k, probeReply (exampleGL 16) gl.TEXTURE_2D gl.RGB gl.RGB gl.UNSIGNED_BYTE
          W0 H0 k ≠ 0) →
        ∃ k, probeReply (exampleGL 16) gl.TEXTURE_2D gl.RGB gl.RGB gl.UNSIGNED_BYTE
            W0 H0 k ≠ 0 ∧
          (∀ j, j < k → probeReply (exampleGL 16) gl.TEXTURE_2D gl.RGB gl.RGB
            gl.UNSIGNED_BYTE W0 H0 j = 0) ∧
          (closestFit gl.TEXTURE_2D 100 50 gl.RGB gl.RGB gl.UNSIGNED_BYTE (exampleGL 16)).1 =
            .ok (fitCandidate W0 H0 k)) :=
  ⟨by decide, by decide, by decide, by decide, by norm_num, by norm_num,
    closestFit_least_accepted (exampleGL 16) gl.TEXTURE_2D 100 50 gl.RGB gl.RGB
      gl.UNSIGNED_BYTE (by decide) (by decide) (by decide) (by decide) (by norm_num)
      (by norm_num)⟩

/-- C8 (the code at the failing input): with a probe that rejects every size a 4x4
request comes back as `(-1, 4)`, while the direct-clamp policy gives `(4, 4)`. -/
theorem closestFit_fallback_loses_width :
    (closestFit gl.TEXTURE_2D 4 4 gl.RGB gl.RGB gl.UNSIGNED_BYTE (exampleGL 0)).1 =
      .ok (-1, 4) ∧
    (closestFitNoProxyTexture 4 4 (exampleGL 0)).1 = .ok (4, 4) := by
  decide

/-- C9: under the iterative-probe policy, for every request of at least 1x1, every
target and every probe behaviour, the probing loop of `closestFit` terminates: it makes
`m` probes with `m` at most `max (log2 W0) (log2 H0) + 1`, the probed candidates shrink
strictly from one probe to the next, the modelled loop never uses up its fuel, and any
larger fuel gives the same outcome. -/
theorem closestFit_probe_bound (s : GLState)
    (target width height internalFormat format typ : Int)
    (hpol : stringGE (firstToken s.version) version11 = true)
    (hw : 1 ≤ width) (hh : 1 ≤ height) :
    ∃ W0 H0 : Int, nearestPow2 width = .ok W0 ∧ nearestPow2 height = .ok H0 ∧
      ∃ m : Nat, m ≤ max (Nat.log 2 W0.toNat) (Nat.log 2 H0.toNat) + 1 ∧
        (closestFit target width height internalFormat format typ s).2.calls =
          s.calls ++ probeRequests s target internalFormat format typ W0 H0 m ∧
        (closestFit target width height internalFormat format typ s).1 ≠
          .error .outOfFuel ∧
        (∀ j, j + 1 < m →
          (fitCandidate W0 H0 (j + 1)).1 + (fitCandidate W0 H0 (j + 1)).2 <
            (fitCandidate W0 H0 j).1 + (fitCandidate W0 H0 j).2) ∧
        (∀ fuel, max (Nat.log 2 W0.toNat) (Nat.log 2 H0.toNat) + 1 ≤ fuel →
          closestFitLoop target height internalFormat format typ fuel W0 H0 s =
            closestFit target width height internalFormat format typ s) := by
  obtain ⟨qW, hqW, -⟩ := nearestPow2_wrap width hw
  obtain ⟨qH, hqH, -⟩ := nearestPow2_wrap height hh
  generalize wrapInt qW = W0 at hqW
  generalize wrapInt qH = H0 at hqH
  have hW0 := hqW
  have hH0 := hqH
  refine ⟨W0, H0, hW0, hH0, ?_⟩
  by_cases hpos : 1 ≤ W0 ∧ 1 ≤ H0
  · obtain ⟨hWp, hHp⟩ := hpos
    have hfuel : fitDepth W0 H0 + 1 ≤ (W0 + H0).toNat + 1 :=
      Nat.le_succ_of_le (fitDepth_lt W0 H0 hWp hHp)
    have hind : ∀ fuel, max (Nat.log 2 W0.toNat) (Nat.log 2 H0.toNat) + 1 ≤ fuel →
        closestFitLoop target height internalFormat format typ fuel W0 H0 s =
          closestFit target width height internalFormat format typ s := by
      intro fuel hf
      rw [closestFit_proxy target width height internalFormat format typ W0 H0 s hpol hW0 hH0]
      exact closestFitLoop_fuel target height internalFormat format typ fuel _ W0 H0 s
        hWp hHp hf hfuel
    rw [closestFit_proxy target width height internalFormat format typ W0 H0 s hpol hW0 hH0]
    by_cases ht : validTarget target
    · obtain ⟨m, hm, -, hne, -, hrun⟩ :=
        closestFitLoop_run target height internalFormat format typ ht ((W0 + H0).toNat + 1)
          W0 H0 s hWp hHp hfuel
      refine ⟨m + 1, by simpa [fitDepth] using hm, ?_, ?_, ?_, ?_⟩
      · rw [hrun]
        simp only [closestFitNoProxyTexture_run 0 height (-1) H0 _ nearestPow2_zero hH0]
        split_ifs <;> simp [foldl_afterProbe_calls]
      · rw [hrun]
        simp only [closestFitNoProxyTexture_run 0 height (-1) H0 _ nearestPow2_zero hH0]
        split_ifs <;> simp
      · intro j hj
        rw [fitCandidate_succ_eq]
        have hp := fitCandidate_pos W0 H0 hWp hHp j
        exact fitStep_decreases _ hp.1 hp.2 (hne j (by omega))
      · intro fuel hf
        rw [← closestFit_proxy target width height internalFormat format typ W0 H0 s hpol
          hW0 hH0]
        exact hind fuel hf
    · rw [closestFitLoop_invalid target height internalFormat format typ ht _ W0 H0
        hWp hHp s]
      refine ⟨0, Nat.zero_le _, by simp [probeRequests], by simp, fun j hj => by omega, ?_⟩
      intro fuel hf
      obtain ⟨k, rfl⟩ : ∃ k, fuel = k + 1 := ⟨fuel - 1, by omega⟩
      exact closestFitLoop_invalid target height internalFormat format typ ht k W0 H0
        hWp hHp s
  · have hnp : W0 ≤ 0 ∨ H0 ≤ 0 := by omega
    rw [closestFit_proxy target width height internalFormat format typ W0 H0 s hpol hW0 hH0,
      closestFitLoop_nonpos target height internalFormat format typ _ W0 H0 hnp s]
    refine ⟨0, Nat.zero_le _, by simp [probeRequests], by simp, fun j hj => by omega, ?_⟩
    intro fuel hf
    obtain ⟨k, rfl⟩ : ∃ k, fuel = k + 1 := ⟨fuel - 1, by omega⟩
    exact closestFitLoop_nonpos target height internalFormat format typ k W0 H0 hnp s

/-- Witness of C9: a 100x50 request against a proxy that rejects every size. -/
theorem closestFit_probe_bound_witness :
    stringGE (firstToken (exampleGL 0).version) version11 = true ∧
    (1 : Int) ≤ 100 ∧ (1 : Int) ≤ 50 ∧
    ∃ W0 H0 : Int, nearestPow2 100 = .ok W0 ∧ nearestPow2 50 = .ok H0 ∧
      ∃ m : Nat, m ≤ max (Nat.log 2 W0.toNat) (Nat.log 2 H0.toNat) + 1 ∧
        (closestFit gl.TEXTURE_2D 100 50 gl.RGB gl.RGB gl.UNSIGNED_BYTE
            (exampleGL 0)).2.calls =
          (exampleGL 0).calls ++
            probeRequests (exampleGL 0) gl.TEXTURE_2D gl.RGB gl.RGB gl.UNSIGNED_BYTE W0 H0 m ∧
        (closestFit gl.TEXTURE_2D 100 50 gl.RGB gl.RGB gl.UNSIGNED_BYTE (exampleGL 0)).1 ≠
          .error .outOfFuel ∧
        (∀ j, j + 1 < m →
          (fitCandidate W0 H0 (j + 1)).1 + (fitCandidate W0 H0 (j + 1)).2 <
            (fitCandidate W0 H0 j).1 + (fitCandidate W0 H0 j).2) ∧
        (∀ fuel, max (Nat.log 2 W0.toNat) (Nat.log 2 H0.toNat) + 1 ≤ fuel →
          closestFitLoop gl.TEXTURE_2D 50 gl.RGB gl.RGB gl.UNSIGNED_BYTE fuel W0 H0
              (exampleGL 0) =
            closestFit gl.TEXTURE_2D 100 50 gl.RGB gl.RGB gl.UNSIGNED_BYTE (exampleGL 0)) :=
  ⟨by decide, by decide, by decide,
    closestFit_probe_bound (exampleGL 0) gl.TEXTURE_2D 100 50 gl.RGB gl.RGB gl.UNSIGNED_BYTE
      (by decide) (by decide) (by decide)⟩

/-- C10 (the code at the failing input): the two pixels of a 2x1 single-component row
both hold 200, and the byte written is 72, which is `((200 + 200) % 256) / 2`; three
spare bytes behind the row and the output let the closing address checks pass. -/
theorem halveImageUbyte_row_sum_wraps :
    halveImageUbyte 1 2 1 [200, 200, 0] [0, 0] 1 2 1 = .ok [72, 0] ∧
    halve1DimageUbyte 1 2 1 [200, 200, 0] [0, 0] 1 2 1 = .ok [72, 0] ∧
    (200 + 200) / 2 = 200 := by
  decide

/-- C11 (the code at failing inputs): with `elementSize = 1`, `groupSize = components`,
a source of exactly `ysize * height` bytes and a destination of exactly
`components * max 1 (width / 2) * max 1 (height / 2)` bytes, `halveImageUbyte` panics
with an index out of range on the one-row images 2x1 and 4x1 (three components) and
on the one-column images 1x2 and 1x4; a one-column image still fails, at the closing
assertion on the destination, when both buffers have spare bytes. -/
theorem halveImageUbyte_exact_one_dimensional_fails :
    halveImageUbyte 1 2 1 [10, 20] [0] 1 2 1 = .error .indexOutOfRange ∧
    halveImageUbyte 3 4 1 [1, 2, 3, 4, 5, 6, 7, 8, 9, 10, 11, 12] [0, 0, 0, 0, 0, 0] 1 12 3 =
      .error .indexOutOfRange ∧
    halveImageUbyte 1 1 2 [10, 20] [0] 1 1 1 = .error .indexOutOfRange ∧
    halveImageUbyte 1 1 4 [1, 2, 3, 4] [0, 0] 1 1 1 = .error .indexOutOfRange ∧
    halveImageUbyte 1 1 2 [10, 20, 0] [0, 0] 1 1 1 = .error .assertFailed := by
  decide

/-- C12 (the code at a failing input): for a 2x4 single-component image of unsigned
bytes, whose pyramid has the levels 0, 1 and 2, the upload sink receives level 0 (2x4)
and level 1 (1x2) and then `gluBuild2DMipmaps` panics in the halving kernel, so level 2
is never uploaded; for a 3x3 RGB image fitted to 4x4 the call returns and the sink
receives exactly the levels 0 (4x4), 1 (2x2) and 2 (1x1), in that order. -/
theorem gluBuild2DMipmaps_upload_levels :
    (gluBuild2DMipmaps scaleInternalUbyte gl.TEXTURE_2D gl.LUMINANCE 2 4 gl.LUMINANCE
      gl.UNSIGNED_BYTE [1, 2, 0, 0, 3, 4, 0, 0, 5, 6, 0, 0, 7, 8, 0, 0]
      (exampleGL 1024)).1 = .error .indexOutOfRange ∧
    ((uploads (gluBuild2DMipmaps scaleInternalUbyte gl.TEXTURE_2D gl.LUMINANCE 2 4
      gl.LUMINANCE gl.UNSIGNED_BYTE [1, 2, 0, 0, 3, 4, 0, 0, 5, 6, 0, 0, 7, 8, 0, 0]
      (exampleGL 1024)).2).map fun c => (c.level, c.width, c.height)) =
      [(0, 2, some 4), (1, 1, some 2)] ∧
    (gluBuild2DMipmaps scaleInternalUbyte gl.TEXTURE_2D gl.RGB 3 3 gl.RGB gl.UNSIGNED_BYTE
      [1, 2, 3, 4, 5, 6, 7, 8, 9, 0, 0, 0, 10, 11, 12, 13, 14, 15, 16, 17, 18, 0, 0, 0,
        19, 20, 21, 22, 23, 24, 25, 26, 27, 0, 0, 0]
      (exampleGL 1024)).1 = .ok () ∧
    ((uploads (gluBuild2DMipmaps scaleInternalUbyte gl.TEXTURE_2D gl.RGB 3 3 gl.RGB
      gl.UNSIGNED_BYTE
      [1, 2, 3, 4, 5, 6, 7, 8, 9, 0, 0, 0, 10, 11, 12, 13, 14, 15, 16, 17, 18, 0, 0, 0,
        19, 20, 21, 22, 23, 24, 25, 26, 27, 0, 0, 0]
      (exampleGL 1024)).2).map fun c => (c.level, c.width, c.height)) =
      [(0, 4, some 4), (1, 2, some 2), (2, 1, some 1)] := by
  refine ⟨?_, ?_, ?_, ?_⟩ <;> decide!

/-- C13 (the code at the failing input): for a 4x4 single-component image of unsigned
bytes under an unpack alignment of 4, level 1 (2x2, rows of 2 bytes) is handed to the
upload sink as the tight 4-byte buffer of the halving kernel, at a stride of 2, while
level 2 (1x1) is repacked into a padded 4-byte row. -/
theorem gluBuild2DMipmaps_first_halved_level_unpadded :
    ((uploads (gluBuild2DMipmaps scaleInternalUbyte gl.TEXTURE_2D gl.LUMINANCE 4 4
      gl.LUMINANCE gl.UNSIGNED_BYTE [0, 1, 2, 3, 4, 5, 6, 7, 8, 9, 10, 11, 12, 13, 14, 15]
      (exampleGL 1024)).2).map fun c => (c.level, c.width, c.height, c.pixels)) =
      [(0, 4, some 4, some [0, 1, 2, 3, 4, 5, 6, 7, 8, 9, 10, 11, 12, 13, 14, 15]),
       (1, 2, some 2, some [3, 5, 11, 13]),
       (2, 1, some 1, some [8, 0, 0, 0])] ∧
    ((uploads (gluBuild2DMipmaps scaleInternalUbyte gl.TEXTURE_2D gl.LUMINANCE 4 4
      gl.LUMINANCE gl.UNSIGNED_BYTE [0, 1, 2, 3, 4, 5, 6, 7, 8, 9, 10, 11, 12, 13, 14, 15]
      (exampleGL 1024)).2).map fun c => (c.level, c.unpackAlignment, c.unpackRowLength)) =
      [(0, 4, 0), (1, 4, 0), (2, 4, 0)] := by
  refine ⟨?_, ?_⟩ <;> decide!

/-- C14: every call of `gluBuild2DMipmapLevelsCore` that returns, by the early return of
a single-level image or after the level loop, leaves the unpack alignment, row length,
skip-rows, skip-pixels and swap-bytes values as they were at entry, whatever the
scaling kernel. -/
theorem gluBuild2DMipmapLevelsCore_restores_unpack_state (scaleInternalUbyte : ScaleKernel)
    (target internalFormat width height widthPowerOf2 heightPowerOf2 format typ
      userLevel baseLevel maxLevel : Int) (data : List Nat) (s : GLState)
    (h : (gluBuild2DMipmapLevelsCore scaleInternalUbyte target internalFormat width height
      widthPowerOf2 heightPowerOf2 format typ userLevel baseLevel maxLevel data s).1 =
        .ok ()) :
    unpackState (gluBuild2DMipmapLevelsCore scaleInternalUbyte target internalFormat width
      height widthPowerOf2 heightPowerOf2 format typ userLevel baseLevel maxLevel data s).2 =
        unpackState s := by
  rcases hrun : gluBuild2DMipmapLevelsCore scaleInternalUbyte target internalFormat width
    height widthPowerOf2 heightPowerOf2 format typ userLevel baseLevel maxLevel data s with
    ⟨r, t⟩
  rw [hrun] at h
  dsimp only at h
  subst h
  exact core_triple scaleInternalUbyte target internalFormat width height widthPowerOf2
    heightPowerOf2 format typ userLevel baseLevel maxLevel data s s rfl () t hrun

/-- C14 at a 4x4 single-component image, which returns after the level loop, and at a
1x1 image, which returns early: both calls return, and the unpack state, in which every
parameter differs from the values the builder sets, is the same before and after. -/
theorem gluBuild2DMipmapLevelsCore_restores_unpack_state_witness :
    ((gluBuild2DMipmapLevelsCore scaleInternalUbyte gl.TEXTURE_2D gl.LUMINANCE 4 4 4 4
        gl.LUMINANCE gl.UNSIGNED_BYTE 0 0 2
        [0, 0, 0, 0, 0, 0, 0, 0, 0, 0, 0, 0, 0, 1, 2, 3, 4, 0, 5, 6, 7, 8, 0, 9, 10, 11, 12,
          0, 13, 14, 15, 16, 0] exampleUnpack).1 = .ok () ∧
      unpackState (gluBuild2DMipmapLevelsCore scaleInternalUbyte gl.TEXTURE_2D gl.LUMINANCE
        4 4 4 4 gl.LUMINANCE gl.UNSIGNED_BYTE 0 0 2
        [0, 0, 0, 0, 0, 0, 0, 0, 0, 0, 0, 0, 0, 1, 2, 3, 4, 0, 5, 6, 7, 8, 0, 9, 10, 11, 12,
          0, 13, 14, 15, 16, 0] exampleUnpack).2 = unpackState exampleUnpack) ∧
    ((gluBuild2DMipmapLevelsCore scaleInternalUbyte gl.TEXTURE_2D gl.LUMINANCE 1 1 1 1
        gl.LUMINANCE gl.UNSIGNED_BYTE 0 0 0
        [0, 0, 0, 0, 0, 0, 0, 0, 0, 0, 0, 0, 0, 1] exampleUnpack).1 = .ok () ∧
      unpackState (gluBuild2DMipmapLevelsCore scaleInternalUbyte gl.TEXTURE_2D gl.LUMINANCE
        1 1 1 1 gl.LUMINANCE gl.UNSIGNED_BYTE 0 0 0
        [0, 0, 0, 0, 0, 0, 0, 0, 0, 0, 0, 0, 0, 1] exampleUnpack).2 =
          unpackState exampleUnpack) :=
  ⟨⟨by decide!,
    gluBuild2DMipmapLevelsCore_restores_unpack_state scaleInternalUbyte gl.TEXTURE_2D
      gl.LUMINANCE 4 4 4 4 gl.LUMINANCE gl.UNSIGNED_BYTE 0 0 2
      [0, 0, 0, 0, 0, 0, 0, 0, 0, 0, 0, 0, 0, 1, 2, 3, 4, 0, 5, 6, 7, 8, 0, 9, 10, 11, 12,
        0, 13, 14, 15, 16, 0] exampleUnpack (by decide!)⟩,
   ⟨by decide!,
    gluBuild2DMipmapLevelsCore_restores_unpack_state scaleInternalUbyte gl.TEXTURE_2D
      gl.LUMINANCE 1 1 1 1 gl.LUMINANCE gl.UNSIGNED_BYTE 0 0 0
      [0, 0, 0, 0, 0, 0, 0, 0, 0, 0, 0, 0, 0, 1] exampleUnpack (by decide!)⟩⟩

/-- C15 (counterexample): for a 2x2 RGBA image of unsigned shorts, a pair that
`checkMipmapArgs` accepts, under an unpack row length of 2, `gluBuild2DMipmaps` fails at
the type switch only after level 0 was handed to the upload sink and the row length was
set to 0, and the row length is not put back. -/
theorem gluBuild2DMipmaps_unsupported_type_found_late :
    checkMipmapArgs gl.RGBA gl.RGBA gl.UNSIGNED_SHORT = .ok () ∧
    (gluBuild2DMipmaps scaleInternalUbyte gl.TEXTURE_2D gl.RGBA 2 2 gl.RGBA
      gl.UNSIGNED_SHORT
      [1, 0, 2, 0, 3, 0, 4, 0, 5, 0, 6, 0, 7, 0, 8, 0, 9, 0, 10, 0, 11, 0, 12, 0, 13, 0,
        14, 0, 15, 0, 16, 0]
      { exampleGL 1024 with unpackRowLength := 2 }).1 = .error .assertFailed ∧
    unpackState { exampleGL 1024 with unpackRowLength := 2 } = (4, 2, 0, 0, 0) ∧
    unpackState (gluBuild2DMipmaps scaleInternalUbyte gl.TEXTURE_2D gl.RGBA 2 2 gl.RGBA
      gl.UNSIGNED_SHORT
      [1, 0, 2, 0, 3, 0, 4, 0, 5, 0, 6, 0, 7, 0, 8, 0, 9, 0, 10, 0, 11, 0, 12, 0, 13, 0,
        14, 0, 15, 0, 16, 0]
      { exampleGL 1024 with unpackRowLength := 2 }).2 = (4, 0, 0, 0, 0) ∧
    ((uploads (gluBuild2DMipmaps scaleInternalUbyte gl.TEXTURE_2D gl.RGBA 2 2 gl.RGBA
      gl.UNSIGNED_SHORT
      [1, 0, 2, 0, 3, 0, 4, 0, 5, 0, 6, 0, 7, 0, 8, 0, 9, 0, 10, 0, 11, 0, 12, 0, 13, 0,
        14, 0, 15, 0, 16, 0]
      { exampleGL 1024 with unpackRowLength := 2 }).2).map
        fun c => (c.level, c.width, c.height)) = [(0, 2, some 2)] := by
  refine ⟨?_, ?_, ?_, ?_, ?_⟩ <;> decide!

/-- C15 (amended): when `checkMipmapArgs` rejects the (format, typ) pair, or width < 1,
or height < 1, or the type is `BITMAP`, `gluBuild2DMipmaps` fails, and on that failure
the unpack alignment, row length, skip-rows, skip-pixels and swap-bytes values are those
at entry and the upload sink has received nothing, whatever the scaling kernel. -/
theorem gluBuild2DMipmaps_validation_failure_frame (scaleInternalUbyte : ScaleKernel)
    (target internalFormat width height format typ : Int) (data : List Nat) (s : GLState)
    (h : checkMipmapArgs internalFormat format typ ≠ .ok () ∨ width < 1 ∨ height < 1 ∨
      typ = gl.BITMAP) :
    (∃ e, (gluBuild2DMipmaps scaleInternalUbyte target internalFormat width height format typ
        data s).1 = .error e) ∧
      unpackState (gluBuild2DMipmaps scaleInternalUbyte target internalFormat width height
        format typ data s).2 = unpackState s ∧
      uploads (gluBuild2DMipmaps scaleInternalUbyte target internalFormat width height
        format typ data s).2 = uploads s :=
  gluBuild2DMipmaps_frame_aux scaleInternalUbyte target internalFormat width height format
    typ data s h

/-- C15 (amended) at a `BITMAP` image, which fails after the fit resolver has probed
the proxy target, in a context in which every unpack parameter is set. -/
theorem gluBuild2DMipmaps_validation_failure_frame_witness :
    (checkMipmapArgs gl.COLOR_INDEX gl.COLOR_INDEX gl.BITMAP ≠ .ok () ∨ (2 : Int) < 1 ∨
        (2 : Int) < 1 ∨ gl.BITMAP = gl.BITMAP) ∧
      ((∃ e, (gluBuild2DMipmaps scaleInternalUbyte gl.TEXTURE_2D gl.COLOR_INDEX 2 2
          gl.COLOR_INDEX gl.BITMAP [1, 2, 3, 4, 5, 6, 7, 8] exampleUnpack).1 = .error e) ∧
        unpackState (gluBuild2DMipmaps scaleInternalUbyte gl.TEXTURE_2D gl.COLOR_INDEX 2 2
          gl.COLOR_INDEX gl.BITMAP [1, 2, 3, 4, 5, 6, 7, 8] exampleUnpack).2 =
            unpackState exampleUnpack ∧
        uploads (gluBuild2DMipmaps scaleInternalUbyte gl.TEXTURE_2D gl.COLOR_INDEX 2 2
          gl.COLOR_INDEX gl.BITMAP [1, 2, 3, 4, 5, 6, 7, 8] exampleUnpack).2 =
            uploads exampleUnpack) :=
  ⟨Or.inr (Or.inr (Or.inr rfl)),
    gluBuild2DMipmaps_validation_failure_frame scaleInternalUbyte gl.TEXTURE_2D
      gl.COLOR_INDEX 2 2 gl.COLOR_INDEX gl.BITMAP [1, 2, 3, 4, 5, 6, 7, 8] exampleUnpack
      (Or.inr (Or.inr (Or.inr rfl)))⟩

/-- C16 (counterexample): `BYTE` is a byte-sized type and (RGBA, BYTE) is a pair that
`checkMipmapArgs` accepts, yet `gluBuild2DMipmaps` rejects a 2x2 RGBA image of that type
at the type switch; `UNSIGNED_SHORT` is not byte-sized, yet a 1x1 RGBA image of that type
is uploaded and the call returns. -/
theorem gluBuild2DMipmaps_byte_rejected :
    bytesPerElement gl.BYTE = 1 ∧
    checkMipmapArgs gl.RGBA gl.RGBA gl.BYTE = .ok () ∧
    (gluBuild2DMipmaps scaleInternalUbyte gl.TEXTURE_2D gl.RGBA 2 2 gl.RGBA gl.BYTE
      [1, 2, 3, 4, 5, 6, 7, 8, 9, 10, 11, 12, 13, 14, 15, 16] (exampleGL 1024)).1 =
      .error .assertFailed ∧
    bytesPerElement gl.UNSIGNED_SHORT = 2 ∧
    (gluBuild2DMipmaps scaleInternalUbyte gl.TEXTURE_2D gl.RGBA 1 1 gl.RGBA
      gl.UNSIGNED_SHORT [1, 0, 2, 0, 3, 0, 4, 0] (exampleGL 1024)).1 = .ok () := by
  refine ⟨?_, ?_, ?_, ?_, ?_⟩ <;> decide!

/-- C16 (amended): for an element type other than `UNSIGNED_BYTE`,
`gluBuild2DMipmapLevelsCore` never returns normally, whatever the format, the sizes, the
source and the context, unless the image has a single level (width and height are the
fitted sizes and the larger of their binary logarithms plus `userLevel` is 0), in which
case the call returns before any type switch. -/
theorem gluBuild2DMipmapLevelsCore_only_unsigned_byte (scaleInternalUbyte : ScaleKernel)
    (target internalFormat width height widthPowerOf2 heightPowerOf2 format typ
      userLevel baseLevel maxLevel : Int) (data : List Nat) (s : GLState)
    (htyp : typ ≠ gl.UNSIGNED_BYTE)
    (hmulti : ¬ (width = widthPowerOf2 ∧ height = heightPowerOf2 ∧
      (fitDepth widthPowerOf2 heightPowerOf2 : Int) + userLevel = 0)) :
    (gluBuild2DMipmapLevelsCore scaleInternalUbyte target internalFormat width height
      widthPowerOf2 heightPowerOf2 format typ userLevel baseLevel maxLevel data s).1 ≠
        .ok () := by
  intro h
  rcases hrun : gluBuild2DMipmapLevelsCore scaleInternalUbyte target internalFormat width
    height widthPowerOf2 heightPowerOf2 format typ userLevel baseLevel maxLevel data s with
    ⟨r, t⟩
  rw [hrun] at h
  dsimp only at h
  subst h
  exact core_unsupported scaleInternalUbyte target internalFormat width height
    widthPowerOf2 heightPowerOf2 format typ userLevel baseLevel maxLevel data htyp hmulti
    s trivial () t hrun

/-- C16 (amended) at a 2x2 RGBA image of type `BYTE`, which has two levels. -/
theorem gluBuild2DMipmapLevelsCore_only_unsigned_byte_witness :
    gl.BYTE ≠ gl.UNSIGNED_BYTE ∧
      ¬ ((2 : Int) = 2 ∧ (2 : Int) = 2 ∧ (fitDepth 2 2 : Int) + 0 = 0) ∧
      (gluBuild2DMipmapLevelsCore scaleInternalUbyte gl.TEXTURE_2D gl.RGBA 2 2 2 2 gl.RGBA
        gl.BYTE 0 0 1 [1, 2, 3, 4, 5, 6, 7, 8, 9, 10, 11, 12, 13, 14, 15, 16]
        (exampleGL 1024)).1 ≠ .ok () :=
  ⟨by decide, by simp [fitDepth],
    gluBuild2DMipmapLevelsCore_only_unsigned_byte scaleInternalUbyte gl.TEXTURE_2D gl.RGBA
      2 2 2 2 gl.RGBA gl.BYTE 0 0 1 [1, 2, 3, 4, 5, 6, 7, 8, 9, 10, 11, 12, 13, 14, 15, 16]
      (exampleGL 1024) (by decide) (by simp [fitDepth])⟩

/-- C17 (the code at a failing input): for a 4x2 single-component image of unsigned
bytes, whose pyramid has the levels 0, 1 and 2, and the bounds `baseLevel = 1`,
`maxLevel = 2`, `gluBuild2DMipmapLevelsCore` uploads level 1 and then panics in the
halving kernel, so level 2, which lies within both ranges, is never uploaded; with the
bounds 0 and 2 it uploads the levels 0 and 1 and panics in the same place. -/
theorem gluBuild2DMipmapLevelsCore_bounded_levels_incomplete :
    (gluBuild2DMipmapLevelsCore scaleInternalUbyte gl.TEXTURE_2D gl.LUMINANCE 4 2 4 2
      gl.LUMINANCE gl.UNSIGNED_BYTE 0 1 2 [1, 2, 3, 4, 5, 6, 7, 8] (exampleGL 1024)).1 =
      .error .indexOutOfRange ∧
    ((uploads (gluBuild2DMipmapLevelsCore scaleInternalUbyte gl.TEXTURE_2D gl.LUMINANCE 4 2
      4 2 gl.LUMINANCE gl.UNSIGNED_BYTE 0 1 2 [1, 2, 3, 4, 5, 6, 7, 8]
      (exampleGL 1024)).2).map fun c => (c.level, c.width, c.height, c.pixels)) =
      [(1, 2, some 1, some [4, 6])] ∧
    (gluBuild2DMipmapLevelsCore scaleInternalUbyte gl.TEXTURE_2D gl.LUMINANCE 4 2 4 2
      gl.LUMINANCE gl.UNSIGNED_BYTE 0 0 2 [1, 2, 3, 4, 5, 6, 7, 8] (exampleGL 1024)).1 =
      .error .indexOutOfRange ∧
    ((uploads (gluBuild2DMipmapLevelsCore scaleInternalUbyte gl.TEXTURE_2D gl.LUMINANCE 4 2
      4 2 gl.LUMINANCE gl.UNSIGNED_BYTE 0 0 2 [1, 2, 3, 4, 5, 6, 7, 8]
      (exampleGL 1024)).2).map fun c => (c.level, c.width, c.height, c.pixels)) =
      [(0, 4, some 2, some [1, 2, 3, 4, 5, 6, 7, 8]), (1, 2, some 1, some [4, 6])] := by
  refine ⟨?_, ?_, ?_, ?_⟩ <;> decide!

/-- C18: when `widthin = widthout * 2` and `heightin = heightout * 2`, the call
`scaleInternalUbyte(components, widthin, heightin, datain, widthout, heightout, dataout,
elementSize, ysize, groupSize)` has the outcome of `halveImageUbyte(components, widthin,
heightin, datain, dataout, elementSize, ysize, groupSize)`: the same output buffer, byte
for byte, or the same panic. -/
theorem scaleInternalUbyte_halving (components widthin heightin : Int) (datain : List Nat)
    (widthout heightout : Int) (dataout : List Nat) (elementSize ysize groupSize : Int)
    (hw : widthin = widthout * 2) (hh : heightin = heightout * 2) :
    scaleInternalUbyte components widthin heightin datain widthout heightout dataout
        elementSize ysize groupSize =
      halveImageUbyte components widthin heightin datain dataout elementSize ysize
        groupSize := by
  rw [scaleInternalUbyte, if_pos ⟨hw, hh⟩]

/-- C18 at a 4x4 checkerboard scaled to 2x2: both kernels write four times 128. -/
theorem scaleInternalUbyte_halving_witness :
    (4 : Int) = 2 * 2 ∧ (4 : Int) = 2 * 2 ∧
      halveImageUbyte 1 4 4 [0, 255, 0, 255, 255, 0, 255, 0, 0, 255, 0, 255, 255, 0, 255, 0]
        [0, 0, 0, 0] 1 4 1 = .ok [128, 128, 128, 128] ∧
      scaleInternalUbyte 1 4 4 [0, 255, 0, 255, 255, 0, 255, 0, 0, 255, 0, 255, 255, 0, 255, 0]
          2 2 [0, 0, 0, 0] 1 4 1 =
        halveImageUbyte 1 4 4 [0, 255, 0, 255, 255, 0, 255, 0, 0, 255, 0, 255, 255, 0, 255, 0]
          [0, 0, 0, 0] 1 4 1 :=
  ⟨by decide, by decide, by decide,
    scaleInternalUbyte_halving 1 4 4 [0, 255, 0, 255, 255, 0, 255, 0, 0, 255, 0, 255, 255, 0, 255, 0]
      2 2 [0, 0, 0, 0] 1 4 1 (by decide) (by decide)⟩

/-- C19 (the code at failing inputs): under the identity mapping `scaleInternalUbyte`
panics with an index out of range on a tightly packed 1x1 image and on a tightly
packed 2x2 image; when the 2x2 image is followed by spare bytes the call completes and
the last output row is 0, 0 in place of 3, 4. -/
theorem scaleInternalUbyte_identity_fails :
    scaleInternalUbyte 1 1 1 [7] 1 1 [0] 1 1 1 = .error .indexOutOfRange ∧
    scaleInternalUbyte 1 2 2 [1, 2, 3, 4] 2 2 [0, 0, 0, 0] 1 2 1 = .error .indexOutOfRange ∧
    scaleInternalUbyte 1 2 2 [1, 2, 3, 4, 9, 9, 9] 2 2 [0, 0, 0, 0] 1 2 1 =
      .ok [1, 2, 0, 0] := by
  refine ⟨?_, ?_, ?_⟩ <;> decide!

/-- C20 (the code at failing inputs): for the integer ratios 1x2, 3x1 and 4x4 to one
output pixel, on sources followed by spare bytes, `scaleInternalUbyte` writes 5 for the
block 10, 20 (truncated mean 15), 0 for the block 10, 20, 30 (truncated mean 20) and 75
for a block of sixteen times 100 (truncated mean 100); on the tightly packed block
10, 20 it panics with an index out of range. -/
theorem scaleInternalUbyte_integer_ratio_not_mean :
    scaleInternalUbyte 1 1 2 [10, 20, 0] 1 1 [0] 1 1 1 = .ok [5] ∧
    scaleInternalUbyte 1 3 1 [10, 20, 30, 0] 1 1 [0] 1 3 1 = .ok [0] ∧
    scaleInternalUbyte 1 4 4
      [100, 100, 100, 100, 100, 100, 100, 100, 100, 100, 100, 100, 100, 100, 100, 100,
        0, 0, 0, 0] 1 1 [0] 1 4 1 = .ok [75] ∧
    scaleInternalUbyte 1 1 2 [10, 20] 1 1 [0] 1 1 1 = .error .indexOutOfRange := by
  refine ⟨?_, ?_, ?_, ?_⟩ <;> decide!

/-- C23 (the code at the failing input): on a tightly packed 4x5 single-component image
scaled to 4x4 `scaleInternalUbyte` panics with an index out of range, and so it does
under the identity mapping on a tightly packed 2x3 image scaled to 2x2; the 4x5 call
completes when one spare byte is behind the image. -/
theorem scaleInternalUbyte_reads_past_tight_buffer :
    scaleInternalUbyte 1 4 5
      [1, 2, 3, 4, 5, 6, 7, 8, 9, 10, 11, 12, 13, 14, 15, 16, 17, 18, 19, 20] 4 4
      [0, 0, 0, 0, 0, 0, 0, 0, 0, 0, 0, 0, 0, 0, 0, 0] 1 4 1 = .error .indexOutOfRange ∧
    scaleInternalUbyte 1 2 3 [1, 2, 3, 4, 5, 6] 2 2 [0, 0, 0, 0] 1 2 1 =
      .error .indexOutOfRange ∧
    scaleInternalUbyte 1 4 5
      [1, 2, 3, 4, 5, 6, 7, 8, 9, 10, 11, 12, 13, 14, 15, 16, 17, 18, 19, 20, 0] 4 4
      [0, 0, 0, 0, 0, 0, 0, 0, 0, 0, 0, 0, 0, 0, 0, 0] 1 4 1 =
      .ok [1, 2, 3, 4, 6, 7, 8, 9, 11, 12, 13, 14, 16, 17, 18, 19] := by
  refine ⟨?_, ?_, ?_⟩ <;> decide!

/-- C24: for an image of elements of the type `typ` with `c` elements per group, let
`g = bytesPerElement * c` be the size of a group, and in a context with unpack alignment
`A`, row length `rowLength`, `skipRows` and `skipPixels` let `rowsize` be the row of
`rowLength` groups (`width` groups when the row length is 0) rounded up to the next
multiple of `A`, and `off = skipRows * rowsize + skipPixels * g`.  Then
`gluBuild2DMipmapLevelsCore` takes the caller's buffer from `off` on with the row stride
`rowsize`: for an image of the fitted size, whatever the type, the level `userLevel` that
it uploads is the buffer from `off` on, with the row length of the context set and nothing
skipped; for unsigned bytes, the level `userLevel + 1` that it uploads for an image of the
fitted size is what `halveImageUbyte` makes of that source and stride, and the level
`userLevel` that it uploads for any other image is what the scaling kernel makes of them,
whatever the kernel; and component `k` of pixel `(x, y)` of that source is byte
`off + y * rowsize + x * g + k` of the caller's buffer. -/
theorem gluBuild2DMipmapLevelsCore_source_window (scaleInternalUbyte : ScaleKernel)
    (target internalFormat format typ userLevel baseLevel maxLevel : Int)
    (width height W H A rowLength skipRows skipPixels c g : Nat) (data : List Nat)
    (s : GLState)
    (hargs : checkMipmapArgs internalFormat format typ = .ok ())
    (hbm : typ ≠ gl.BITMAP)
    (hc : elementsPerGroup format typ = (c : Int))
    (hg : truncMul (bytesPerElement typ) (c : Int) = (g : Int))
    (hw : 1 ≤ width) (hh : 1 ≤ height) (hW : 1 ≤ W) (hH : 1 ≤ H)
    (hA : s.unpackAlignment = (A : Int)) (hApos : 0 < A)
    (hRL : s.unpackRowLength = (rowLength : Int))
    (hSR : s.unpackSkipRows = (skipRows : Int))
    (hSP : s.unpackSkipPixels = (skipPixels : Int))
    (hoff : sourceOffset skipRows skipPixels (sourceRowsize rowLength width g A) g <
      data.length) :
    (g : ℚ) = bytesPerElement typ * (c : ℚ) ∧
    (A ∣ sourceRowsize rowLength width g A ∧
      (if rowLength > 0 then rowLength else width) * g ≤ sourceRowsize rowLength width g A ∧
      sourceRowsize rowLength width g A < (if rowLength > 0 then rowLength else width) * g + A) ∧
    (∀ y x k, srcByte
        (data.drop (sourceOffset skipRows skipPixels (sourceRowsize rowLength width g A) g))
        (sourceRowsize rowLength width g A) g y x k =
      data.getD (sourceOffset skipRows skipPixels (sourceRowsize rowLength width g A) g +
        y * sourceRowsize rowLength width g A + x * g + k) 0) ∧
    (W = width → H = height → baseLevel ≤ userLevel ∧ userLevel ≤ maxLevel →
      ∃ r ∈ (gluBuild2DMipmapLevelsCore scaleInternalUbyte target internalFormat width
          height W H format typ userLevel baseLevel maxLevel data s).2.calls,
        r.level = userLevel ∧ r.typ = typ ∧
        r.pixels = some (data.drop
          (sourceOffset skipRows skipPixels (sourceRowsize rowLength width g A) g)) ∧
        r.unpackAlignment = A ∧ r.unpackRowLength = rowLength ∧ r.unpackSkipRows = 0 ∧
        r.unpackSkipPixels = 0) ∧
    (typ = gl.UNSIGNED_BYTE → W = width → H = height →
      (fitDepth (width : Int) (height : Int) : Int) + userLevel ≠ 0 →
      baseLevel ≤ userLevel + 1 ∧ userLevel + 1 ≤ maxLevel →
      ∀ out, out ≠ [] →
        halveImageUbyte (c : Int) (width : Int) (height : Int)
          (data.drop (sourceOffset skipRows skipPixels (sourceRowsize rowLength width g A) g))
          (List.replicate (max 1 (width / 2) * max 1 (height / 2) * c) 0) 1
          (sourceRowsize rowLength width g A : Nat) (g : Int) = .ok out →
        ∃ r ∈ (gluBuild2DMipmapLevelsCore scaleInternalUbyte target internalFormat width
            height W H format typ userLevel baseLevel maxLevel data s).2.calls,
          r.level = userLevel + 1 ∧ r.pixels = some out) ∧
    (typ = gl.UNSIGNED_BYTE → ¬ ((width : Int) = (W : Int) ∧ (height : Int) = (H : Int)) →
      baseLevel ≤ userLevel ∧ userLevel ≤ maxLevel →
      ∀ out, out ≠ [] →
        scaleInternalUbyte (c : Int) (width : Int) (height : Int)
          (data.drop (sourceOffset skipRows skipPixels (sourceRowsize rowLength width g A) g))
          (W : Int) (H : Int) (List.replicate (W * H * c) 0) 1
          (sourceRowsize rowLength width g A : Nat) (g : Int) = .ok out →
        ∃ r ∈ (gluBuild2DMipmapLevelsCore scaleInternalUbyte target internalFormat width
            height W H format typ userLevel baseLevel maxLevel data s).2.calls,
          r.level = userLevel ∧ r.pixels = some out) := by
  refine ⟨groupSize_eq typ hbm c g hg, sourceRowsize_spec rowLength width g A hApos,
    srcByte_drop data _ _ _, ?_, ?_, ?_⟩
  · rintro rfl rfl hlev
    exact core_upload_source scaleInternalUbyte target internalFormat format typ userLevel
      baseLevel maxLevel W H A rowLength skipRows skipPixels c g data s hargs hbm hc hg hw hh
      hA hApos hRL hSR hSP hoff hlev
  · rintro rfl rfl rfl hlevels hlev out hout hhalve
    have hcg : c = g := by
      rw [truncMul_one] at hg
      exact_mod_cast hg
    subst hcg
    exact core_halve_source scaleInternalUbyte target internalFormat format userLevel baseLevel
      maxLevel W H A rowLength skipRows skipPixels c data out s hargs hc hw hh hA hApos hRL hSR
      hSP hoff hlevels hhalve hout hlev
  · rintro rfl hfit hlev out hout hk
    have hcg : c = g := by
      rw [truncMul_one] at hg
      exact_mod_cast hg
    subst hcg
    exact core_scale_source scaleInternalUbyte target internalFormat format userLevel baseLevel
      maxLevel width height W H A rowLength skipRows skipPixels c data out s hargs hc hw hh hW
      hH hA hApos hRL hSR hSP hoff hfit hk hout hlev

/-- C24 in a context with alignment 1, rows of 5 pixels, 2 rows and 3 pixels skipped.
A 1x1 RGBA image of unsigned shorts has groups of 8 bytes, the stride is 40 and the
offset is 104, and the level 0 that is uploaded is the buffer from byte 104 on.  A 4x4
single-component image of unsigned bytes has the stride 5 and the offset 13, and the
level 1 that is uploaded is the halving of the 4x4 window that starts at byte 13. -/
theorem gluBuild2DMipmapLevelsCore_source_window_witness :
    (checkMipmapArgs gl.RGBA gl.RGBA gl.UNSIGNED_SHORT = .ok () ∧
      gl.UNSIGNED_SHORT ≠ gl.BITMAP ∧
      elementsPerGroup gl.RGBA gl.UNSIGNED_SHORT = ((4 : Nat) : Int) ∧
      truncMul (bytesPerElement gl.UNSIGNED_SHORT) ((4 : Nat) : Int) = ((8 : Nat) : Int) ∧
      exampleUnpack.unpackAlignment = ((1 : Nat) : Int) ∧
      exampleUnpack.unpackRowLength = ((5 : Nat) : Int) ∧
      exampleUnpack.unpackSkipRows = ((2 : Nat) : Int) ∧
      exampleUnpack.unpackSkipPixels = ((3 : Nat) : Int)) ∧
    (sourceRowsize 5 1 8 1 = 40 ∧ sourceOffset 2 3 (sourceRowsize 5 1 8 1) 8 = 104 ∧
      List.drop 104 (List.range 112) = [104, 105, 106, 107, 108, 109, 110, 111]) ∧
    (∃ r ∈ (gluBuild2DMipmapLevelsCore scaleInternalUbyte gl.TEXTURE_2D gl.RGBA
        ((1 : Nat) : Int) ((1 : Nat) : Int) ((1 : Nat) : Int) ((1 : Nat) : Int) gl.RGBA
        gl.UNSIGNED_SHORT 0 0 0 (List.range 112) exampleUnpack).2.calls,
      r.level = 0 ∧ r.typ = gl.UNSIGNED_SHORT ∧
      r.pixels = some ((List.range 112).drop
        (sourceOffset 2 3 (sourceRowsize 5 1 8 1) 8)) ∧
      r.unpackAlignment = ((1 : Nat) : Int) ∧ r.unpackRowLength = ((5 : Nat) : Int) ∧
      r.unpackSkipRows = 0 ∧ r.unpackSkipPixels = 0) ∧
    (checkMipmapArgs gl.LUMINANCE gl.LUMINANCE gl.UNSIGNED_BYTE = .ok () ∧
      elementsPerGroup gl.LUMINANCE gl.UNSIGNED_BYTE = ((1 : Nat) : Int)) ∧
    (sourceRowsize 5 4 1 1 = 5 ∧ sourceOffset 2 3 (sourceRowsize 5 4 1 1) 1 = 13) ∧
    halveImageUbyte ((1 : Nat) : Int) ((4 : Nat) : Int) ((4 : Nat) : Int)
      (List.drop (sourceOffset 2 3 (sourceRowsize 5 4 1 1) 1)
        [0, 0, 0, 0, 0, 0, 0, 0, 0, 0, 0, 0, 0, 1, 2, 3, 4, 0, 5, 6, 7, 8, 0, 9, 10, 11, 12,
          0, 13, 14, 15, 16, 0])
      (List.replicate (max 1 (4 / 2) * max 1 (4 / 2) * 1) 0) 1
      ((sourceRowsize 5 4 1 1 : Nat) : Int) ((1 : Nat) : Int) = .ok [4, 6, 12, 14] ∧
    ∃ r ∈ (gluBuild2DMipmapLevelsCore scaleInternalUbyte gl.TEXTURE_2D gl.LUMINANCE
        ((4 : Nat) : Int) ((4 : Nat) : Int) ((4 : Nat) : Int) ((4 : Nat) : Int) gl.LUMINANCE
        gl.UNSIGNED_BYTE 0 0 2
        [0, 0, 0, 0, 0, 0, 0, 0, 0, 0, 0, 0, 0, 1, 2, 3, 4, 0, 5, 6, 7, 8, 0, 9, 10, 11, 12,
          0, 13, 14, 15, 16, 0] exampleUnpack).2.calls,
      r.level = 0 + 1 ∧ r.pixels = some [4, 6, 12, 14] :=
  ⟨⟨by decide, by decide, by decide, by decide!, rfl, rfl, rfl, rfl⟩,
    ⟨by decide, by decide, by decide⟩,
    (gluBuild2DMipmapLevelsCore_source_window scaleInternalUbyte gl.TEXTURE_2D gl.RGBA
      gl.RGBA gl.UNSIGNED_SHORT 0 0 0 1 1 1 1 1 5 2 3 4 8 (List.range 112) exampleUnpack
      (by decide) (by decide) (by decide) (by decide!) (by decide) (by decide) (by decide)
      (by decide) rfl (by decide) rfl rfl rfl (by decide)).2.2.2.1 rfl rfl (by decide),
    ⟨by decide, by decide⟩, ⟨by decide, by decide⟩, by decide!,
    (gluBuild2DMipmapLevelsCore_source_window scaleInternalUbyte gl.TEXTURE_2D gl.LUMINANCE
      gl.LUMINANCE gl.UNSIGNED_BYTE 0 0 2 4 4 4 4 1 5 2 3 1 1
      [0, 0, 0, 0, 0, 0, 0, 0, 0, 0, 0, 0, 0, 1, 2, 3, 4, 0, 5, 6, 7, 8, 0, 9, 10, 11, 12,
        0, 13, 14, 15, 16, 0] exampleUnpack (by decide) (by decide) (by decide) (by decide!)
      (by decide) (by decide) (by decide) (by decide) rfl (by decide) rfl rfl rfl
      (by decide)).2.2.2.2.1 rfl rfl rfl (by simp [fitDepth]) (by decide) [4, 6, 12, 14]
      (by decide) (by decide!)⟩

/-- C25: in an iteration of the level loop whose halved level (the image `out` written
by `halveImageUbyte`, `newheight` rows of `rowsize` bytes) has a row size that is not a
multiple of the unpack alignment `A`, the level is handed to `gl.TexImage2D` as a new
buffer `img` of `L * newheight` bytes, where `L` is the smallest multiple of `A` that
is at least `rowsize`, and byte `r * L + b` of `img` is byte `r * rowsize + b` of `out`
for every row `r < newheight` and `b < rowsize`; the iteration returns, so the copy
stays within both buffers. -/
theorem levelBody_repacks_rows (target internalFormat format baseLevel maxLevel cmpts : Int)
    (elementSize : ℚ) (groupSize : Int) (psm : PixelStorageMode) (st : LevelState)
    (s : GLState) (A rowsize newwidth newheight : Nat) (out : List Nat)
    (hhalve : halveImageUbyte cmpts st.newwidth st.newheight st.srcImage st.dstImage
      (truncInt elementSize) st.rowsize groupSize = .ok out)
    (hnw : (if st.newwidth > 1 then st.newwidth.tdiv 2 else st.newwidth) = (newwidth : Int))
    (hrs : (if st.newwidth > 1 then st.rowsize.tdiv 2 else st.rowsize) = (rowsize : Int))
    (hnh : (if st.newheight > 1 then st.newheight.tdiv 2 else st.newheight) = (newheight : Int))
    (hA : psm.UnpackAlignment = (A : Int)) (hApos : 0 < A) (hpad : rowsize % A ≠ 0)
    (hh : 1 ≤ newheight) (hlen : rowsize * newheight ≤ out.length)
    (hlevel : baseLevel ≤ st.level ∧ st.level ≤ maxLevel) :
    ∃ (L : Nat) (img : List Nat),
      (A ∣ L ∧ rowsize ≤ L ∧ ∀ m, A ∣ m → rowsize ≤ m → L ≤ m) ∧
      img.length = L * newheight ∧
      (∀ r b, r < newheight → b < rowsize → img[r * L + b]? = out[r * rowsize + b]?) ∧
      levelBody target internalFormat format gl.UNSIGNED_BYTE baseLevel maxLevel cmpts
          elementSize groupSize psm st s =
        (.ok { level := st.level, newwidth := newwidth, newheight := newheight,
               rowsize := rowsize, srcImage := out, dstImage := st.srcImage },
          (TexImage2D target st.level internalFormat newwidth newheight format
            gl.UNSIGNED_BYTE (some img) s).2) := by
  obtain ⟨img, h1, h2, h3⟩ := levelBody_repack_aux target internalFormat format baseLevel
    maxLevel cmpts elementSize groupSize psm st s A rowsize newwidth newheight out hhalve hnw
    hrs hnh hA hApos hpad hh hlen hlevel
  exact ⟨rowsize + A - rowsize % A, img, roundUp_least A rowsize hApos hpad, h1, h2, h3⟩

/-- C25 at level 1 of a 4x4 single-component image under an unpack alignment of 4: the
halved level is 2x2 with rows of 2 bytes, and the buffer handed over has two rows of 4
bytes. -/
theorem levelBody_repacks_rows_witness :
    halveImageUbyte 1 4 4 [0, 1, 2, 3, 4, 5, 6, 7, 8, 9, 10, 11, 12, 13, 14, 15] [0, 0, 0, 0]
        (truncInt (bytesPerElement gl.UNSIGNED_BYTE)) 4 1 = .ok [3, 5, 11, 13] ∧
      (0 < 4 ∧ 2 % 4 ≠ 0 ∧ 1 ≤ 2 ∧ 2 * 2 ≤ [3, 5, 11, 13].length) ∧
      ∃ (L : Nat) (img : List Nat),
        (4 ∣ L ∧ 2 ≤ L ∧ ∀ m, 4 ∣ m → 2 ≤ m → L ≤ m) ∧
        img.length = L * 2 ∧
        (∀ r b, r < 2 → b < 2 → img[r * L + b]? = [3, 5, 11, 13][r * 2 + b]?) ∧
        levelBody gl.TEXTURE_2D gl.LUMINANCE gl.LUMINANCE gl.UNSIGNED_BYTE 0 2 1
            (bytesPerElement gl.UNSIGNED_BYTE) 1 { UnpackAlignment := 4 }
            { level := 1, newwidth := 4, newheight := 4, rowsize := 4,
              srcImage := [0, 1, 2, 3, 4, 5, 6, 7, 8, 9, 10, 11, 12, 13, 14, 15],
              dstImage := [0, 0, 0, 0] } (exampleGL 1024) =
          (.ok { level := 1, newwidth := ((2 : Nat) : Int), newheight := ((2 : Nat) : Int),
                 rowsize := ((2 : Nat) : Int), srcImage := [3, 5, 11, 13],
                 dstImage := [0, 1, 2, 3, 4, 5, 6, 7, 8, 9, 10, 11, 12, 13, 14, 15] },
            (TexImage2D gl.TEXTURE_2D 1 gl.LUMINANCE ((2 : Nat) : Int) ((2 : Nat) : Int)
              gl.LUMINANCE gl.UNSIGNED_BYTE (some img) (exampleGL 1024)).2) :=
  ⟨by decide!, ⟨by decide, by decide, by decide, by decide⟩,
    levelBody_repacks_rows gl.TEXTURE_2D gl.LUMINANCE gl.LUMINANCE 0 2 1
      (bytesPerElement gl.UNSIGNED_BYTE) 1 { UnpackAlignment := 4 }
      { level := 1, newwidth := 4, newheight := 4, rowsize := 4,
        srcImage := [0, 1, 2, 3, 4, 5, 6, 7, 8, 9, 10, 11, 12, 13, 14, 15],
        dstImage := [0, 0, 0, 0] } (exampleGL 1024) 4 2 2 2 [3, 5, 11, 13]
      (by decide!) (by decide) (by decide) (by decide) rfl (by decide) (by decide) (by decide)
      (by decide) (by decide)⟩

/-- C26 (counterexample): for `v = 3 * 2^61` the nearest power of two is `2^63`; the
product `i * 4` wraps and `nearestPow2` returns `-2^63`, which is no power of two. -/
theorem nearestPow2_wraps :
    nearestPow2 (3 * 2 ^ 61) = .ok (-2 ^ 63) ∧ IsNearestPow2 (2 ^ 63) (3 * 2 ^ 61) ∧
      ¬ IsNearestPow2 (-2 ^ 63) (3 * 2 ^ 61) :=
  ⟨nearestPow2_overflow (3 * 2 ^ 61) (le_refl _) (by norm_num),
    ⟨⟨63, rfl⟩, by norm_num, by norm_num⟩, fun h => absurd h.pos (by norm_num)⟩

/-- C26 (amended): `nearestPow2` returns for every integer `v` (the loop never runs out
of iterations): -1 for `v <= 0`; for `1 <= v < 3 * 2^61` the power of two `p` nearest to
`v`, ties rounded up, which is the only power of two with `3 * p <= 4 * v < 6 * p`, and
hence `v` itself when `v` is a power of two up to `2^62`; and `-2^63` for the other values
of a 64-bit `int`, those from `3 * 2^61` on. -/
theorem nearestPow2_nearest (v : Int) :
    (∃ p : Int, nearestPow2 v = .ok p) ∧
    (v ≤ 0 → nearestPow2 v = .ok (-1)) ∧
    (1 ≤ v → v < 3 * 2 ^ 61 → ∃ p : Int, nearestPow2 v = .ok p ∧ IsNearestPow2 p v ∧
      ∀ q : Int, IsNearestPow2 q v → q = p) ∧
    (∀ n : Nat, n ≤ 62 → v = 2 ^ n → nearestPow2 v = .ok v) ∧
    (3 * 2 ^ 61 ≤ v → v < 2 ^ 63 → nearestPow2 v = .ok (-2 ^ 63)) := by
  refine ⟨?_, fun h => ?_, fun h hb => ?_, fun n hn62 hn => ?_,
    fun h0 h1 => nearestPow2_overflow v h0 h1⟩
  · by_cases h : v ≤ 0
    · exact ⟨-1, by rw [nearestPow2, if_pos h]⟩
    · obtain ⟨q, hq, -⟩ := nearestPow2_wrap v (by omega)
      exact ⟨_, hq⟩
  · rw [nearestPow2, if_pos h]
  · obtain ⟨p, hp, hnear⟩ := nearestPow2_spec v h hb
    exact ⟨p, hp, hnear, fun q hq => isNearestPow2_unique hnear hq⟩
  · have hpos : (0 : Int) < 2 ^ n := by positivity
    have hle : (2 : Int) ^ n ≤ 2 ^ 62 := pow_le_pow_right₀ (by norm_num) hn62
    have hb : v < 3 * 2 ^ 61 := by rw [hn]; norm_num at hle ⊢; omega
    obtain ⟨p, hp, hnear⟩ := nearestPow2_spec v (by omega) hb
    have hv : IsNearestPow2 v v := ⟨⟨n, hn⟩, by omega, by omega⟩
    rw [hp, isNearestPow2_unique hnear hv]

/-- C26 (amended) at 5, 3 and 6, which go to 4, 4 and 8, at the power of two 64 and
at -7. -/
theorem nearestPow2_nearest_witness :
    ((1 : Int) ≤ 5 ∧ (5 : Int) < 3 * 2 ^ 61 ∧
      ∃ p : Int, nearestPow2 5 = .ok p ∧ IsNearestPow2 p 5 ∧
        ∀ q : Int, IsNearestPow2 q 5 → q = p) ∧
    nearestPow2 5 = .ok 4 ∧ nearestPow2 3 = .ok 4 ∧ nearestPow2 6 = .ok 8 ∧
    ((64 : Int) = 2 ^ 6 ∧ nearestPow2 64 = .ok 64) ∧
    ((-7 : Int) ≤ 0 ∧ nearestPow2 (-7) = .ok (-1)) :=
  ⟨⟨by decide, by norm_num, (nearestPow2_nearest 5).2.2.1 (by decide) (by norm_num)⟩,
    by decide, by decide, by decide,
    ⟨by decide, (nearestPow2_nearest 64).2.2.2.1 6 (by decide) (by decide)⟩,
    ⟨by decide, (nearestPow2_nearest (-7)).2.1 (by decide)⟩⟩

/-- C21 (counterexample): a sphere with valid parameters and smooth normals is refused
when the draw style is point, line or silhouette. -/
theorem gluSphere_refuses_other_draw_styles :
    gluSphere { NewQuadric with DrawStyle := GLU_POINT } 1 8 8 = .error .assertFailed ∧
      gluSphere { NewQuadric with DrawStyle := GLU_LINE } 1 8 8 = .error .assertFailed ∧
      gluSphere { NewQuadric with DrawStyle := GLU_SILHOUETTE } 1 8 8 = .error .assertFailed :=
  ⟨gluSphere_bad_style _ 1 8 8 (by norm_num) (by norm_num) (by norm_num) (by decide),
    gluSphere_bad_style _ 1 8 8 (by norm_num) (by norm_num) (by norm_num) (by decide),
    gluSphere_bad_style _ 1 8 8 (by norm_num) (by norm_num) (by norm_num) (by decide)⟩

/-- C21 (amended): for a quadric whose normal style is smooth or flat, `gluSphere` fails
its assertion exactly when `slices < 2`, `stacks < 1`, `radius < 0` or the draw style is
not fill, and it completes exactly in the other cases. -/
theorem gluSphere_fails_iff (qobj : Quadric) (radius : ℚ) (slices stacks' : Int)
    (hN : qobj.Normals = GLU_SMOOTH ∨ qobj.Normals = GLU_FLAT) :
    (gluSphere qobj radius slices stacks' = .error .assertFailed ↔
      (slices < 2 ∨ stacks' < 1 ∨ radius < 0 ∨ qobj.DrawStyle ≠ GLU_FILL)) ∧
    ((∃ cmds, gluSphere qobj radius slices stacks' = .ok cmds) ↔
      ¬ (slices < 2 ∨ stacks' < 1 ∨ radius < 0 ∨ qobj.DrawStyle ≠ GLU_FILL)) := by
  by_cases h : slices < 2 ∨ stacks' < 1 ∨ radius < 0 ∨ qobj.DrawStyle ≠ GLU_FILL
  · have hfail : gluSphere qobj radius slices stacks' = .error .assertFailed := by
      by_cases hb : slices < 2 ∨ stacks' < 1 ∨ radius < 0
      · exact gluSphere_bad_args qobj radius slices stacks' hb
      · have hs : 2 ≤ slices := not_lt.mp fun h1 => hb (Or.inl h1)
        have ht : 1 ≤ stacks' := not_lt.mp fun h1 => hb (Or.inr (Or.inl h1))
        have hr : 0 ≤ radius := not_lt.mp fun h1 => hb (Or.inr (Or.inr h1))
        rcases h with h | h | h | h
        · exact absurd h (not_lt.mpr hs)
        · exact absurd h (not_lt.mpr ht)
        · exact absurd h (not_lt.mpr hr)
        · exact gluSphere_bad_style qobj radius slices stacks' hs ht hr h
    refine ⟨⟨fun _ => h, fun _ => hfail⟩, ⟨?_, fun hn => absurd h hn⟩⟩
    rintro ⟨cmds, hok⟩
    rw [hfail] at hok
    exact Except.noConfusion hok
  · have hs : 2 ≤ slices := not_lt.mp fun h1 => h (Or.inl h1)
    have ht : 1 ≤ stacks' := not_lt.mp fun h1 => h (Or.inr (Or.inl h1))
    have hr : 0 ≤ radius := not_lt.mp fun h1 => h (Or.inr (Or.inr (Or.inl h1)))
    have hD : qobj.DrawStyle = GLU_FILL :=
      not_not.mp fun h1 => h (Or.inr (Or.inr (Or.inr h1)))
    obtain ⟨cmds, hok, _⟩ := gluSphere_good qobj radius slices stacks' hs ht hr hD hN
    refine ⟨⟨?_, fun hc => absurd hc h⟩, ⟨fun _ => h, fun _ => ⟨cmds, hok⟩⟩⟩
    intro hfail
    rw [hok] at hfail
    exact Except.noConfusion hfail

theorem gluSphere_fails_iff_witness :
    (NewQuadric.Normals = GLU_SMOOTH ∨ NewQuadric.Normals = GLU_FLAT) ∧
      (∃ cmds, gluSphere NewQuadric 1 8 8 = .ok cmds) ∧
      gluSphere NewQuadric 1 1 8 = .error .assertFailed :=
  ⟨Or.inl rfl,
    (gluSphere_fails_iff NewQuadric 1 8 8 (Or.inl rfl)).2.2 (by simp [NewQuadric]),
    (gluSphere_fails_iff NewQuadric 1 1 8 (Or.inl rfl)).1.2 (Or.inl (by norm_num))⟩

/-- The normal style none: the switches that set up a fan or a strip have no case for
it, so a sphere with valid parameters and the fill draw style stops at their
`assert(false)`, with and without texture coordinates, although the switches inside the
vertex loops have a case `GLU_NONE`. -/
theorem gluSphere_none_stops_at_setup :
    gluSphere { NewQuadric with Normals := GLU_NONE } 1 8 8 = .error .assertFailed ∧
      gluSphere { NewQuadric with Normals := GLU_NONE, TextureCoords := true } 1 8 8 =
        .error .assertFailed :=
  ⟨gluSphere_bad_normals _ 1 8 8 (by norm_num) (by norm_num) (by norm_num) (by decide),
    gluSphere_bad_normals _ 1 8 8 (by norm_num) (by norm_num) (by norm_num) (by decide)⟩

/-- C22: with the fill draw style, smooth or flat normals and valid parameters,
`gluSphere` completes, and its calls other than the normals are those of `sphereShape`
for `slices` and `stacks` after their clamp to 239: without texture coordinates two
triangle fans, each an apex and the `slices + 1` vertices of a ring, and the
`max(0, stacks - 2)` quad strips between them; with texture coordinates the `stacks`
quad strips, every vertex after its texture coordinate; in a strip each slice gives the
vertex of ring `j + 1` and then that of ring `j` when the orientation is outside, and
the other way round when it is inside. -/
theorem gluSphere_shape (qobj : Quadric) (radius : ℚ) (slices stacks' : Int)
    (hD : qobj.DrawStyle = GLU_FILL)
    (hN : qobj.Normals = GLU_SMOOTH ∨ qobj.Normals = GLU_FLAT)
    (hs : 2 ≤ slices) (ht : 1 ≤ stacks') (hr : 0 ≤ radius) :
    ∃ cmds, gluSphere qobj radius slices stacks' = .ok cmds ∧
      shape cmds = sphereShape qobj radius (clampCache slices) (clampCache stacks') :=
  gluSphere_good qobj radius slices stacks' hs ht hr hD hN

theorem gluSphere_shape_witness :
    ∃ cmds, gluSphere NewQuadric 1 8 8 = .ok cmds ∧
      shape cmds = sphereShape NewQuadric 1 (clampCache 8) (clampCache 8) :=
  gluSphere_shape NewQuadric 1 8 8 rfl (Or.inl rfl) (by norm_num) (by norm_num) (by norm_num)

/-- C27: no call of `gluSphere`, whatever the quadric and the arguments, ends in an
index out of range: every index into the cache arrays that it reaches is within
`0 .. 239`. -/
theorem gluSphere_index_in_range (qobj : Quadric) (radius : ℚ) (slices stacks' : Int) :
    gluSphere qobj radius slices stacks' ≠ .error .indexOutOfRange := by
  by_cases hb : slices < 2 ∨ stacks' < 1 ∨ radius < 0
  · rw [gluSphere_bad_args qobj radius slices stacks' hb]
    exact fun h => Err.noConfusion (Except.error.inj h)
  · have hs : 2 ≤ slices := not_lt.mp fun h1 => hb (Or.inl h1)
    have ht : 1 ≤ stacks' := not_lt.mp fun h1 => hb (Or.inr (Or.inl h1))
    have hr : 0 ≤ radius := not_lt.mp fun h1 => hb (Or.inr (Or.inr h1))
    by_cases hD : qobj.DrawStyle = GLU_FILL
    · by_cases hN : qobj.Normals = GLU_SMOOTH ∨ qobj.Normals = GLU_FLAT
      · obtain ⟨cmds, hok, _⟩ := gluSphere_good qobj radius slices stacks' hs ht hr hD hN
        rw [hok]
        exact fun h => Except.noConfusion h
      · rw [gluSphere_bad_normals qobj radius slices stacks' hs ht hr hN]
        exact fun h => Err.noConfusion (Except.error.inj h)
    · rw [gluSphere_bad_style qobj radius slices stacks' hs ht hr hD]
      exact fun h => Err.noConfusion (Except.error.inj h)

end Glu
